import Mathlib

/-!
# Verification of the Advent of Code 2023 day 23 solver ("Snow Island")

Shallow embedding of `src/_2023/_23.rs`: the tile grid, its parser
(`FromStr for SnowIsland`), the neighbour rule (`valid_neighbors`), the
stack-based depth-first search with a global visited set (`dfs`), and the
public entry points `longest_path` and `longest_climbing_path`.

Conventions of the embedding:
* Rust `&str` input is a `List Char`; `str::lines` is modelled by `lines`
  (split inclusively on `'\n'`, then strip a trailing `"\n"` or `"\r\n"`),
  matching the Rust standard library's semantics.
* The `HashMap<Point, Tile>` is the association list of the exact key/value
  pairs the Rust code inserts (all keys distinct); `HashSet` membership is
  list membership, and `collect::<HashSet<_>>().len()` is `List.dedup.length`.
* `i32` coordinates are `Int` (the values involved never approach 2^31).
* `usize` subtraction `a - b` panics on underflow in a debug build; it is
  modelled by `usize_sub : Nat → Nat → Option Nat` returning `none` exactly
  on underflow, so `longest_path` returns an `Option Nat`.
* The `while let Some(path) = path_stack.pop_front()` loop is modelled with
  explicit fuel (`dfsLoop`); the fuel chosen in `dfs` dominates the loop's
  true iteration count (one iteration per stack pop, and at most
  `1 + 4·(|grid|+1)` paths are ever pushed, since a vertex is expanded at
  most once and each expansion pushes at most four paths).
-/

namespace Snow

/-- `SlopeDirection` from the source. -/
inductive SlopeDirection where
  | Up
  | Down
  | Left
  | Right
deriving DecidableEq

/-- `Tile` from the source: `Path` ('.'), `Forest` ('#'), `Slope` ('^v<>'). -/
inductive Tile where
  | Path
  | Forest
  | Slope (d : SlopeDirection)
deriving DecidableEq

/-- `Point` from the source: `i32` coordinates, structural equality. -/
structure Point where
  x : Int
  y : Int
deriving DecidableEq

/-- `Point::neighbors`: the four axis-aligned neighbours, in the source's
array order `[(x, y+1), (x, y-1), (x+1, y), (x-1, y)]`. -/
def Point.neighbors (p : Point) : List Point :=
  [⟨p.x, p.y + 1⟩, ⟨p.x, p.y - 1⟩, ⟨p.x + 1, p.y⟩, ⟨p.x - 1, p.y⟩]

/-- `SnowIsland` from the source; `grid` is the `HashMap<Point, Tile>` as the
association list of inserted pairs. -/
structure SnowIsland where
  grid : List (Point × Tile)
  height : Int
  width : Int
deriving DecidableEq

/-- `HashMap::get` on the association list. -/
def SnowIsland.tileAt (g : SnowIsland) (p : Point) : Option Tile :=
  List.lookup p g.grid

/-- One segment per `'\n'`, the newline kept at the segment's end, as Rust's
`split_inclusive('\n')`; the empty string gives no segment. -/
def splitInclusiveNl : List Char → List (List Char)
  | [] => []
  | c :: rest =>
    if c = '\n' then ['\n'] :: splitInclusiveNl rest
    else
      match splitInclusiveNl rest with
      | [] => [[c]]
      | l :: ls => (c :: l) :: ls

/-- Strip one trailing `"\r\n"` or `"\n"`, as Rust's `str::lines` does to
each inclusive segment (a `'\r'` not followed by `'\n'` is kept). -/
def stripLineEnd (l : List Char) : List Char :=
  match l.reverse with
  | '\n' :: '\r' :: rest => rest.reverse
  | '\n' :: rest => rest.reverse
  | _ => l

/-- Rust `str::lines` on the input text. -/
def lines (s : List Char) : List (List Char) :=
  (splitInclusiveNl s).map stripLineEnd

/-- The `match c` of `from_str`: one tile per recognised character, otherwise
the error `format!("{c} is not a valid Tile")` (as a character list). -/
def parseTile (c : Char) : Except (List Char) Tile :=
  match c with
  | '#' => .ok .Forest
  | '.' => .ok .Path
  | '>' => .ok (.Slope .Right)
  | '<' => .ok (.Slope .Left)
  | '^' => .ok (.Slope .Up)
  | 'v' => .ok (.Slope .Down)
  | _ => .error (c :: " is not a valid Tile".data)

/-- The enumerated cells of the input, line by line then column by column:
the iteration order of `s.lines().enumerate().flat_map(...)`. -/
def cellsOf (s : List Char) : List (Point × Char) :=
  (lines s).enum.flatMap fun yl =>
    yl.2.enum.map fun xc => (⟨(xc.1 : Int), (yl.1 : Int)⟩, xc.2)

/-- `collect::<Result<HashMap<_, _>, _>>()`: parse every cell's character,
stopping at the first invalid one. -/
def collectTiles : List (Point × Char) → Except (List Char) (List (Point × Tile))
  | [] => .ok []
  | (p, c) :: rest =>
    match parseTile c with
    | .error e => .error e
    | .ok t =>
      match collectTiles rest with
      | .error e => .error e
      | .ok r => .ok ((p, t) :: r)

/-- `FromStr for SnowIsland`: `height` is the running maximum of `y + 1`,
`width` the running maximum of the line lengths, the grid the parsed cells. -/
def fromStr (s : List Char) : Except (List Char) SnowIsland :=
  let ls := lines s
  let height : Int := ls.enum.foldl (fun h yl => max h ((yl.1 : Int) + 1)) 0
  let width : Int := ls.foldl (fun w l => max w (l.length : Int)) 0
  match collectTiles (cellsOf s) with
  | .error e => .error e
  | .ok grid => .ok ⟨grid, height, width⟩

/-- The body of the `match self.grid.get(&neighbor)` in `valid_neighbors`:
may the walker step from `point` onto `neighbor`? -/
def canMoveTo (g : SnowIsland) (point neighbor : Point) : Bool :=
  match g.tileAt neighbor with
  | some .Path => true
  | some (.Slope .Right) => neighbor.x = point.x + 1
  | some (.Slope .Left) => neighbor.x = point.x - 1
  | some (.Slope .Down) => neighbor.y = point.y + 1
  | some (.Slope .Up) => neighbor.y = point.y - 1
  | some .Forest => false
  | none => false

/-- `SnowIsland::valid_neighbors`: the four neighbours kept by the slope
rule, in the source's iteration order. -/
def SnowIsland.valid_neighbors (g : SnowIsland) (point : Point) : List Point :=
  point.neighbors.filter (canMoveTo g point)

/-- The `while let` loop of `SnowIsland::dfs`. The stack holds partial paths
(most recently pushed first, as the Rust code pops and pushes at the front);
`visited` is the global visited set, `best` the longest complete path so
far. The fuel only bounds the iteration count; `dfs` supplies enough of it. -/
def dfsLoop (g : SnowIsland) (goal : Point) :
    Nat → List (List Point) → List Point → List Point → List Point
  | 0, _, _, best => best
  | _ + 1, [], _, best => best
  | fuel + 1, path :: stack, visited, best =>
    match path.getLast? with
    | none => best
    | some current =>
      if current ∈ visited then
        dfsLoop g goal fuel stack visited best
      else
        let visited' := current :: visited
        let best' := if current = goal ∧ best.length < path.length then path else best
        let stack' :=
          (g.valid_neighbors current).foldl (fun st n => (path ++ [n]) :: st) stack
        dfsLoop g goal fuel stack' visited' best'

/-- One iteration of the `while let` loop as a state transformer on
`(stack, visited, best)`, used to evaluate `dfsLoop` in bounded chunks; the
loop's early return on an impossible empty path is modelled by clearing the
stack. -/
def dfsStep (g : SnowIsland) (goal : Point) :
    List (List Point) × List Point × List Point →
      List (List Point) × List Point × List Point
  | ([], visited, best) => ([], visited, best)
  | (path :: stack, visited, best) =>
    match path.getLast? with
    | none => ([], visited, best)
    | some current =>
      if current ∈ visited then (stack, visited, best)
      else
        ((g.valid_neighbors current).foldl (fun st n => (path ++ [n]) :: st) stack,
          current :: visited,
          if current = goal ∧ best.length < path.length then path else best)

/-- `SnowIsland::dfs`: run the loop from the one-element path `[start]` with
fuel that dominates the loop's iteration count. -/
def SnowIsland.dfs (g : SnowIsland) (start goal : Point) : List Point :=
  dfsLoop g goal (4 * g.grid.length + 8) [[start]] [] []

/-- Debug-build `usize` subtraction: `none` models the underflow panic. -/
def usize_sub (a b : Nat) : Option Nat :=
  if b ≤ a then some (a - b) else none

/-- The start vertex fixed by `longest_path`. -/
def startPoint : Point := ⟨1, 0⟩

/-- The goal vertex fixed by `longest_path`. -/
def SnowIsland.goalPoint (g : SnowIsland) : Point := ⟨g.width - 2, g.height - 1⟩

/-- `SnowIsland::longest_path`: collect the dfs path into a set and return
its size minus one ("start doesn't count as taking a step"). -/
def SnowIsland.longest_path (g : SnowIsland) : Option Nat :=
  usize_sub ((g.dfs startPoint g.goalPoint).dedup).length 1

/-- `SnowIsland::longest_climbing_path`: the source is an unimplemented stub
that returns `0`. -/
def SnowIsland.longest_climbing_path (_ : SnowIsland) : Nat := 0

instance {e a : Type} [DecidableEq e] [DecidableEq a] : DecidableEq (Except e a) := fun x y =>
  match x, y with
  | .ok u, .ok v => if h : u = v then .isTrue (by rw [h]) else .isFalse (by simp [h])
  | .error u, .error v => if h : u = v then .isTrue (by rw [h]) else .isFalse (by simp [h])
  | .ok _, .error _ => .isFalse (by simp)
  | .error _, .ok _ => .isFalse (by simp)

/-- The display form of a tile, from `impl Display for Tile`. -/
def Tile.display : Tile → Char
  | .Path => '.'
  | .Forest => '#'
  | .Slope .Up => '^'
  | .Slope .Down => 'v'
  | .Slope .Left => '<'
  | .Slope .Right => '>'

/-- Modelled from the spec's round-trip sentence: the characters of row `y`,
left to right from column `x`, stopping at the first absent coordinate (the
grid rows are contiguous from column 0); the fuel is the grid width. -/
def rowChars (g : SnowIsland) (y : Int) : Nat → Int → List Char
  | 0, _ => []
  | fuel + 1, x =>
    match g.tileAt ⟨x, y⟩ with
    | some t => t.display :: rowChars g y fuel (x + 1)
    | none => []

/-- Modelled from the spec's round-trip sentence: re-serialize every tile of
the parsed grid via its display form, in grid order, with line breaks
restored between rows. -/
def serialize (g : SnowIsland) : List Char :=
  List.intercalate ['\n']
    (List.map (fun y : Nat => rowChars g (y : Int) g.width.toNat 0)
      (List.range g.height.toNat))

/-- The recognised tile characters, from the spec's input alphabet. -/
def tileChars : List Char := ['.', '#', '^', 'v', '<', '>']

/-- The error message `from_str` builds for an invalid character. -/
def invalidTileMsg (c : Char) : List Char := c :: " is not a valid Tile".data

/-- The tile a recognised character parses to (junk `Path` for an invalid
character; only applied to recognised ones). -/
def forceTile (c : Char) : Tile :=
  match parseTile c with
  | .ok t => t
  | .error _ => .Path

/-- One step of the slope-constrained walk: `b` is among the valid
neighbours of `a`. -/
def StepRel (g : SnowIsland) (a b : Point) : Prop := b ∈ g.valid_neighbors a

/-- A slope-respecting walk from the fixed start to the fixed goal: the
vertex sequence starts at `startPoint`, each consecutive pair is related by
`valid_neighbors`, and it ends at the goal. -/
def ValidHike (g : SnowIsland) (p : List Point) : Prop :=
  p.head? = some startPoint ∧ List.Chain' (StepRel g) p ∧ p.getLast? = some g.goalPoint

/-- The step counts of the slope-respecting walks from start to goal. -/
def hikeLengths (g : SnowIsland) : Set Nat :=
  {n | ∃ p, ValidHike g p ∧ p.length - 1 = n}

/-- The canonical 23-line sample grid of the worked example (`SAMPLE` in the
source's tests). -/
def sampleText : List Char :=
  ("#.#####################\n" ++
   "#.......#########...###\n" ++
   "#######.#########.#.###\n" ++
   "###.....#.>.>.###.#.###\n" ++
   "###v#####.#v#.###.#.###\n" ++
   "###.>...#.#.#.....#...#\n" ++
   "###v###.#.#.#########.#\n" ++
   "###...#.#.#.......#...#\n" ++
   "#####.#.#.#######.#.###\n" ++
   "#.....#.#.#.......#...#\n" ++
   "#.#####.#.#.#########v#\n" ++
   "#.#...#...#...###...>.#\n" ++
   "#.#.#v#######v###.###v#\n" ++
   "#...#.>.#...>.>.#.###.#\n" ++
   "#####v#.#.###v#.#.###.#\n" ++
   "#.....#...#...#.#.#...#\n" ++
   "#.#########.###.#.#.###\n" ++
   "#...###...#...#...#.###\n" ++
   "###.###.#.###v#####v###\n" ++
   "#...#...#.#.>.>.#.>.###\n" ++
   "#.###.###.#.###.#.#v###\n" ++
   "#.....###...###...#...#\n" ++
   "#####################.#").data

/-- A 5×3 grid whose goal `(3, 2)` is fully enclosed by `Forest` tiles. -/
def enclosedText : List Char := ("#.###\n#####\n###.#").data

/-- The enclosed grid, parsed. -/
def enclosedIsland : SnowIsland :=
  match fromStr enclosedText with
  | .ok g => g
  | .error _ => ⟨[], 0, 0⟩

/-- A 3×3 corridor grid: start `(1, 0)`, goal `(1, 2)`, two steps apart. -/
def corridorText : List Char := ("#.#\n#.#\n#.#").data

/-- The corridor grid, parsed. -/
def corridorIsland : SnowIsland :=
  match fromStr corridorText with
  | .ok g => g
  | .error _ => ⟨[], 0, 0⟩

/-- Invariant of every partial path on the DFS stack: nonempty, starts at
`s`, consecutive vertices are valid moves, and all vertices but the last are
distinct and already in the visited set. -/
def OkPath (g : SnowIsland) (s : Point) (visited : List Point) (p : List Point) : Prop :=
  p ≠ [] ∧ p.head? = some s ∧ List.Chain' (StepRel g) p ∧
    p.dropLast.Nodup ∧ ∀ v ∈ p.dropLast, v ∈ visited

/-- Invariant of the best path tracked by the DFS loop: empty, or a
duplicate-free valid walk from `s` to `goal`. -/
def GoodBest (g : SnowIsland) (s goal : Point) (best : List Point) : Prop :=
  best = [] ∨
    (best.head? = some s ∧ List.Chain' (StepRel g) best ∧ best.Nodup ∧
      best.getLast? = some goal)

/-- The grid entries produced by the rows `rows` when the first row has
index `m` (the parsed grid is `gridRows (lines s) 0`). -/
def gridRows (rows : List (List Char)) (m : Nat) : List (Point × Tile) :=
  (rows.enumFrom m).flatMap fun yl =>
    yl.2.enum.map fun xc => (⟨(xc.1 : Int), (yl.1 : Int)⟩, forceTile xc.2)

/-- One row's grid entries, columns numbered from `k`, at row coordinate
`y`. -/
def rowEntries (row : List Char) (k : Nat) (y : Int) : List (Point × Tile) :=
  (row.enumFrom k).map fun xc => (⟨(xc.1 : Int), y⟩, forceTile xc.2)

/-- The two-character input `".\n"`: it parses, but its trailing newline is
not reproduced by re-serialization. -/
def dotNlText : List Char := ['.', '\n']

/-- The sample grid, parsed: the explicit cell list (row-major, exactly as
the parser inserts them), height 23, width 23; `sample_fromStr` proves it
is what `fromStr` returns on `sampleText`. -/
def sampleIsland : SnowIsland :=
  ⟨[(Point.mk (Int.ofNat 0) (Int.ofNat 0), Tile.Forest), (Point.mk (Int.ofNat 1) (Int.ofNat 0), Tile.Path),
   (Point.mk (Int.ofNat 2) (Int.ofNat 0), Tile.Forest), (Point.mk (Int.ofNat 3) (Int.ofNat 0), Tile.Forest),
   (Point.mk (Int.ofNat 4) (Int.ofNat 0), Tile.Forest), (Point.mk (Int.ofNat 5) (Int.ofNat 0), Tile.Forest),
   (Point.mk (Int.ofNat 6) (Int.ofNat 0), Tile.Forest), (Point.mk (Int.ofNat 7) (Int.ofNat 0), Tile.Forest),
   (Point.mk (Int.ofNat 8) (Int.ofNat 0), Tile.Forest), (Point.mk (Int.ofNat 9) (Int.ofNat 0), Tile.Forest),
   (Point.mk (Int.ofNat 10) (Int.ofNat 0), Tile.Forest), (Point.mk (Int.ofNat 11) (Int.ofNat 0), Tile.Forest),
   (Point.mk (Int.ofNat 12) (Int.ofNat 0), Tile.Forest), (Point.mk (Int.ofNat 13) (Int.ofNat 0), Tile.Forest),
   (Point.mk (Int.ofNat 14) (Int.ofNat 0), Tile.Forest), (Point.mk (Int.ofNat 15) (Int.ofNat 0), Tile.Forest),
   (Point.mk (Int.ofNat 16) (Int.ofNat 0), Tile.Forest), (Point.mk (Int.ofNat 17) (Int.ofNat 0), Tile.Forest),
   (Point.mk (Int.ofNat 18) (Int.ofNat 0), Tile.Forest), (Point.mk (Int.ofNat 19) (Int.ofNat 0), Tile.Forest),
   (Point.mk (Int.ofNat 20) (Int.ofNat 0), Tile.Forest), (Point.mk (Int.ofNat 21) (Int.ofNat 0), Tile.Forest),
   (Point.mk (Int.ofNat 22) (Int.ofNat 0), Tile.Forest), (Point.mk (Int.ofNat 0) (Int.ofNat 1), Tile.Forest),
   (Point.mk (Int.ofNat 1) (Int.ofNat 1), Tile.Path), (Point.mk (Int.ofNat 2) (Int.ofNat 1), Tile.Path),
   (Point.mk (Int.ofNat 3) (Int.ofNat 1), Tile.Path), (Point.mk (Int.ofNat 4) (Int.ofNat 1), Tile.Path),
   (Point.mk (Int.ofNat 5) (Int.ofNat 1), Tile.Path), (Point.mk (Int.ofNat 6) (Int.ofNat 1), Tile.Path),
   (Point.mk (Int.ofNat 7) (Int.ofNat 1), Tile.Path), (Point.mk (Int.ofNat 8) (Int.ofNat 1), Tile.Forest),
   (Point.mk (Int.ofNat 9) (Int.ofNat 1), Tile.Forest), (Point.mk (Int.ofNat 10) (Int.ofNat 1), Tile.Forest),
   (Point.mk (Int.ofNat 11) (Int.ofNat 1), Tile.Forest), (Point.mk (Int.ofNat 12) (Int.ofNat 1), Tile.Forest),
   (Point.mk (Int.ofNat 13) (Int.ofNat 1), Tile.Forest), (Point.mk (Int.ofNat 14) (Int.ofNat 1), Tile.Forest),
   (Point.mk (Int.ofNat 15) (Int.ofNat 1), Tile.Forest), (Point.mk (Int.ofNat 16) (Int.ofNat 1), Tile.Forest),
   (Point.mk (Int.ofNat 17) (Int.ofNat 1), Tile.Path), (Point.mk (Int.ofNat 18) (Int.ofNat 1), Tile.Path),
   (Point.mk (Int.ofNat 19) (Int.ofNat 1), Tile.Path), (Point.mk (Int.ofNat 20) (Int.ofNat 1), Tile.Forest),
   (Point.mk (Int.ofNat 21) (Int.ofNat 1), Tile.Forest), (Point.mk (Int.ofNat 22) (Int.ofNat 1), Tile.Forest),
   (Point.mk (Int.ofNat 0) (Int.ofNat 2), Tile.Forest), (Point.mk (Int.ofNat 1) (Int.ofNat 2), Tile.Forest),
   (Point.mk (Int.ofNat 2) (Int.ofNat 2), Tile.Forest), (Point.mk (Int.ofNat 3) (Int.ofNat 2), Tile.Forest),
   (Point.mk (Int.ofNat 4) (Int.ofNat 2), Tile.Forest), (Point.mk (Int.ofNat 5) (Int.ofNat 2), Tile.Forest),
   (Point.mk (Int.ofNat 6) (Int.ofNat 2), Tile.Forest), (Point.mk (Int.ofNat 7) (Int.ofNat 2), Tile.Path),
   (Point.mk (Int.ofNat 8) (Int.ofNat 2), Tile.Forest), (Point.mk (Int.ofNat 9) (Int.ofNat 2), Tile.Forest),
   (Point.mk (Int.ofNat 10) (Int.ofNat 2), Tile.Forest), (Point.mk (Int.ofNat 11) (Int.ofNat 2), Tile.Forest),
   (Point.mk (Int.ofNat 12) (Int.ofNat 2), Tile.Forest), (Point.mk (Int.ofNat 13) (Int.ofNat 2), Tile.Forest),
   (Point.mk (Int.ofNat 14) (Int.ofNat 2), Tile.Forest), (Point.mk (Int.ofNat 15) (Int.ofNat 2), Tile.Forest),
   (Point.mk (Int.ofNat 16) (Int.ofNat 2), Tile.Forest), (Point.mk (Int.ofNat 17) (Int.ofNat 2), Tile.Path),
   (Point.mk (Int.ofNat 18) (Int.ofNat 2), Tile.Forest), (Point.mk (Int.ofNat 19) (Int.ofNat 2), Tile.Path),
   (Point.mk (Int.ofNat 20) (Int.ofNat 2), Tile.Forest), (Point.mk (Int.ofNat 21) (Int.ofNat 2), Tile.Forest),
   (Point.mk (Int.ofNat 22) (Int.ofNat 2), Tile.Forest), (Point.mk (Int.ofNat 0) (Int.ofNat 3), Tile.Forest),
   (Point.mk (Int.ofNat 1) (Int.ofNat 3), Tile.Forest), (Point.mk (Int.ofNat 2) (Int.ofNat 3), Tile.Forest),
   (Point.mk (Int.ofNat 3) (Int.ofNat 3), Tile.Path), (Point.mk (Int.ofNat 4) (Int.ofNat 3), Tile.Path),
   (Point.mk (Int.ofNat 5) (Int.ofNat 3), Tile.Path), (Point.mk (Int.ofNat 6) (Int.ofNat 3), Tile.Path),
   (Point.mk (Int.ofNat 7) (Int.ofNat 3), Tile.Path), (Point.mk (Int.ofNat 8) (Int.ofNat 3), Tile.Forest),
   (Point.mk (Int.ofNat 9) (Int.ofNat 3), Tile.Path), (Point.mk (Int.ofNat 10) (Int.ofNat 3), Tile.Slope SlopeDirection.Right),
   (Point.mk (Int.ofNat 11) (Int.ofNat 3), Tile.Path), (Point.mk (Int.ofNat 12) (Int.ofNat 3), Tile.Slope SlopeDirection.Right),
   (Point.mk (Int.ofNat 13) (Int.ofNat 3), Tile.Path), (Point.mk (Int.ofNat 14) (Int.ofNat 3), Tile.Forest),
   (Point.mk (Int.ofNat 15) (Int.ofNat 3), Tile.Forest), (Point.mk (Int.ofNat 16) (Int.ofNat 3), Tile.Forest),
   (Point.mk (Int.ofNat 17) (Int.ofNat 3), Tile.Path), (Point.mk (Int.ofNat 18) (Int.ofNat 3), Tile.Forest),
   (Point.mk (Int.ofNat 19) (Int.ofNat 3), Tile.Path), (Point.mk (Int.ofNat 20) (Int.ofNat 3), Tile.Forest),
   (Point.mk (Int.ofNat 21) (Int.ofNat 3), Tile.Forest), (Point.mk (Int.ofNat 22) (Int.ofNat 3), Tile.Forest),
   (Point.mk (Int.ofNat 0) (Int.ofNat 4), Tile.Forest), (Point.mk (Int.ofNat 1) (Int.ofNat 4), Tile.Forest),
   (Point.mk (Int.ofNat 2) (Int.ofNat 4), Tile.Forest), (Point.mk (Int.ofNat 3) (Int.ofNat 4), Tile.Slope SlopeDirection.Down),
   (Point.mk (Int.ofNat 4) (Int.ofNat 4), Tile.Forest), (Point.mk (Int.ofNat 5) (Int.ofNat 4), Tile.Forest),
   (Point.mk (Int.ofNat 6) (Int.ofNat 4), Tile.Forest), (Point.mk (Int.ofNat 7) (Int.ofNat 4), Tile.Forest),
   (Point.mk (Int.ofNat 8) (Int.ofNat 4), Tile.Forest), (Point.mk (Int.ofNat 9) (Int.ofNat 4), Tile.Path),
   (Point.mk (Int.ofNat 10) (Int.ofNat 4), Tile.Forest), (Point.mk (Int.ofNat 11) (Int.ofNat 4), Tile.Slope SlopeDirection.Down),
   (Point.mk (Int.ofNat 12) (Int.ofNat 4), Tile.Forest), (Point.mk (Int.ofNat 13) (Int.ofNat 4), Tile.Path),
   (Point.mk (Int.ofNat 14) (Int.ofNat 4), Tile.Forest), (Point.mk (Int.ofNat 15) (Int.ofNat 4), Tile.Forest),
   (Point.mk (Int.ofNat 16) (Int.ofNat 4), Tile.Forest), (Point.mk (Int.ofNat 17) (Int.ofNat 4), Tile.Path),
   (Point.mk (Int.ofNat 18) (Int.ofNat 4), Tile.Forest), (Point.mk (Int.ofNat 19) (Int.ofNat 4), Tile.Path),
   (Point.mk (Int.ofNat 20) (Int.ofNat 4), Tile.Forest), (Point.mk (Int.ofNat 21) (Int.ofNat 4), Tile.Forest),
   (Point.mk (Int.ofNat 22) (Int.ofNat 4), Tile.Forest), (Point.mk (Int.ofNat 0) (Int.ofNat 5), Tile.Forest),
   (Point.mk (Int.ofNat 1) (Int.ofNat 5), Tile.Forest), (Point.mk (Int.ofNat 2) (Int.ofNat 5), Tile.Forest),
   (Point.mk (Int.ofNat 3) (Int.ofNat 5), Tile.Path), (Point.mk (Int.ofNat 4) (Int.ofNat 5), Tile.Slope SlopeDirection.Right),
   (Point.mk (Int.ofNat 5) (Int.ofNat 5), Tile.Path), (Point.mk (Int.ofNat 6) (Int.ofNat 5), Tile.Path),
   (Point.mk (Int.ofNat 7) (Int.ofNat 5), Tile.Path), (Point.mk (Int.ofNat 8) (Int.ofNat 5), Tile.Forest),
   (Point.mk (Int.ofNat 9) (Int.ofNat 5), Tile.Path), (Point.mk (Int.ofNat 10) (Int.ofNat 5), Tile.Forest),
   (Point.mk (Int.ofNat 11) (Int.ofNat 5), Tile.Path), (Point.mk (Int.ofNat 12) (Int.ofNat 5), Tile.Forest),
   (Point.mk (Int.ofNat 13) (Int.ofNat 5), Tile.Path), (Point.mk (Int.ofNat 14) (Int.ofNat 5), Tile.Path),
   (Point.mk (Int.ofNat 15) (Int.ofNat 5), Tile.Path), (Point.mk (Int.ofNat 16) (Int.ofNat 5), Tile.Path),
   (Point.mk (Int.ofNat 17) (Int.ofNat 5), Tile.Path), (Point.mk (Int.ofNat 18) (Int.ofNat 5), Tile.Forest),
   (Point.mk (Int.ofNat 19) (Int.ofNat 5), Tile.Path), (Point.mk (Int.ofNat 20) (Int.ofNat 5), Tile.Path),
   (Point.mk (Int.ofNat 21) (Int.ofNat 5), Tile.Path), (Point.mk (Int.ofNat 22) (Int.ofNat 5), Tile.Forest),
   (Point.mk (Int.ofNat 0) (Int.ofNat 6), Tile.Forest), (Point.mk (Int.ofNat 1) (Int.ofNat 6), Tile.Forest),
   (Point.mk (Int.ofNat 2) (Int.ofNat 6), Tile.Forest), (Point.mk (Int.ofNat 3) (Int.ofNat 6), Tile.Slope SlopeDirection.Down),
   (Point.mk (Int.ofNat 4) (Int.ofNat 6), Tile.Forest), (Point.mk (Int.ofNat 5) (Int.ofNat 6), Tile.Forest),
   (Point.mk (Int.ofNat 6) (Int.ofNat 6), Tile.Forest), (Point.mk (Int.ofNat 7) (Int.ofNat 6), Tile.Path),
   (Point.mk (Int.ofNat 8) (Int.ofNat 6), Tile.Forest), (Point.mk (Int.ofNat 9) (Int.ofNat 6), Tile.Path),
   (Point.mk (Int.ofNat 10) (Int.ofNat 6), Tile.Forest), (Point.mk (Int.ofNat 11) (Int.ofNat 6), Tile.Path),
   (Point.mk (Int.ofNat 12) (Int.ofNat 6), Tile.Forest), (Point.mk (Int.ofNat 13) (Int.ofNat 6), Tile.Forest),
   (Point.mk (Int.ofNat 14) (Int.ofNat 6), Tile.Forest), (Point.mk (Int.ofNat 15) (Int.ofNat 6), Tile.Forest),
   (Point.mk (Int.ofNat 16) (Int.ofNat 6), Tile.Forest), (Point.mk (Int.ofNat 17) (Int.ofNat 6), Tile.Forest),
   (Point.mk (Int.ofNat 18) (Int.ofNat 6), Tile.Forest), (Point.mk (Int.ofNat 19) (Int.ofNat 6), Tile.Forest),
   (Point.mk (Int.ofNat 20) (Int.ofNat 6), Tile.Forest), (Point.mk (Int.ofNat 21) (Int.ofNat 6), Tile.Path),
   (Point.mk (Int.ofNat 22) (Int.ofNat 6), Tile.Forest), (Point.mk (Int.ofNat 0) (Int.ofNat 7), Tile.Forest),
   (Point.mk (Int.ofNat 1) (Int.ofNat 7), Tile.Forest), (Point.mk (Int.ofNat 2) (Int.ofNat 7), Tile.Forest),
   (Point.mk (Int.ofNat 3) (Int.ofNat 7), Tile.Path), (Point.mk (Int.ofNat 4) (Int.ofNat 7), Tile.Path),
   (Point.mk (Int.ofNat 5) (Int.ofNat 7), Tile.Path), (Point.mk (Int.ofNat 6) (Int.ofNat 7), Tile.Forest),
   (Point.mk (Int.ofNat 7) (Int.ofNat 7), Tile.Path), (Point.mk (Int.ofNat 8) (Int.ofNat 7), Tile.Forest),
   (Point.mk (Int.ofNat 9) (Int.ofNat 7), Tile.Path), (Point.mk (Int.ofNat 10) (Int.ofNat 7), Tile.Forest),
   (Point.mk (Int.ofNat 11) (Int.ofNat 7), Tile.Path), (Point.mk (Int.ofNat 12) (Int.ofNat 7), Tile.Path),
   (Point.mk (Int.ofNat 13) (Int.ofNat 7), Tile.Path), (Point.mk (Int.ofNat 14) (Int.ofNat 7), Tile.Path),
   (Point.mk (Int.ofNat 15) (Int.ofNat 7), Tile.Path), (Point.mk (Int.ofNat 16) (Int.ofNat 7), Tile.Path),
   (Point.mk (Int.ofNat 17) (Int.ofNat 7), Tile.Path), (Point.mk (Int.ofNat 18) (Int.ofNat 7), Tile.Forest),
   (Point.mk (Int.ofNat 19) (Int.ofNat 7), Tile.Path), (Point.mk (Int.ofNat 20) (Int.ofNat 7), Tile.Path),
   (Point.mk (Int.ofNat 21) (Int.ofNat 7), Tile.Path), (Point.mk (Int.ofNat 22) (Int.ofNat 7), Tile.Forest),
   (Point.mk (Int.ofNat 0) (Int.ofNat 8), Tile.Forest), (Point.mk (Int.ofNat 1) (Int.ofNat 8), Tile.Forest),
   (Point.mk (Int.ofNat 2) (Int.ofNat 8), Tile.Forest), (Point.mk (Int.ofNat 3) (Int.ofNat 8), Tile.Forest),
   (Point.mk (Int.ofNat 4) (Int.ofNat 8), Tile.Forest), (Point.mk (Int.ofNat 5) (Int.ofNat 8), Tile.Path),
   (Point.mk (Int.ofNat 6) (Int.ofNat 8), Tile.Forest), (Point.mk (Int.ofNat 7) (Int.ofNat 8), Tile.Path),
   (Point.mk (Int.ofNat 8) (Int.ofNat 8), Tile.Forest), (Point.mk (Int.ofNat 9) (Int.ofNat 8), Tile.Path),
   (Point.mk (Int.ofNat 10) (Int.ofNat 8), Tile.Forest), (Point.mk (Int.ofNat 11) (Int.ofNat 8), Tile.Forest),
   (Point.mk (Int.ofNat 12) (Int.ofNat 8), Tile.Forest), (Point.mk (Int.ofNat 13) (Int.ofNat 8), Tile.Forest),
   (Point.mk (Int.ofNat 14) (Int.ofNat 8), Tile.Forest), (Point.mk (Int.ofNat 15) (Int.ofNat 8), Tile.Forest),
   (Point.mk (Int.ofNat 16) (Int.ofNat 8), Tile.Forest), (Point.mk (Int.ofNat 17) (Int.ofNat 8), Tile.Path),
   (Point.mk (Int.ofNat 18) (Int.ofNat 8), Tile.Forest), (Point.mk (Int.ofNat 19) (Int.ofNat 8), Tile.Path),
   (Point.mk (Int.ofNat 20) (Int.ofNat 8), Tile.Forest), (Point.mk (Int.ofNat 21) (Int.ofNat 8), Tile.Forest),
   (Point.mk (Int.ofNat 22) (Int.ofNat 8), Tile.Forest), (Point.mk (Int.ofNat 0) (Int.ofNat 9), Tile.Forest),
   (Point.mk (Int.ofNat 1) (Int.ofNat 9), Tile.Path), (Point.mk (Int.ofNat 2) (Int.ofNat 9), Tile.Path),
   (Point.mk (Int.ofNat 3) (Int.ofNat 9), Tile.Path), (Point.mk (Int.ofNat 4) (Int.ofNat 9), Tile.Path),
   (Point.mk (Int.ofNat 5) (Int.ofNat 9), Tile.Path), (Point.mk (Int.ofNat 6) (Int.ofNat 9), Tile.Forest),
   (Point.mk (Int.ofNat 7) (Int.ofNat 9), Tile.Path), (Point.mk (Int.ofNat 8) (Int.ofNat 9), Tile.Forest),
   (Point.mk (Int.ofNat 9) (Int.ofNat 9), Tile.Path), (Point.mk (Int.ofNat 10) (Int.ofNat 9), Tile.Forest),
   (Point.mk (Int.ofNat 11) (Int.ofNat 9), Tile.Path), (Point.mk (Int.ofNat 12) (Int.ofNat 9), Tile.Path),
   (Point.mk (Int.ofNat 13) (Int.ofNat 9), Tile.Path), (Point.mk (Int.ofNat 14) (Int.ofNat 9), Tile.Path),
   (Point.mk (Int.ofNat 15) (Int.ofNat 9), Tile.Path), (Point.mk (Int.ofNat 16) (Int.ofNat 9), Tile.Path),
   (Point.mk (Int.ofNat 17) (Int.ofNat 9), Tile.Path), (Point.mk (Int.ofNat 18) (Int.ofNat 9), Tile.Forest),
   (Point.mk (Int.ofNat 19) (Int.ofNat 9), Tile.Path), (Point.mk (Int.ofNat 20) (Int.ofNat 9), Tile.Path),
   (Point.mk (Int.ofNat 21) (Int.ofNat 9), Tile.Path), (Point.mk (Int.ofNat 22) (Int.ofNat 9), Tile.Forest),
   (Point.mk (Int.ofNat 0) (Int.ofNat 10), Tile.Forest), (Point.mk (Int.ofNat 1) (Int.ofNat 10), Tile.Path),
   (Point.mk (Int.ofNat 2) (Int.ofNat 10), Tile.Forest), (Point.mk (Int.ofNat 3) (Int.ofNat 10), Tile.Forest),
   (Point.mk (Int.ofNat 4) (Int.ofNat 10), Tile.Forest), (Point.mk (Int.ofNat 5) (Int.ofNat 10), Tile.Forest),
   (Point.mk (Int.ofNat 6) (Int.ofNat 10), Tile.Forest), (Point.mk (Int.ofNat 7) (Int.ofNat 10), Tile.Path),
   (Point.mk (Int.ofNat 8) (Int.ofNat 10), Tile.Forest), (Point.mk (Int.ofNat 9) (Int.ofNat 10), Tile.Path),
   (Point.mk (Int.ofNat 10) (Int.ofNat 10), Tile.Forest), (Point.mk (Int.ofNat 11) (Int.ofNat 10), Tile.Path),
   (Point.mk (Int.ofNat 12) (Int.ofNat 10), Tile.Forest), (Point.mk (Int.ofNat 13) (Int.ofNat 10), Tile.Forest),
   (Point.mk (Int.ofNat 14) (Int.ofNat 10), Tile.Forest), (Point.mk (Int.ofNat 15) (Int.ofNat 10), Tile.Forest),
   (Point.mk (Int.ofNat 16) (Int.ofNat 10), Tile.Forest), (Point.mk (Int.ofNat 17) (Int.ofNat 10), Tile.Forest),
   (Point.mk (Int.ofNat 18) (Int.ofNat 10), Tile.Forest), (Point.mk (Int.ofNat 19) (Int.ofNat 10), Tile.Forest),
   (Point.mk (Int.ofNat 20) (Int.ofNat 10), Tile.Forest), (Point.mk (Int.ofNat 21) (Int.ofNat 10), Tile.Slope SlopeDirection.Down),
   (Point.mk (Int.ofNat 22) (Int.ofNat 10), Tile.Forest), (Point.mk (Int.ofNat 0) (Int.ofNat 11), Tile.Forest),
   (Point.mk (Int.ofNat 1) (Int.ofNat 11), Tile.Path), (Point.mk (Int.ofNat 2) (Int.ofNat 11), Tile.Forest),
   (Point.mk (Int.ofNat 3) (Int.ofNat 11), Tile.Path), (Point.mk (Int.ofNat 4) (Int.ofNat 11), Tile.Path),
   (Point.mk (Int.ofNat 5) (Int.ofNat 11), Tile.Path), (Point.mk (Int.ofNat 6) (Int.ofNat 11), Tile.Forest),
   (Point.mk (Int.ofNat 7) (Int.ofNat 11), Tile.Path), (Point.mk (Int.ofNat 8) (Int.ofNat 11), Tile.Path),
   (Point.mk (Int.ofNat 9) (Int.ofNat 11), Tile.Path), (Point.mk (Int.ofNat 10) (Int.ofNat 11), Tile.Forest),
   (Point.mk (Int.ofNat 11) (Int.ofNat 11), Tile.Path), (Point.mk (Int.ofNat 12) (Int.ofNat 11), Tile.Path),
   (Point.mk (Int.ofNat 13) (Int.ofNat 11), Tile.Path), (Point.mk (Int.ofNat 14) (Int.ofNat 11), Tile.Forest),
   (Point.mk (Int.ofNat 15) (Int.ofNat 11), Tile.Forest), (Point.mk (Int.ofNat 16) (Int.ofNat 11), Tile.Forest),
   (Point.mk (Int.ofNat 17) (Int.ofNat 11), Tile.Path), (Point.mk (Int.ofNat 18) (Int.ofNat 11), Tile.Path),
   (Point.mk (Int.ofNat 19) (Int.ofNat 11), Tile.Path), (Point.mk (Int.ofNat 20) (Int.ofNat 11), Tile.Slope SlopeDirection.Right),
   (Point.mk (Int.ofNat 21) (Int.ofNat 11), Tile.Path), (Point.mk (Int.ofNat 22) (Int.ofNat 11), Tile.Forest),
   (Point.mk (Int.ofNat 0) (Int.ofNat 12), Tile.Forest), (Point.mk (Int.ofNat 1) (Int.ofNat 12), Tile.Path),
   (Point.mk (Int.ofNat 2) (Int.ofNat 12), Tile.Forest), (Point.mk (Int.ofNat 3) (Int.ofNat 12), Tile.Path),
   (Point.mk (Int.ofNat 4) (Int.ofNat 12), Tile.Forest), (Point.mk (Int.ofNat 5) (Int.ofNat 12), Tile.Slope SlopeDirection.Down),
   (Point.mk (Int.ofNat 6) (Int.ofNat 12), Tile.Forest), (Point.mk (Int.ofNat 7) (Int.ofNat 12), Tile.Forest),
   (Point.mk (Int.ofNat 8) (Int.ofNat 12), Tile.Forest), (Point.mk (Int.ofNat 9) (Int.ofNat 12), Tile.Forest),
   (Point.mk (Int.ofNat 10) (Int.ofNat 12), Tile.Forest), (Point.mk (Int.ofNat 11) (Int.ofNat 12), Tile.Forest),
   (Point.mk (Int.ofNat 12) (Int.ofNat 12), Tile.Forest), (Point.mk (Int.ofNat 13) (Int.ofNat 12), Tile.Slope SlopeDirection.Down),
   (Point.mk (Int.ofNat 14) (Int.ofNat 12), Tile.Forest), (Point.mk (Int.ofNat 15) (Int.ofNat 12), Tile.Forest),
   (Point.mk (Int.ofNat 16) (Int.ofNat 12), Tile.Forest), (Point.mk (Int.ofNat 17) (Int.ofNat 12), Tile.Path),
   (Point.mk (Int.ofNat 18) (Int.ofNat 12), Tile.Forest), (Point.mk (Int.ofNat 19) (Int.ofNat 12), Tile.Forest),
   (Point.mk (Int.ofNat 20) (Int.ofNat 12), Tile.Forest), (Point.mk (Int.ofNat 21) (Int.ofNat 12), Tile.Slope SlopeDirection.Down),
   (Point.mk (Int.ofNat 22) (Int.ofNat 12), Tile.Forest), (Point.mk (Int.ofNat 0) (Int.ofNat 13), Tile.Forest),
   (Point.mk (Int.ofNat 1) (Int.ofNat 13), Tile.Path), (Point.mk (Int.ofNat 2) (Int.ofNat 13), Tile.Path),
   (Point.mk (Int.ofNat 3) (Int.ofNat 13), Tile.Path), (Point.mk (Int.ofNat 4) (Int.ofNat 13), Tile.Forest),
   (Point.mk (Int.ofNat 5) (Int.ofNat 13), Tile.Path), (Point.mk (Int.ofNat 6) (Int.ofNat 13), Tile.Slope SlopeDirection.Right),
   (Point.mk (Int.ofNat 7) (Int.ofNat 13), Tile.Path), (Point.mk (Int.ofNat 8) (Int.ofNat 13), Tile.Forest),
   (Point.mk (Int.ofNat 9) (Int.ofNat 13), Tile.Path), (Point.mk (Int.ofNat 10) (Int.ofNat 13), Tile.Path),
   (Point.mk (Int.ofNat 11) (Int.ofNat 13), Tile.Path), (Point.mk (Int.ofNat 12) (Int.ofNat 13), Tile.Slope SlopeDirection.Right),
   (Point.mk (Int.ofNat 13) (Int.ofNat 13), Tile.Path), (Point.mk (Int.ofNat 14) (Int.ofNat 13), Tile.Slope SlopeDirection.Right),
   (Point.mk (Int.ofNat 15) (Int.ofNat 13), Tile.Path), (Point.mk (Int.ofNat 16) (Int.ofNat 13), Tile.Forest),
   (Point.mk (Int.ofNat 17) (Int.ofNat 13), Tile.Path), (Point.mk (Int.ofNat 18) (Int.ofNat 13), Tile.Forest),
   (Point.mk (Int.ofNat 19) (Int.ofNat 13), Tile.Forest), (Point.mk (Int.ofNat 20) (Int.ofNat 13), Tile.Forest),
   (Point.mk (Int.ofNat 21) (Int.ofNat 13), Tile.Path), (Point.mk (Int.ofNat 22) (Int.ofNat 13), Tile.Forest),
   (Point.mk (Int.ofNat 0) (Int.ofNat 14), Tile.Forest), (Point.mk (Int.ofNat 1) (Int.ofNat 14), Tile.Forest),
   (Point.mk (Int.ofNat 2) (Int.ofNat 14), Tile.Forest), (Point.mk (Int.ofNat 3) (Int.ofNat 14), Tile.Forest),
   (Point.mk (Int.ofNat 4) (Int.ofNat 14), Tile.Forest), (Point.mk (Int.ofNat 5) (Int.ofNat 14), Tile.Slope SlopeDirection.Down),
   (Point.mk (Int.ofNat 6) (Int.ofNat 14), Tile.Forest), (Point.mk (Int.ofNat 7) (Int.ofNat 14), Tile.Path),
   (Point.mk (Int.ofNat 8) (Int.ofNat 14), Tile.Forest), (Point.mk (Int.ofNat 9) (Int.ofNat 14), Tile.Path),
   (Point.mk (Int.ofNat 10) (Int.ofNat 14), Tile.Forest), (Point.mk (Int.ofNat 11) (Int.ofNat 14), Tile.Forest),
   (Point.mk (Int.ofNat 12) (Int.ofNat 14), Tile.Forest), (Point.mk (Int.ofNat 13) (Int.ofNat 14), Tile.Slope SlopeDirection.Down),
   (Point.mk (Int.ofNat 14) (Int.ofNat 14), Tile.Forest), (Point.mk (Int.ofNat 15) (Int.ofNat 14), Tile.Path),
   (Point.mk (Int.ofNat 16) (Int.ofNat 14), Tile.Forest), (Point.mk (Int.ofNat 17) (Int.ofNat 14), Tile.Path),
   (Point.mk (Int.ofNat 18) (Int.ofNat 14), Tile.Forest), (Point.mk (Int.ofNat 19) (Int.ofNat 14), Tile.Forest),
   (Point.mk (Int.ofNat 20) (Int.ofNat 14), Tile.Forest), (Point.mk (Int.ofNat 21) (Int.ofNat 14), Tile.Path),
   (Point.mk (Int.ofNat 22) (Int.ofNat 14), Tile.Forest), (Point.mk (Int.ofNat 0) (Int.ofNat 15), Tile.Forest),
   (Point.mk (Int.ofNat 1) (Int.ofNat 15), Tile.Path), (Point.mk (Int.ofNat 2) (Int.ofNat 15), Tile.Path),
   (Point.mk (Int.ofNat 3) (Int.ofNat 15), Tile.Path), (Point.mk (Int.ofNat 4) (Int.ofNat 15), Tile.Path),
   (Point.mk (Int.ofNat 5) (Int.ofNat 15), Tile.Path), (Point.mk (Int.ofNat 6) (Int.ofNat 15), Tile.Forest),
   (Point.mk (Int.ofNat 7) (Int.ofNat 15), Tile.Path), (Point.mk (Int.ofNat 8) (Int.ofNat 15), Tile.Path),
   (Point.mk (Int.ofNat 9) (Int.ofNat 15), Tile.Path), (Point.mk (Int.ofNat 10) (Int.ofNat 15), Tile.Forest),
   (Point.mk (Int.ofNat 11) (Int.ofNat 15), Tile.Path), (Point.mk (Int.ofNat 12) (Int.ofNat 15), Tile.Path),
   (Point.mk (Int.ofNat 13) (Int.ofNat 15), Tile.Path), (Point.mk (Int.ofNat 14) (Int.ofNat 15), Tile.Forest),
   (Point.mk (Int.ofNat 15) (Int.ofNat 15), Tile.Path), (Point.mk (Int.ofNat 16) (Int.ofNat 15), Tile.Forest),
   (Point.mk (Int.ofNat 17) (Int.ofNat 15), Tile.Path), (Point.mk (Int.ofNat 18) (Int.ofNat 15), Tile.Forest),
   (Point.mk (Int.ofNat 19) (Int.ofNat 15), Tile.Path), (Point.mk (Int.ofNat 20) (Int.ofNat 15), Tile.Path),
   (Point.mk (Int.ofNat 21) (Int.ofNat 15), Tile.Path), (Point.mk (Int.ofNat 22) (Int.ofNat 15), Tile.Forest),
   (Point.mk (Int.ofNat 0) (Int.ofNat 16), Tile.Forest), (Point.mk (Int.ofNat 1) (Int.ofNat 16), Tile.Path),
   (Point.mk (Int.ofNat 2) (Int.ofNat 16), Tile.Forest), (Point.mk (Int.ofNat 3) (Int.ofNat 16), Tile.Forest),
   (Point.mk (Int.ofNat 4) (Int.ofNat 16), Tile.Forest), (Point.mk (Int.ofNat 5) (Int.ofNat 16), Tile.Forest),
   (Point.mk (Int.ofNat 6) (Int.ofNat 16), Tile.Forest), (Point.mk (Int.ofNat 7) (Int.ofNat 16), Tile.Forest),
   (Point.mk (Int.ofNat 8) (Int.ofNat 16), Tile.Forest), (Point.mk (Int.ofNat 9) (Int.ofNat 16), Tile.Forest),
   (Point.mk (Int.ofNat 10) (Int.ofNat 16), Tile.Forest), (Point.mk (Int.ofNat 11) (Int.ofNat 16), Tile.Path),
   (Point.mk (Int.ofNat 12) (Int.ofNat 16), Tile.Forest), (Point.mk (Int.ofNat 13) (Int.ofNat 16), Tile.Forest),
   (Point.mk (Int.ofNat 14) (Int.ofNat 16), Tile.Forest), (Point.mk (Int.ofNat 15) (Int.ofNat 16), Tile.Path),
   (Point.mk (Int.ofNat 16) (Int.ofNat 16), Tile.Forest), (Point.mk (Int.ofNat 17) (Int.ofNat 16), Tile.Path),
   (Point.mk (Int.ofNat 18) (Int.ofNat 16), Tile.Forest), (Point.mk (Int.ofNat 19) (Int.ofNat 16), Tile.Path),
   (Point.mk (Int.ofNat 20) (Int.ofNat 16), Tile.Forest), (Point.mk (Int.ofNat 21) (Int.ofNat 16), Tile.Forest),
   (Point.mk (Int.ofNat 22) (Int.ofNat 16), Tile.Forest), (Point.mk (Int.ofNat 0) (Int.ofNat 17), Tile.Forest),
   (Point.mk (Int.ofNat 1) (Int.ofNat 17), Tile.Path), (Point.mk (Int.ofNat 2) (Int.ofNat 17), Tile.Path),
   (Point.mk (Int.ofNat 3) (Int.ofNat 17), Tile.Path), (Point.mk (Int.ofNat 4) (Int.ofNat 17), Tile.Forest),
   (Point.mk (Int.ofNat 5) (Int.ofNat 17), Tile.Forest), (Point.mk (Int.ofNat 6) (Int.ofNat 17), Tile.Forest),
   (Point.mk (Int.ofNat 7) (Int.ofNat 17), Tile.Path), (Point.mk (Int.ofNat 8) (Int.ofNat 17), Tile.Path),
   (Point.mk (Int.ofNat 9) (Int.ofNat 17), Tile.Path), (Point.mk (Int.ofNat 10) (Int.ofNat 17), Tile.Forest),
   (Point.mk (Int.ofNat 11) (Int.ofNat 17), Tile.Path), (Point.mk (Int.ofNat 12) (Int.ofNat 17), Tile.Path),
   (Point.mk (Int.ofNat 13) (Int.ofNat 17), Tile.Path), (Point.mk (Int.ofNat 14) (Int.ofNat 17), Tile.Forest),
   (Point.mk (Int.ofNat 15) (Int.ofNat 17), Tile.Path), (Point.mk (Int.ofNat 16) (Int.ofNat 17), Tile.Path),
   (Point.mk (Int.ofNat 17) (Int.ofNat 17), Tile.Path), (Point.mk (Int.ofNat 18) (Int.ofNat 17), Tile.Forest),
   (Point.mk (Int.ofNat 19) (Int.ofNat 17), Tile.Path), (Point.mk (Int.ofNat 20) (Int.ofNat 17), Tile.Forest),
   (Point.mk (Int.ofNat 21) (Int.ofNat 17), Tile.Forest), (Point.mk (Int.ofNat 22) (Int.ofNat 17), Tile.Forest),
   (Point.mk (Int.ofNat 0) (Int.ofNat 18), Tile.Forest), (Point.mk (Int.ofNat 1) (Int.ofNat 18), Tile.Forest),
   (Point.mk (Int.ofNat 2) (Int.ofNat 18), Tile.Forest), (Point.mk (Int.ofNat 3) (Int.ofNat 18), Tile.Path),
   (Point.mk (Int.ofNat 4) (Int.ofNat 18), Tile.Forest), (Point.mk (Int.ofNat 5) (Int.ofNat 18), Tile.Forest),
   (Point.mk (Int.ofNat 6) (Int.ofNat 18), Tile.Forest), (Point.mk (Int.ofNat 7) (Int.ofNat 18), Tile.Path),
   (Point.mk (Int.ofNat 8) (Int.ofNat 18), Tile.Forest), (Point.mk (Int.ofNat 9) (Int.ofNat 18), Tile.Path),
   (Point.mk (Int.ofNat 10) (Int.ofNat 18), Tile.Forest), (Point.mk (Int.ofNat 11) (Int.ofNat 18), Tile.Forest),
   (Point.mk (Int.ofNat 12) (Int.ofNat 18), Tile.Forest), (Point.mk (Int.ofNat 13) (Int.ofNat 18), Tile.Slope SlopeDirection.Down),
   (Point.mk (Int.ofNat 14) (Int.ofNat 18), Tile.Forest), (Point.mk (Int.ofNat 15) (Int.ofNat 18), Tile.Forest),
   (Point.mk (Int.ofNat 16) (Int.ofNat 18), Tile.Forest), (Point.mk (Int.ofNat 17) (Int.ofNat 18), Tile.Forest),
   (Point.mk (Int.ofNat 18) (Int.ofNat 18), Tile.Forest), (Point.mk (Int.ofNat 19) (Int.ofNat 18), Tile.Slope SlopeDirection.Down),
   (Point.mk (Int.ofNat 20) (Int.ofNat 18), Tile.Forest), (Point.mk (Int.ofNat 21) (Int.ofNat 18), Tile.Forest),
   (Point.mk (Int.ofNat 22) (Int.ofNat 18), Tile.Forest), (Point.mk (Int.ofNat 0) (Int.ofNat 19), Tile.Forest),
   (Point.mk (Int.ofNat 1) (Int.ofNat 19), Tile.Path), (Point.mk (Int.ofNat 2) (Int.ofNat 19), Tile.Path),
   (Point.mk (Int.ofNat 3) (Int.ofNat 19), Tile.Path), (Point.mk (Int.ofNat 4) (Int.ofNat 19), Tile.Forest),
   (Point.mk (Int.ofNat 5) (Int.ofNat 19), Tile.Path), (Point.mk (Int.ofNat 6) (Int.ofNat 19), Tile.Path),
   (Point.mk (Int.ofNat 7) (Int.ofNat 19), Tile.Path), (Point.mk (Int.ofNat 8) (Int.ofNat 19), Tile.Forest),
   (Point.mk (Int.ofNat 9) (Int.ofNat 19), Tile.Path), (Point.mk (Int.ofNat 10) (Int.ofNat 19), Tile.Forest),
   (Point.mk (Int.ofNat 11) (Int.ofNat 19), Tile.Path), (Point.mk (Int.ofNat 12) (Int.ofNat 19), Tile.Slope SlopeDirection.Right),
   (Point.mk (Int.ofNat 13) (Int.ofNat 19), Tile.Path), (Point.mk (Int.ofNat 14) (Int.ofNat 19), Tile.Slope SlopeDirection.Right),
   (Point.mk (Int.ofNat 15) (Int.ofNat 19), Tile.Path), (Point.mk (Int.ofNat 16) (Int.ofNat 19), Tile.Forest),
   (Point.mk (Int.ofNat 17) (Int.ofNat 19), Tile.Path), (Point.mk (Int.ofNat 18) (Int.ofNat 19), Tile.Slope SlopeDirection.Right),
   (Point.mk (Int.ofNat 19) (Int.ofNat 19), Tile.Path), (Point.mk (Int.ofNat 20) (Int.ofNat 19), Tile.Forest),
   (Point.mk (Int.ofNat 21) (Int.ofNat 19), Tile.Forest), (Point.mk (Int.ofNat 22) (Int.ofNat 19), Tile.Forest),
   (Point.mk (Int.ofNat 0) (Int.ofNat 20), Tile.Forest), (Point.mk (Int.ofNat 1) (Int.ofNat 20), Tile.Path),
   (Point.mk (Int.ofNat 2) (Int.ofNat 20), Tile.Forest), (Point.mk (Int.ofNat 3) (Int.ofNat 20), Tile.Forest),
   (Point.mk (Int.ofNat 4) (Int.ofNat 20), Tile.Forest), (Point.mk (Int.ofNat 5) (Int.ofNat 20), Tile.Path),
   (Point.mk (Int.ofNat 6) (Int.ofNat 20), Tile.Forest), (Point.mk (Int.ofNat 7) (Int.ofNat 20), Tile.Forest),
   (Point.mk (Int.ofNat 8) (Int.ofNat 20), Tile.Forest), (Point.mk (Int.ofNat 9) (Int.ofNat 20), Tile.Path),
   (Point.mk (Int.ofNat 10) (Int.ofNat 20), Tile.Forest), (Point.mk (Int.ofNat 11) (Int.ofNat 20), Tile.Path),
   (Point.mk (Int.ofNat 12) (Int.ofNat 20), Tile.Forest), (Point.mk (Int.ofNat 13) (Int.ofNat 20), Tile.Forest),
   (Point.mk (Int.ofNat 14) (Int.ofNat 20), Tile.Forest), (Point.mk (Int.ofNat 15) (Int.ofNat 20), Tile.Path),
   (Point.mk (Int.ofNat 16) (Int.ofNat 20), Tile.Forest), (Point.mk (Int.ofNat 17) (Int.ofNat 20), Tile.Path),
   (Point.mk (Int.ofNat 18) (Int.ofNat 20), Tile.Forest), (Point.mk (Int.ofNat 19) (Int.ofNat 20), Tile.Slope SlopeDirection.Down),
   (Point.mk (Int.ofNat 20) (Int.ofNat 20), Tile.Forest), (Point.mk (Int.ofNat 21) (Int.ofNat 20), Tile.Forest),
   (Point.mk (Int.ofNat 22) (Int.ofNat 20), Tile.Forest), (Point.mk (Int.ofNat 0) (Int.ofNat 21), Tile.Forest),
   (Point.mk (Int.ofNat 1) (Int.ofNat 21), Tile.Path), (Point.mk (Int.ofNat 2) (Int.ofNat 21), Tile.Path),
   (Point.mk (Int.ofNat 3) (Int.ofNat 21), Tile.Path), (Point.mk (Int.ofNat 4) (Int.ofNat 21), Tile.Path),
   (Point.mk (Int.ofNat 5) (Int.ofNat 21), Tile.Path), (Point.mk (Int.ofNat 6) (Int.ofNat 21), Tile.Forest),
   (Point.mk (Int.ofNat 7) (Int.ofNat 21), Tile.Forest), (Point.mk (Int.ofNat 8) (Int.ofNat 21), Tile.Forest),
   (Point.mk (Int.ofNat 9) (Int.ofNat 21), Tile.Path), (Point.mk (Int.ofNat 10) (Int.ofNat 21), Tile.Path),
   (Point.mk (Int.ofNat 11) (Int.ofNat 21), Tile.Path), (Point.mk (Int.ofNat 12) (Int.ofNat 21), Tile.Forest),
   (Point.mk (Int.ofNat 13) (Int.ofNat 21), Tile.Forest), (Point.mk (Int.ofNat 14) (Int.ofNat 21), Tile.Forest),
   (Point.mk (Int.ofNat 15) (Int.ofNat 21), Tile.Path), (Point.mk (Int.ofNat 16) (Int.ofNat 21), Tile.Path),
   (Point.mk (Int.ofNat 17) (Int.ofNat 21), Tile.Path), (Point.mk (Int.ofNat 18) (Int.ofNat 21), Tile.Forest),
   (Point.mk (Int.ofNat 19) (Int.ofNat 21), Tile.Path), (Point.mk (Int.ofNat 20) (Int.ofNat 21), Tile.Path),
   (Point.mk (Int.ofNat 21) (Int.ofNat 21), Tile.Path), (Point.mk (Int.ofNat 22) (Int.ofNat 21), Tile.Forest),
   (Point.mk (Int.ofNat 0) (Int.ofNat 22), Tile.Forest), (Point.mk (Int.ofNat 1) (Int.ofNat 22), Tile.Forest),
   (Point.mk (Int.ofNat 2) (Int.ofNat 22), Tile.Forest), (Point.mk (Int.ofNat 3) (Int.ofNat 22), Tile.Forest),
   (Point.mk (Int.ofNat 4) (Int.ofNat 22), Tile.Forest), (Point.mk (Int.ofNat 5) (Int.ofNat 22), Tile.Forest),
   (Point.mk (Int.ofNat 6) (Int.ofNat 22), Tile.Forest), (Point.mk (Int.ofNat 7) (Int.ofNat 22), Tile.Forest),
   (Point.mk (Int.ofNat 8) (Int.ofNat 22), Tile.Forest), (Point.mk (Int.ofNat 9) (Int.ofNat 22), Tile.Forest),
   (Point.mk (Int.ofNat 10) (Int.ofNat 22), Tile.Forest), (Point.mk (Int.ofNat 11) (Int.ofNat 22), Tile.Forest),
   (Point.mk (Int.ofNat 12) (Int.ofNat 22), Tile.Forest), (Point.mk (Int.ofNat 13) (Int.ofNat 22), Tile.Forest),
   (Point.mk (Int.ofNat 14) (Int.ofNat 22), Tile.Forest), (Point.mk (Int.ofNat 15) (Int.ofNat 22), Tile.Forest),
   (Point.mk (Int.ofNat 16) (Int.ofNat 22), Tile.Forest), (Point.mk (Int.ofNat 17) (Int.ofNat 22), Tile.Forest),
   (Point.mk (Int.ofNat 18) (Int.ofNat 22), Tile.Forest), (Point.mk (Int.ofNat 19) (Int.ofNat 22), Tile.Forest),
   (Point.mk (Int.ofNat 20) (Int.ofNat 22), Tile.Forest), (Point.mk (Int.ofNat 21) (Int.ofNat 22), Tile.Path),
   (Point.mk (Int.ofNat 22) (Int.ofNat 22), Tile.Forest)],
   23, 23⟩

/-- The goal vertex `(width - 2, height - 1) = (21, 22)` of the sample grid. -/
def sampleGoal : Point := ⟨21, 22⟩

/-- The best path the sample-grid search returns: 83 vertices, 82 steps. -/
def samplePath : List Point :=
  [Point.mk (Int.ofNat 1) (Int.ofNat 0), Point.mk (Int.ofNat 1) (Int.ofNat 1), Point.mk (Int.ofNat 2) (Int.ofNat 1),
    Point.mk (Int.ofNat 3) (Int.ofNat 1), Point.mk (Int.ofNat 4) (Int.ofNat 1), Point.mk (Int.ofNat 5) (Int.ofNat 1),
    Point.mk (Int.ofNat 6) (Int.ofNat 1), Point.mk (Int.ofNat 7) (Int.ofNat 1), Point.mk (Int.ofNat 7) (Int.ofNat 2),
    Point.mk (Int.ofNat 7) (Int.ofNat 3), Point.mk (Int.ofNat 6) (Int.ofNat 3), Point.mk (Int.ofNat 5) (Int.ofNat 3),
    Point.mk (Int.ofNat 4) (Int.ofNat 3), Point.mk (Int.ofNat 3) (Int.ofNat 3), Point.mk (Int.ofNat 3) (Int.ofNat 4),
    Point.mk (Int.ofNat 3) (Int.ofNat 5), Point.mk (Int.ofNat 4) (Int.ofNat 5), Point.mk (Int.ofNat 5) (Int.ofNat 5),
    Point.mk (Int.ofNat 6) (Int.ofNat 5), Point.mk (Int.ofNat 7) (Int.ofNat 5), Point.mk (Int.ofNat 7) (Int.ofNat 6),
    Point.mk (Int.ofNat 7) (Int.ofNat 7), Point.mk (Int.ofNat 7) (Int.ofNat 8), Point.mk (Int.ofNat 7) (Int.ofNat 9),
    Point.mk (Int.ofNat 7) (Int.ofNat 10), Point.mk (Int.ofNat 7) (Int.ofNat 11), Point.mk (Int.ofNat 8) (Int.ofNat 11),
    Point.mk (Int.ofNat 9) (Int.ofNat 11), Point.mk (Int.ofNat 9) (Int.ofNat 10), Point.mk (Int.ofNat 9) (Int.ofNat 9),
    Point.mk (Int.ofNat 9) (Int.ofNat 8), Point.mk (Int.ofNat 9) (Int.ofNat 7), Point.mk (Int.ofNat 9) (Int.ofNat 6),
    Point.mk (Int.ofNat 9) (Int.ofNat 5), Point.mk (Int.ofNat 9) (Int.ofNat 4), Point.mk (Int.ofNat 9) (Int.ofNat 3),
    Point.mk (Int.ofNat 10) (Int.ofNat 3), Point.mk (Int.ofNat 11) (Int.ofNat 3), Point.mk (Int.ofNat 12) (Int.ofNat 3),
    Point.mk (Int.ofNat 13) (Int.ofNat 3), Point.mk (Int.ofNat 13) (Int.ofNat 4), Point.mk (Int.ofNat 13) (Int.ofNat 5),
    Point.mk (Int.ofNat 14) (Int.ofNat 5), Point.mk (Int.ofNat 15) (Int.ofNat 5), Point.mk (Int.ofNat 16) (Int.ofNat 5),
    Point.mk (Int.ofNat 17) (Int.ofNat 5), Point.mk (Int.ofNat 17) (Int.ofNat 4), Point.mk (Int.ofNat 17) (Int.ofNat 3),
    Point.mk (Int.ofNat 17) (Int.ofNat 2), Point.mk (Int.ofNat 17) (Int.ofNat 1), Point.mk (Int.ofNat 18) (Int.ofNat 1),
    Point.mk (Int.ofNat 19) (Int.ofNat 1), Point.mk (Int.ofNat 19) (Int.ofNat 2), Point.mk (Int.ofNat 19) (Int.ofNat 3),
    Point.mk (Int.ofNat 19) (Int.ofNat 4), Point.mk (Int.ofNat 19) (Int.ofNat 5), Point.mk (Int.ofNat 20) (Int.ofNat 5),
    Point.mk (Int.ofNat 21) (Int.ofNat 5), Point.mk (Int.ofNat 21) (Int.ofNat 6), Point.mk (Int.ofNat 21) (Int.ofNat 7),
    Point.mk (Int.ofNat 20) (Int.ofNat 7), Point.mk (Int.ofNat 19) (Int.ofNat 7), Point.mk (Int.ofNat 19) (Int.ofNat 8),
    Point.mk (Int.ofNat 19) (Int.ofNat 9), Point.mk (Int.ofNat 20) (Int.ofNat 9), Point.mk (Int.ofNat 21) (Int.ofNat 9),
    Point.mk (Int.ofNat 21) (Int.ofNat 10), Point.mk (Int.ofNat 21) (Int.ofNat 11), Point.mk (Int.ofNat 21) (Int.ofNat 12),
    Point.mk (Int.ofNat 21) (Int.ofNat 13), Point.mk (Int.ofNat 21) (Int.ofNat 14), Point.mk (Int.ofNat 21) (Int.ofNat 15),
    Point.mk (Int.ofNat 20) (Int.ofNat 15), Point.mk (Int.ofNat 19) (Int.ofNat 15), Point.mk (Int.ofNat 19) (Int.ofNat 16),
    Point.mk (Int.ofNat 19) (Int.ofNat 17), Point.mk (Int.ofNat 19) (Int.ofNat 18), Point.mk (Int.ofNat 19) (Int.ofNat 19),
    Point.mk (Int.ofNat 19) (Int.ofNat 20), Point.mk (Int.ofNat 19) (Int.ofNat 21), Point.mk (Int.ofNat 20) (Int.ofNat 21),
    Point.mk (Int.ofNat 21) (Int.ofNat 21), Point.mk (Int.ofNat 21) (Int.ofNat 22)]

/-- The DFS state of the sample grid after 85 loop iterations. -/
def sampleState85 : List (List Point) × List Point × List Point :=
  ([[Point.mk (Int.ofNat 1) (Int.ofNat 0), Point.mk (Int.ofNat 1) (Int.ofNat 1), Point.mk (Int.ofNat 2) (Int.ofNat 1),
    Point.mk (Int.ofNat 3) (Int.ofNat 1), Point.mk (Int.ofNat 4) (Int.ofNat 1), Point.mk (Int.ofNat 5) (Int.ofNat 1),
    Point.mk (Int.ofNat 6) (Int.ofNat 1), Point.mk (Int.ofNat 7) (Int.ofNat 1), Point.mk (Int.ofNat 7) (Int.ofNat 2),
    Point.mk (Int.ofNat 7) (Int.ofNat 3), Point.mk (Int.ofNat 6) (Int.ofNat 3), Point.mk (Int.ofNat 5) (Int.ofNat 3),
    Point.mk (Int.ofNat 4) (Int.ofNat 3), Point.mk (Int.ofNat 3) (Int.ofNat 3), Point.mk (Int.ofNat 3) (Int.ofNat 4),
    Point.mk (Int.ofNat 3) (Int.ofNat 5), Point.mk (Int.ofNat 4) (Int.ofNat 5), Point.mk (Int.ofNat 5) (Int.ofNat 5),
    Point.mk (Int.ofNat 6) (Int.ofNat 5), Point.mk (Int.ofNat 7) (Int.ofNat 5), Point.mk (Int.ofNat 7) (Int.ofNat 6),
    Point.mk (Int.ofNat 7) (Int.ofNat 7), Point.mk (Int.ofNat 7) (Int.ofNat 8), Point.mk (Int.ofNat 7) (Int.ofNat 9),
    Point.mk (Int.ofNat 7) (Int.ofNat 10), Point.mk (Int.ofNat 7) (Int.ofNat 11), Point.mk (Int.ofNat 8) (Int.ofNat 11),
    Point.mk (Int.ofNat 9) (Int.ofNat 11), Point.mk (Int.ofNat 9) (Int.ofNat 10), Point.mk (Int.ofNat 9) (Int.ofNat 9),
    Point.mk (Int.ofNat 9) (Int.ofNat 8), Point.mk (Int.ofNat 9) (Int.ofNat 7), Point.mk (Int.ofNat 9) (Int.ofNat 6),
    Point.mk (Int.ofNat 9) (Int.ofNat 5), Point.mk (Int.ofNat 9) (Int.ofNat 4), Point.mk (Int.ofNat 9) (Int.ofNat 3),
    Point.mk (Int.ofNat 10) (Int.ofNat 3), Point.mk (Int.ofNat 11) (Int.ofNat 3), Point.mk (Int.ofNat 12) (Int.ofNat 3),
    Point.mk (Int.ofNat 13) (Int.ofNat 3), Point.mk (Int.ofNat 13) (Int.ofNat 4), Point.mk (Int.ofNat 13) (Int.ofNat 5),
    Point.mk (Int.ofNat 14) (Int.ofNat 5), Point.mk (Int.ofNat 15) (Int.ofNat 5), Point.mk (Int.ofNat 16) (Int.ofNat 5),
    Point.mk (Int.ofNat 17) (Int.ofNat 5), Point.mk (Int.ofNat 17) (Int.ofNat 4), Point.mk (Int.ofNat 17) (Int.ofNat 3),
    Point.mk (Int.ofNat 17) (Int.ofNat 2), Point.mk (Int.ofNat 17) (Int.ofNat 1), Point.mk (Int.ofNat 18) (Int.ofNat 1),
    Point.mk (Int.ofNat 19) (Int.ofNat 1), Point.mk (Int.ofNat 19) (Int.ofNat 2), Point.mk (Int.ofNat 19) (Int.ofNat 3),
    Point.mk (Int.ofNat 19) (Int.ofNat 4), Point.mk (Int.ofNat 19) (Int.ofNat 3)],
   [Point.mk (Int.ofNat 1) (Int.ofNat 0), Point.mk (Int.ofNat 1) (Int.ofNat 1), Point.mk (Int.ofNat 2) (Int.ofNat 1),
    Point.mk (Int.ofNat 3) (Int.ofNat 1), Point.mk (Int.ofNat 4) (Int.ofNat 1), Point.mk (Int.ofNat 5) (Int.ofNat 1),
    Point.mk (Int.ofNat 6) (Int.ofNat 1), Point.mk (Int.ofNat 7) (Int.ofNat 1), Point.mk (Int.ofNat 7) (Int.ofNat 2),
    Point.mk (Int.ofNat 7) (Int.ofNat 3), Point.mk (Int.ofNat 6) (Int.ofNat 3), Point.mk (Int.ofNat 5) (Int.ofNat 3),
    Point.mk (Int.ofNat 4) (Int.ofNat 3), Point.mk (Int.ofNat 3) (Int.ofNat 3), Point.mk (Int.ofNat 3) (Int.ofNat 4),
    Point.mk (Int.ofNat 3) (Int.ofNat 5), Point.mk (Int.ofNat 4) (Int.ofNat 5), Point.mk (Int.ofNat 5) (Int.ofNat 5),
    Point.mk (Int.ofNat 6) (Int.ofNat 5), Point.mk (Int.ofNat 7) (Int.ofNat 5), Point.mk (Int.ofNat 7) (Int.ofNat 6),
    Point.mk (Int.ofNat 7) (Int.ofNat 7), Point.mk (Int.ofNat 7) (Int.ofNat 8), Point.mk (Int.ofNat 7) (Int.ofNat 9),
    Point.mk (Int.ofNat 7) (Int.ofNat 10), Point.mk (Int.ofNat 7) (Int.ofNat 11), Point.mk (Int.ofNat 8) (Int.ofNat 11),
    Point.mk (Int.ofNat 9) (Int.ofNat 11), Point.mk (Int.ofNat 9) (Int.ofNat 10), Point.mk (Int.ofNat 9) (Int.ofNat 9),
    Point.mk (Int.ofNat 9) (Int.ofNat 8), Point.mk (Int.ofNat 9) (Int.ofNat 7), Point.mk (Int.ofNat 9) (Int.ofNat 6),
    Point.mk (Int.ofNat 9) (Int.ofNat 5), Point.mk (Int.ofNat 9) (Int.ofNat 4), Point.mk (Int.ofNat 9) (Int.ofNat 3),
    Point.mk (Int.ofNat 10) (Int.ofNat 3), Point.mk (Int.ofNat 11) (Int.ofNat 3), Point.mk (Int.ofNat 12) (Int.ofNat 3),
    Point.mk (Int.ofNat 13) (Int.ofNat 3), Point.mk (Int.ofNat 13) (Int.ofNat 4), Point.mk (Int.ofNat 13) (Int.ofNat 5),
    Point.mk (Int.ofNat 14) (Int.ofNat 5), Point.mk (Int.ofNat 15) (Int.ofNat 5), Point.mk (Int.ofNat 16) (Int.ofNat 5),
    Point.mk (Int.ofNat 17) (Int.ofNat 5), Point.mk (Int.ofNat 17) (Int.ofNat 4), Point.mk (Int.ofNat 17) (Int.ofNat 3),
    Point.mk (Int.ofNat 17) (Int.ofNat 2), Point.mk (Int.ofNat 17) (Int.ofNat 1), Point.mk (Int.ofNat 18) (Int.ofNat 1),
    Point.mk (Int.ofNat 19) (Int.ofNat 1), Point.mk (Int.ofNat 19) (Int.ofNat 2), Point.mk (Int.ofNat 19) (Int.ofNat 3),
    Point.mk (Int.ofNat 19) (Int.ofNat 4), Point.mk (Int.ofNat 19) (Int.ofNat 5)],
   [Point.mk (Int.ofNat 1) (Int.ofNat 0), Point.mk (Int.ofNat 1) (Int.ofNat 1), Point.mk (Int.ofNat 2) (Int.ofNat 1),
    Point.mk (Int.ofNat 3) (Int.ofNat 1), Point.mk (Int.ofNat 4) (Int.ofNat 1), Point.mk (Int.ofNat 5) (Int.ofNat 1),
    Point.mk (Int.ofNat 6) (Int.ofNat 1), Point.mk (Int.ofNat 7) (Int.ofNat 1), Point.mk (Int.ofNat 7) (Int.ofNat 2),
    Point.mk (Int.ofNat 7) (Int.ofNat 3), Point.mk (Int.ofNat 6) (Int.ofNat 3), Point.mk (Int.ofNat 5) (Int.ofNat 3),
    Point.mk (Int.ofNat 4) (Int.ofNat 3), Point.mk (Int.ofNat 3) (Int.ofNat 3), Point.mk (Int.ofNat 3) (Int.ofNat 4),
    Point.mk (Int.ofNat 3) (Int.ofNat 5), Point.mk (Int.ofNat 4) (Int.ofNat 5), Point.mk (Int.ofNat 5) (Int.ofNat 5),
    Point.mk (Int.ofNat 6) (Int.ofNat 5), Point.mk (Int.ofNat 7) (Int.ofNat 5), Point.mk (Int.ofNat 7) (Int.ofNat 6),
    Point.mk (Int.ofNat 7) (Int.ofNat 7), Point.mk (Int.ofNat 7) (Int.ofNat 8), Point.mk (Int.ofNat 7) (Int.ofNat 9),
    Point.mk (Int.ofNat 7) (Int.ofNat 10), Point.mk (Int.ofNat 7) (Int.ofNat 11), Point.mk (Int.ofNat 8) (Int.ofNat 11),
    Point.mk (Int.ofNat 9) (Int.ofNat 11), Point.mk (Int.ofNat 9) (Int.ofNat 10), Point.mk (Int.ofNat 9) (Int.ofNat 9),
    Point.mk (Int.ofNat 9) (Int.ofNat 8), Point.mk (Int.ofNat 9) (Int.ofNat 7), Point.mk (Int.ofNat 9) (Int.ofNat 6),
    Point.mk (Int.ofNat 9) (Int.ofNat 5), Point.mk (Int.ofNat 9) (Int.ofNat 4), Point.mk (Int.ofNat 9) (Int.ofNat 3),
    Point.mk (Int.ofNat 10) (Int.ofNat 3), Point.mk (Int.ofNat 11) (Int.ofNat 3), Point.mk (Int.ofNat 12) (Int.ofNat 3),
    Point.mk (Int.ofNat 13) (Int.ofNat 3), Point.mk (Int.ofNat 13) (Int.ofNat 4), Point.mk (Int.ofNat 13) (Int.ofNat 5),
    Point.mk (Int.ofNat 14) (Int.ofNat 5), Point.mk (Int.ofNat 15) (Int.ofNat 5), Point.mk (Int.ofNat 16) (Int.ofNat 5),
    Point.mk (Int.ofNat 17) (Int.ofNat 5), Point.mk (Int.ofNat 17) (Int.ofNat 4), Point.mk (Int.ofNat 17) (Int.ofNat 3),
    Point.mk (Int.ofNat 17) (Int.ofNat 2), Point.mk (Int.ofNat 17) (Int.ofNat 1), Point.mk (Int.ofNat 17) (Int.ofNat 2)],
   [Point.mk (Int.ofNat 1) (Int.ofNat 0), Point.mk (Int.ofNat 1) (Int.ofNat 1), Point.mk (Int.ofNat 2) (Int.ofNat 1),
    Point.mk (Int.ofNat 3) (Int.ofNat 1), Point.mk (Int.ofNat 4) (Int.ofNat 1), Point.mk (Int.ofNat 5) (Int.ofNat 1),
    Point.mk (Int.ofNat 6) (Int.ofNat 1), Point.mk (Int.ofNat 7) (Int.ofNat 1), Point.mk (Int.ofNat 7) (Int.ofNat 2),
    Point.mk (Int.ofNat 7) (Int.ofNat 3), Point.mk (Int.ofNat 6) (Int.ofNat 3), Point.mk (Int.ofNat 5) (Int.ofNat 3),
    Point.mk (Int.ofNat 4) (Int.ofNat 3), Point.mk (Int.ofNat 3) (Int.ofNat 3), Point.mk (Int.ofNat 3) (Int.ofNat 4),
    Point.mk (Int.ofNat 3) (Int.ofNat 5), Point.mk (Int.ofNat 4) (Int.ofNat 5), Point.mk (Int.ofNat 5) (Int.ofNat 5),
    Point.mk (Int.ofNat 6) (Int.ofNat 5), Point.mk (Int.ofNat 7) (Int.ofNat 5), Point.mk (Int.ofNat 7) (Int.ofNat 6),
    Point.mk (Int.ofNat 7) (Int.ofNat 7), Point.mk (Int.ofNat 7) (Int.ofNat 8), Point.mk (Int.ofNat 7) (Int.ofNat 9),
    Point.mk (Int.ofNat 7) (Int.ofNat 10), Point.mk (Int.ofNat 7) (Int.ofNat 11), Point.mk (Int.ofNat 8) (Int.ofNat 11),
    Point.mk (Int.ofNat 9) (Int.ofNat 11), Point.mk (Int.ofNat 9) (Int.ofNat 10), Point.mk (Int.ofNat 9) (Int.ofNat 9),
    Point.mk (Int.ofNat 9) (Int.ofNat 8), Point.mk (Int.ofNat 9) (Int.ofNat 7), Point.mk (Int.ofNat 9) (Int.ofNat 6),
    Point.mk (Int.ofNat 9) (Int.ofNat 5), Point.mk (Int.ofNat 9) (Int.ofNat 4), Point.mk (Int.ofNat 9) (Int.ofNat 3),
    Point.mk (Int.ofNat 10) (Int.ofNat 3), Point.mk (Int.ofNat 11) (Int.ofNat 3), Point.mk (Int.ofNat 12) (Int.ofNat 3),
    Point.mk (Int.ofNat 13) (Int.ofNat 3), Point.mk (Int.ofNat 13) (Int.ofNat 4), Point.mk (Int.ofNat 13) (Int.ofNat 5),
    Point.mk (Int.ofNat 14) (Int.ofNat 5), Point.mk (Int.ofNat 15) (Int.ofNat 5), Point.mk (Int.ofNat 16) (Int.ofNat 5),
    Point.mk (Int.ofNat 17) (Int.ofNat 5), Point.mk (Int.ofNat 17) (Int.ofNat 4), Point.mk (Int.ofNat 17) (Int.ofNat 3),
    Point.mk (Int.ofNat 17) (Int.ofNat 2), Point.mk (Int.ofNat 17) (Int.ofNat 3)],
   [Point.mk (Int.ofNat 1) (Int.ofNat 0), Point.mk (Int.ofNat 1) (Int.ofNat 1), Point.mk (Int.ofNat 2) (Int.ofNat 1),
    Point.mk (Int.ofNat 3) (Int.ofNat 1), Point.mk (Int.ofNat 4) (Int.ofNat 1), Point.mk (Int.ofNat 5) (Int.ofNat 1),
    Point.mk (Int.ofNat 6) (Int.ofNat 1), Point.mk (Int.ofNat 7) (Int.ofNat 1), Point.mk (Int.ofNat 7) (Int.ofNat 2),
    Point.mk (Int.ofNat 7) (Int.ofNat 3), Point.mk (Int.ofNat 6) (Int.ofNat 3), Point.mk (Int.ofNat 5) (Int.ofNat 3),
    Point.mk (Int.ofNat 4) (Int.ofNat 3), Point.mk (Int.ofNat 3) (Int.ofNat 3), Point.mk (Int.ofNat 3) (Int.ofNat 4),
    Point.mk (Int.ofNat 3) (Int.ofNat 5), Point.mk (Int.ofNat 4) (Int.ofNat 5), Point.mk (Int.ofNat 5) (Int.ofNat 5),
    Point.mk (Int.ofNat 6) (Int.ofNat 5), Point.mk (Int.ofNat 7) (Int.ofNat 5), Point.mk (Int.ofNat 7) (Int.ofNat 6),
    Point.mk (Int.ofNat 7) (Int.ofNat 7), Point.mk (Int.ofNat 7) (Int.ofNat 8), Point.mk (Int.ofNat 7) (Int.ofNat 9),
    Point.mk (Int.ofNat 7) (Int.ofNat 10), Point.mk (Int.ofNat 7) (Int.ofNat 11), Point.mk (Int.ofNat 8) (Int.ofNat 11),
    Point.mk (Int.ofNat 9) (Int.ofNat 11), Point.mk (Int.ofNat 9) (Int.ofNat 10), Point.mk (Int.ofNat 9) (Int.ofNat 9),
    Point.mk (Int.ofNat 9) (Int.ofNat 8), Point.mk (Int.ofNat 9) (Int.ofNat 7), Point.mk (Int.ofNat 9) (Int.ofNat 6),
    Point.mk (Int.ofNat 9) (Int.ofNat 5), Point.mk (Int.ofNat 9) (Int.ofNat 4), Point.mk (Int.ofNat 9) (Int.ofNat 3),
    Point.mk (Int.ofNat 10) (Int.ofNat 3), Point.mk (Int.ofNat 11) (Int.ofNat 3), Point.mk (Int.ofNat 12) (Int.ofNat 3),
    Point.mk (Int.ofNat 13) (Int.ofNat 3), Point.mk (Int.ofNat 13) (Int.ofNat 4), Point.mk (Int.ofNat 13) (Int.ofNat 5),
    Point.mk (Int.ofNat 14) (Int.ofNat 5), Point.mk (Int.ofNat 15) (Int.ofNat 5), Point.mk (Int.ofNat 16) (Int.ofNat 5),
    Point.mk (Int.ofNat 17) (Int.ofNat 5), Point.mk (Int.ofNat 17) (Int.ofNat 4), Point.mk (Int.ofNat 17) (Int.ofNat 3),
    Point.mk (Int.ofNat 17) (Int.ofNat 4)],
   [Point.mk (Int.ofNat 1) (Int.ofNat 0), Point.mk (Int.ofNat 1) (Int.ofNat 1), Point.mk (Int.ofNat 2) (Int.ofNat 1),
    Point.mk (Int.ofNat 3) (Int.ofNat 1), Point.mk (Int.ofNat 4) (Int.ofNat 1), Point.mk (Int.ofNat 5) (Int.ofNat 1),
    Point.mk (Int.ofNat 6) (Int.ofNat 1), Point.mk (Int.ofNat 7) (Int.ofNat 1), Point.mk (Int.ofNat 7) (Int.ofNat 2),
    Point.mk (Int.ofNat 7) (Int.ofNat 3), Point.mk (Int.ofNat 6) (Int.ofNat 3), Point.mk (Int.ofNat 5) (Int.ofNat 3),
    Point.mk (Int.ofNat 4) (Int.ofNat 3), Point.mk (Int.ofNat 3) (Int.ofNat 3), Point.mk (Int.ofNat 3) (Int.ofNat 4),
    Point.mk (Int.ofNat 3) (Int.ofNat 5), Point.mk (Int.ofNat 4) (Int.ofNat 5), Point.mk (Int.ofNat 5) (Int.ofNat 5),
    Point.mk (Int.ofNat 6) (Int.ofNat 5), Point.mk (Int.ofNat 7) (Int.ofNat 5), Point.mk (Int.ofNat 7) (Int.ofNat 6),
    Point.mk (Int.ofNat 7) (Int.ofNat 7), Point.mk (Int.ofNat 7) (Int.ofNat 8), Point.mk (Int.ofNat 7) (Int.ofNat 9),
    Point.mk (Int.ofNat 7) (Int.ofNat 10), Point.mk (Int.ofNat 7) (Int.ofNat 11), Point.mk (Int.ofNat 8) (Int.ofNat 11),
    Point.mk (Int.ofNat 9) (Int.ofNat 11), Point.mk (Int.ofNat 9) (Int.ofNat 10), Point.mk (Int.ofNat 9) (Int.ofNat 9),
    Point.mk (Int.ofNat 9) (Int.ofNat 8), Point.mk (Int.ofNat 9) (Int.ofNat 7), Point.mk (Int.ofNat 9) (Int.ofNat 6),
    Point.mk (Int.ofNat 9) (Int.ofNat 5), Point.mk (Int.ofNat 9) (Int.ofNat 4), Point.mk (Int.ofNat 9) (Int.ofNat 3),
    Point.mk (Int.ofNat 10) (Int.ofNat 3), Point.mk (Int.ofNat 11) (Int.ofNat 3), Point.mk (Int.ofNat 12) (Int.ofNat 3),
    Point.mk (Int.ofNat 13) (Int.ofNat 3), Point.mk (Int.ofNat 13) (Int.ofNat 4), Point.mk (Int.ofNat 13) (Int.ofNat 5),
    Point.mk (Int.ofNat 14) (Int.ofNat 5), Point.mk (Int.ofNat 15) (Int.ofNat 5), Point.mk (Int.ofNat 16) (Int.ofNat 5),
    Point.mk (Int.ofNat 17) (Int.ofNat 5), Point.mk (Int.ofNat 17) (Int.ofNat 4), Point.mk (Int.ofNat 17) (Int.ofNat 5)],
   [Point.mk (Int.ofNat 1) (Int.ofNat 0), Point.mk (Int.ofNat 1) (Int.ofNat 1), Point.mk (Int.ofNat 2) (Int.ofNat 1),
    Point.mk (Int.ofNat 3) (Int.ofNat 1), Point.mk (Int.ofNat 4) (Int.ofNat 1), Point.mk (Int.ofNat 5) (Int.ofNat 1),
    Point.mk (Int.ofNat 6) (Int.ofNat 1), Point.mk (Int.ofNat 7) (Int.ofNat 1), Point.mk (Int.ofNat 7) (Int.ofNat 2),
    Point.mk (Int.ofNat 7) (Int.ofNat 3), Point.mk (Int.ofNat 6) (Int.ofNat 3), Point.mk (Int.ofNat 5) (Int.ofNat 3),
    Point.mk (Int.ofNat 4) (Int.ofNat 3), Point.mk (Int.ofNat 3) (Int.ofNat 3), Point.mk (Int.ofNat 3) (Int.ofNat 4),
    Point.mk (Int.ofNat 3) (Int.ofNat 5), Point.mk (Int.ofNat 4) (Int.ofNat 5), Point.mk (Int.ofNat 5) (Int.ofNat 5),
    Point.mk (Int.ofNat 6) (Int.ofNat 5), Point.mk (Int.ofNat 7) (Int.ofNat 5), Point.mk (Int.ofNat 7) (Int.ofNat 6),
    Point.mk (Int.ofNat 7) (Int.ofNat 7), Point.mk (Int.ofNat 7) (Int.ofNat 8), Point.mk (Int.ofNat 7) (Int.ofNat 9),
    Point.mk (Int.ofNat 7) (Int.ofNat 10), Point.mk (Int.ofNat 7) (Int.ofNat 11), Point.mk (Int.ofNat 8) (Int.ofNat 11),
    Point.mk (Int.ofNat 9) (Int.ofNat 11), Point.mk (Int.ofNat 9) (Int.ofNat 10), Point.mk (Int.ofNat 9) (Int.ofNat 9),
    Point.mk (Int.ofNat 9) (Int.ofNat 8), Point.mk (Int.ofNat 9) (Int.ofNat 7), Point.mk (Int.ofNat 9) (Int.ofNat 6),
    Point.mk (Int.ofNat 9) (Int.ofNat 5), Point.mk (Int.ofNat 9) (Int.ofNat 4), Point.mk (Int.ofNat 9) (Int.ofNat 3),
    Point.mk (Int.ofNat 10) (Int.ofNat 3), Point.mk (Int.ofNat 11) (Int.ofNat 3), Point.mk (Int.ofNat 12) (Int.ofNat 3),
    Point.mk (Int.ofNat 13) (Int.ofNat 3), Point.mk (Int.ofNat 13) (Int.ofNat 4), Point.mk (Int.ofNat 13) (Int.ofNat 5),
    Point.mk (Int.ofNat 13) (Int.ofNat 4)],
   [Point.mk (Int.ofNat 1) (Int.ofNat 0), Point.mk (Int.ofNat 1) (Int.ofNat 1), Point.mk (Int.ofNat 2) (Int.ofNat 1),
    Point.mk (Int.ofNat 3) (Int.ofNat 1), Point.mk (Int.ofNat 4) (Int.ofNat 1), Point.mk (Int.ofNat 5) (Int.ofNat 1),
    Point.mk (Int.ofNat 6) (Int.ofNat 1), Point.mk (Int.ofNat 7) (Int.ofNat 1), Point.mk (Int.ofNat 7) (Int.ofNat 2),
    Point.mk (Int.ofNat 7) (Int.ofNat 3), Point.mk (Int.ofNat 6) (Int.ofNat 3), Point.mk (Int.ofNat 5) (Int.ofNat 3),
    Point.mk (Int.ofNat 4) (Int.ofNat 3), Point.mk (Int.ofNat 3) (Int.ofNat 3), Point.mk (Int.ofNat 3) (Int.ofNat 4),
    Point.mk (Int.ofNat 3) (Int.ofNat 5), Point.mk (Int.ofNat 4) (Int.ofNat 5), Point.mk (Int.ofNat 5) (Int.ofNat 5),
    Point.mk (Int.ofNat 6) (Int.ofNat 5), Point.mk (Int.ofNat 7) (Int.ofNat 5), Point.mk (Int.ofNat 7) (Int.ofNat 6),
    Point.mk (Int.ofNat 7) (Int.ofNat 7), Point.mk (Int.ofNat 7) (Int.ofNat 8), Point.mk (Int.ofNat 7) (Int.ofNat 9),
    Point.mk (Int.ofNat 7) (Int.ofNat 10), Point.mk (Int.ofNat 7) (Int.ofNat 11), Point.mk (Int.ofNat 8) (Int.ofNat 11),
    Point.mk (Int.ofNat 9) (Int.ofNat 11), Point.mk (Int.ofNat 9) (Int.ofNat 10), Point.mk (Int.ofNat 9) (Int.ofNat 9),
    Point.mk (Int.ofNat 9) (Int.ofNat 8), Point.mk (Int.ofNat 9) (Int.ofNat 7), Point.mk (Int.ofNat 9) (Int.ofNat 6),
    Point.mk (Int.ofNat 9) (Int.ofNat 5), Point.mk (Int.ofNat 9) (Int.ofNat 4), Point.mk (Int.ofNat 9) (Int.ofNat 3),
    Point.mk (Int.ofNat 10) (Int.ofNat 3), Point.mk (Int.ofNat 11) (Int.ofNat 3), Point.mk (Int.ofNat 11) (Int.ofNat 4)],
   [Point.mk (Int.ofNat 1) (Int.ofNat 0), Point.mk (Int.ofNat 1) (Int.ofNat 1), Point.mk (Int.ofNat 2) (Int.ofNat 1),
    Point.mk (Int.ofNat 3) (Int.ofNat 1), Point.mk (Int.ofNat 4) (Int.ofNat 1), Point.mk (Int.ofNat 5) (Int.ofNat 1),
    Point.mk (Int.ofNat 6) (Int.ofNat 1), Point.mk (Int.ofNat 7) (Int.ofNat 1), Point.mk (Int.ofNat 7) (Int.ofNat 2),
    Point.mk (Int.ofNat 7) (Int.ofNat 3), Point.mk (Int.ofNat 6) (Int.ofNat 3), Point.mk (Int.ofNat 5) (Int.ofNat 3),
    Point.mk (Int.ofNat 4) (Int.ofNat 3), Point.mk (Int.ofNat 3) (Int.ofNat 3), Point.mk (Int.ofNat 3) (Int.ofNat 4),
    Point.mk (Int.ofNat 3) (Int.ofNat 5), Point.mk (Int.ofNat 4) (Int.ofNat 5), Point.mk (Int.ofNat 5) (Int.ofNat 5),
    Point.mk (Int.ofNat 6) (Int.ofNat 5), Point.mk (Int.ofNat 7) (Int.ofNat 5), Point.mk (Int.ofNat 7) (Int.ofNat 6),
    Point.mk (Int.ofNat 7) (Int.ofNat 7), Point.mk (Int.ofNat 7) (Int.ofNat 8), Point.mk (Int.ofNat 7) (Int.ofNat 9),
    Point.mk (Int.ofNat 7) (Int.ofNat 10), Point.mk (Int.ofNat 7) (Int.ofNat 11), Point.mk (Int.ofNat 8) (Int.ofNat 11),
    Point.mk (Int.ofNat 9) (Int.ofNat 11), Point.mk (Int.ofNat 9) (Int.ofNat 10), Point.mk (Int.ofNat 9) (Int.ofNat 9),
    Point.mk (Int.ofNat 9) (Int.ofNat 8), Point.mk (Int.ofNat 9) (Int.ofNat 7), Point.mk (Int.ofNat 9) (Int.ofNat 6),
    Point.mk (Int.ofNat 9) (Int.ofNat 5), Point.mk (Int.ofNat 9) (Int.ofNat 4), Point.mk (Int.ofNat 9) (Int.ofNat 3),
    Point.mk (Int.ofNat 9) (Int.ofNat 4)],
   [Point.mk (Int.ofNat 1) (Int.ofNat 0), Point.mk (Int.ofNat 1) (Int.ofNat 1), Point.mk (Int.ofNat 2) (Int.ofNat 1),
    Point.mk (Int.ofNat 3) (Int.ofNat 1), Point.mk (Int.ofNat 4) (Int.ofNat 1), Point.mk (Int.ofNat 5) (Int.ofNat 1),
    Point.mk (Int.ofNat 6) (Int.ofNat 1), Point.mk (Int.ofNat 7) (Int.ofNat 1), Point.mk (Int.ofNat 7) (Int.ofNat 2),
    Point.mk (Int.ofNat 7) (Int.ofNat 3), Point.mk (Int.ofNat 6) (Int.ofNat 3), Point.mk (Int.ofNat 5) (Int.ofNat 3),
    Point.mk (Int.ofNat 4) (Int.ofNat 3), Point.mk (Int.ofNat 3) (Int.ofNat 3), Point.mk (Int.ofNat 3) (Int.ofNat 4),
    Point.mk (Int.ofNat 3) (Int.ofNat 5), Point.mk (Int.ofNat 4) (Int.ofNat 5), Point.mk (Int.ofNat 5) (Int.ofNat 5),
    Point.mk (Int.ofNat 6) (Int.ofNat 5), Point.mk (Int.ofNat 7) (Int.ofNat 5), Point.mk (Int.ofNat 7) (Int.ofNat 6),
    Point.mk (Int.ofNat 7) (Int.ofNat 7), Point.mk (Int.ofNat 7) (Int.ofNat 8), Point.mk (Int.ofNat 7) (Int.ofNat 9),
    Point.mk (Int.ofNat 7) (Int.ofNat 10), Point.mk (Int.ofNat 7) (Int.ofNat 11), Point.mk (Int.ofNat 8) (Int.ofNat 11),
    Point.mk (Int.ofNat 9) (Int.ofNat 11), Point.mk (Int.ofNat 9) (Int.ofNat 10), Point.mk (Int.ofNat 9) (Int.ofNat 9),
    Point.mk (Int.ofNat 9) (Int.ofNat 8), Point.mk (Int.ofNat 9) (Int.ofNat 7), Point.mk (Int.ofNat 9) (Int.ofNat 6),
    Point.mk (Int.ofNat 9) (Int.ofNat 5), Point.mk (Int.ofNat 9) (Int.ofNat 4), Point.mk (Int.ofNat 9) (Int.ofNat 5)],
   [Point.mk (Int.ofNat 1) (Int.ofNat 0), Point.mk (Int.ofNat 1) (Int.ofNat 1), Point.mk (Int.ofNat 2) (Int.ofNat 1),
    Point.mk (Int.ofNat 3) (Int.ofNat 1), Point.mk (Int.ofNat 4) (Int.ofNat 1), Point.mk (Int.ofNat 5) (Int.ofNat 1),
    Point.mk (Int.ofNat 6) (Int.ofNat 1), Point.mk (Int.ofNat 7) (Int.ofNat 1), Point.mk (Int.ofNat 7) (Int.ofNat 2),
    Point.mk (Int.ofNat 7) (Int.ofNat 3), Point.mk (Int.ofNat 6) (Int.ofNat 3), Point.mk (Int.ofNat 5) (Int.ofNat 3),
    Point.mk (Int.ofNat 4) (Int.ofNat 3), Point.mk (Int.ofNat 3) (Int.ofNat 3), Point.mk (Int.ofNat 3) (Int.ofNat 4),
    Point.mk (Int.ofNat 3) (Int.ofNat 5), Point.mk (Int.ofNat 4) (Int.ofNat 5), Point.mk (Int.ofNat 5) (Int.ofNat 5),
    Point.mk (Int.ofNat 6) (Int.ofNat 5), Point.mk (Int.ofNat 7) (Int.ofNat 5), Point.mk (Int.ofNat 7) (Int.ofNat 6),
    Point.mk (Int.ofNat 7) (Int.ofNat 7), Point.mk (Int.ofNat 7) (Int.ofNat 8), Point.mk (Int.ofNat 7) (Int.ofNat 9),
    Point.mk (Int.ofNat 7) (Int.ofNat 10), Point.mk (Int.ofNat 7) (Int.ofNat 11), Point.mk (Int.ofNat 8) (Int.ofNat 11),
    Point.mk (Int.ofNat 9) (Int.ofNat 11), Point.mk (Int.ofNat 9) (Int.ofNat 10), Point.mk (Int.ofNat 9) (Int.ofNat 9),
    Point.mk (Int.ofNat 9) (Int.ofNat 8), Point.mk (Int.ofNat 9) (Int.ofNat 7), Point.mk (Int.ofNat 9) (Int.ofNat 6),
    Point.mk (Int.ofNat 9) (Int.ofNat 5), Point.mk (Int.ofNat 9) (Int.ofNat 6)],
   [Point.mk (Int.ofNat 1) (Int.ofNat 0), Point.mk (Int.ofNat 1) (Int.ofNat 1), Point.mk (Int.ofNat 2) (Int.ofNat 1),
    Point.mk (Int.ofNat 3) (Int.ofNat 1), Point.mk (Int.ofNat 4) (Int.ofNat 1), Point.mk (Int.ofNat 5) (Int.ofNat 1),
    Point.mk (Int.ofNat 6) (Int.ofNat 1), Point.mk (Int.ofNat 7) (Int.ofNat 1), Point.mk (Int.ofNat 7) (Int.ofNat 2),
    Point.mk (Int.ofNat 7) (Int.ofNat 3), Point.mk (Int.ofNat 6) (Int.ofNat 3), Point.mk (Int.ofNat 5) (Int.ofNat 3),
    Point.mk (Int.ofNat 4) (Int.ofNat 3), Point.mk (Int.ofNat 3) (Int.ofNat 3), Point.mk (Int.ofNat 3) (Int.ofNat 4),
    Point.mk (Int.ofNat 3) (Int.ofNat 5), Point.mk (Int.ofNat 4) (Int.ofNat 5), Point.mk (Int.ofNat 5) (Int.ofNat 5),
    Point.mk (Int.ofNat 6) (Int.ofNat 5), Point.mk (Int.ofNat 7) (Int.ofNat 5), Point.mk (Int.ofNat 7) (Int.ofNat 6),
    Point.mk (Int.ofNat 7) (Int.ofNat 7), Point.mk (Int.ofNat 7) (Int.ofNat 8), Point.mk (Int.ofNat 7) (Int.ofNat 9),
    Point.mk (Int.ofNat 7) (Int.ofNat 10), Point.mk (Int.ofNat 7) (Int.ofNat 11), Point.mk (Int.ofNat 8) (Int.ofNat 11),
    Point.mk (Int.ofNat 9) (Int.ofNat 11), Point.mk (Int.ofNat 9) (Int.ofNat 10), Point.mk (Int.ofNat 9) (Int.ofNat 9),
    Point.mk (Int.ofNat 9) (Int.ofNat 8), Point.mk (Int.ofNat 9) (Int.ofNat 7), Point.mk (Int.ofNat 9) (Int.ofNat 6),
    Point.mk (Int.ofNat 9) (Int.ofNat 7)],
   [Point.mk (Int.ofNat 1) (Int.ofNat 0), Point.mk (Int.ofNat 1) (Int.ofNat 1), Point.mk (Int.ofNat 2) (Int.ofNat 1),
    Point.mk (Int.ofNat 3) (Int.ofNat 1), Point.mk (Int.ofNat 4) (Int.ofNat 1), Point.mk (Int.ofNat 5) (Int.ofNat 1),
    Point.mk (Int.ofNat 6) (Int.ofNat 1), Point.mk (Int.ofNat 7) (Int.ofNat 1), Point.mk (Int.ofNat 7) (Int.ofNat 2),
    Point.mk (Int.ofNat 7) (Int.ofNat 3), Point.mk (Int.ofNat 6) (Int.ofNat 3), Point.mk (Int.ofNat 5) (Int.ofNat 3),
    Point.mk (Int.ofNat 4) (Int.ofNat 3), Point.mk (Int.ofNat 3) (Int.ofNat 3), Point.mk (Int.ofNat 3) (Int.ofNat 4),
    Point.mk (Int.ofNat 3) (Int.ofNat 5), Point.mk (Int.ofNat 4) (Int.ofNat 5), Point.mk (Int.ofNat 5) (Int.ofNat 5),
    Point.mk (Int.ofNat 6) (Int.ofNat 5), Point.mk (Int.ofNat 7) (Int.ofNat 5), Point.mk (Int.ofNat 7) (Int.ofNat 6),
    Point.mk (Int.ofNat 7) (Int.ofNat 7), Point.mk (Int.ofNat 7) (Int.ofNat 8), Point.mk (Int.ofNat 7) (Int.ofNat 9),
    Point.mk (Int.ofNat 7) (Int.ofNat 10), Point.mk (Int.ofNat 7) (Int.ofNat 11), Point.mk (Int.ofNat 8) (Int.ofNat 11),
    Point.mk (Int.ofNat 9) (Int.ofNat 11), Point.mk (Int.ofNat 9) (Int.ofNat 10), Point.mk (Int.ofNat 9) (Int.ofNat 9),
    Point.mk (Int.ofNat 9) (Int.ofNat 8), Point.mk (Int.ofNat 9) (Int.ofNat 7), Point.mk (Int.ofNat 9) (Int.ofNat 8)],
   [Point.mk (Int.ofNat 1) (Int.ofNat 0), Point.mk (Int.ofNat 1) (Int.ofNat 1), Point.mk (Int.ofNat 2) (Int.ofNat 1),
    Point.mk (Int.ofNat 3) (Int.ofNat 1), Point.mk (Int.ofNat 4) (Int.ofNat 1), Point.mk (Int.ofNat 5) (Int.ofNat 1),
    Point.mk (Int.ofNat 6) (Int.ofNat 1), Point.mk (Int.ofNat 7) (Int.ofNat 1), Point.mk (Int.ofNat 7) (Int.ofNat 2),
    Point.mk (Int.ofNat 7) (Int.ofNat 3), Point.mk (Int.ofNat 6) (Int.ofNat 3), Point.mk (Int.ofNat 5) (Int.ofNat 3),
    Point.mk (Int.ofNat 4) (Int.ofNat 3), Point.mk (Int.ofNat 3) (Int.ofNat 3), Point.mk (Int.ofNat 3) (Int.ofNat 4),
    Point.mk (Int.ofNat 3) (Int.ofNat 5), Point.mk (Int.ofNat 4) (Int.ofNat 5), Point.mk (Int.ofNat 5) (Int.ofNat 5),
    Point.mk (Int.ofNat 6) (Int.ofNat 5), Point.mk (Int.ofNat 7) (Int.ofNat 5), Point.mk (Int.ofNat 7) (Int.ofNat 6),
    Point.mk (Int.ofNat 7) (Int.ofNat 7), Point.mk (Int.ofNat 7) (Int.ofNat 8), Point.mk (Int.ofNat 7) (Int.ofNat 9),
    Point.mk (Int.ofNat 7) (Int.ofNat 10), Point.mk (Int.ofNat 7) (Int.ofNat 11), Point.mk (Int.ofNat 8) (Int.ofNat 11),
    Point.mk (Int.ofNat 9) (Int.ofNat 11), Point.mk (Int.ofNat 9) (Int.ofNat 10), Point.mk (Int.ofNat 9) (Int.ofNat 9),
    Point.mk (Int.ofNat 9) (Int.ofNat 8), Point.mk (Int.ofNat 9) (Int.ofNat 9)],
   [Point.mk (Int.ofNat 1) (Int.ofNat 0), Point.mk (Int.ofNat 1) (Int.ofNat 1), Point.mk (Int.ofNat 2) (Int.ofNat 1),
    Point.mk (Int.ofNat 3) (Int.ofNat 1), Point.mk (Int.ofNat 4) (Int.ofNat 1), Point.mk (Int.ofNat 5) (Int.ofNat 1),
    Point.mk (Int.ofNat 6) (Int.ofNat 1), Point.mk (Int.ofNat 7) (Int.ofNat 1), Point.mk (Int.ofNat 7) (Int.ofNat 2),
    Point.mk (Int.ofNat 7) (Int.ofNat 3), Point.mk (Int.ofNat 6) (Int.ofNat 3), Point.mk (Int.ofNat 5) (Int.ofNat 3),
    Point.mk (Int.ofNat 4) (Int.ofNat 3), Point.mk (Int.ofNat 3) (Int.ofNat 3), Point.mk (Int.ofNat 3) (Int.ofNat 4),
    Point.mk (Int.ofNat 3) (Int.ofNat 5), Point.mk (Int.ofNat 4) (Int.ofNat 5), Point.mk (Int.ofNat 5) (Int.ofNat 5),
    Point.mk (Int.ofNat 6) (Int.ofNat 5), Point.mk (Int.ofNat 7) (Int.ofNat 5), Point.mk (Int.ofNat 7) (Int.ofNat 6),
    Point.mk (Int.ofNat 7) (Int.ofNat 7), Point.mk (Int.ofNat 7) (Int.ofNat 8), Point.mk (Int.ofNat 7) (Int.ofNat 9),
    Point.mk (Int.ofNat 7) (Int.ofNat 10), Point.mk (Int.ofNat 7) (Int.ofNat 11), Point.mk (Int.ofNat 8) (Int.ofNat 11),
    Point.mk (Int.ofNat 9) (Int.ofNat 11), Point.mk (Int.ofNat 9) (Int.ofNat 10), Point.mk (Int.ofNat 9) (Int.ofNat 9),
    Point.mk (Int.ofNat 9) (Int.ofNat 10)],
   [Point.mk (Int.ofNat 1) (Int.ofNat 0), Point.mk (Int.ofNat 1) (Int.ofNat 1), Point.mk (Int.ofNat 2) (Int.ofNat 1),
    Point.mk (Int.ofNat 3) (Int.ofNat 1), Point.mk (Int.ofNat 4) (Int.ofNat 1), Point.mk (Int.ofNat 5) (Int.ofNat 1),
    Point.mk (Int.ofNat 6) (Int.ofNat 1), Point.mk (Int.ofNat 7) (Int.ofNat 1), Point.mk (Int.ofNat 7) (Int.ofNat 2),
    Point.mk (Int.ofNat 7) (Int.ofNat 3), Point.mk (Int.ofNat 6) (Int.ofNat 3), Point.mk (Int.ofNat 5) (Int.ofNat 3),
    Point.mk (Int.ofNat 4) (Int.ofNat 3), Point.mk (Int.ofNat 3) (Int.ofNat 3), Point.mk (Int.ofNat 3) (Int.ofNat 4),
    Point.mk (Int.ofNat 3) (Int.ofNat 5), Point.mk (Int.ofNat 4) (Int.ofNat 5), Point.mk (Int.ofNat 5) (Int.ofNat 5),
    Point.mk (Int.ofNat 6) (Int.ofNat 5), Point.mk (Int.ofNat 7) (Int.ofNat 5), Point.mk (Int.ofNat 7) (Int.ofNat 6),
    Point.mk (Int.ofNat 7) (Int.ofNat 7), Point.mk (Int.ofNat 7) (Int.ofNat 8), Point.mk (Int.ofNat 7) (Int.ofNat 9),
    Point.mk (Int.ofNat 7) (Int.ofNat 10), Point.mk (Int.ofNat 7) (Int.ofNat 11), Point.mk (Int.ofNat 8) (Int.ofNat 11),
    Point.mk (Int.ofNat 9) (Int.ofNat 11), Point.mk (Int.ofNat 9) (Int.ofNat 10), Point.mk (Int.ofNat 9) (Int.ofNat 11)],
   [Point.mk (Int.ofNat 1) (Int.ofNat 0), Point.mk (Int.ofNat 1) (Int.ofNat 1), Point.mk (Int.ofNat 2) (Int.ofNat 1),
    Point.mk (Int.ofNat 3) (Int.ofNat 1), Point.mk (Int.ofNat 4) (Int.ofNat 1), Point.mk (Int.ofNat 5) (Int.ofNat 1),
    Point.mk (Int.ofNat 6) (Int.ofNat 1), Point.mk (Int.ofNat 7) (Int.ofNat 1), Point.mk (Int.ofNat 7) (Int.ofNat 2),
    Point.mk (Int.ofNat 7) (Int.ofNat 3), Point.mk (Int.ofNat 6) (Int.ofNat 3), Point.mk (Int.ofNat 5) (Int.ofNat 3),
    Point.mk (Int.ofNat 4) (Int.ofNat 3), Point.mk (Int.ofNat 3) (Int.ofNat 3), Point.mk (Int.ofNat 3) (Int.ofNat 4),
    Point.mk (Int.ofNat 3) (Int.ofNat 5), Point.mk (Int.ofNat 4) (Int.ofNat 5), Point.mk (Int.ofNat 5) (Int.ofNat 5),
    Point.mk (Int.ofNat 6) (Int.ofNat 5), Point.mk (Int.ofNat 7) (Int.ofNat 5), Point.mk (Int.ofNat 7) (Int.ofNat 6),
    Point.mk (Int.ofNat 7) (Int.ofNat 7), Point.mk (Int.ofNat 7) (Int.ofNat 8), Point.mk (Int.ofNat 7) (Int.ofNat 9),
    Point.mk (Int.ofNat 7) (Int.ofNat 10), Point.mk (Int.ofNat 7) (Int.ofNat 11), Point.mk (Int.ofNat 7) (Int.ofNat 10)],
   [Point.mk (Int.ofNat 1) (Int.ofNat 0), Point.mk (Int.ofNat 1) (Int.ofNat 1), Point.mk (Int.ofNat 2) (Int.ofNat 1),
    Point.mk (Int.ofNat 3) (Int.ofNat 1), Point.mk (Int.ofNat 4) (Int.ofNat 1), Point.mk (Int.ofNat 5) (Int.ofNat 1),
    Point.mk (Int.ofNat 6) (Int.ofNat 1), Point.mk (Int.ofNat 7) (Int.ofNat 1), Point.mk (Int.ofNat 7) (Int.ofNat 2),
    Point.mk (Int.ofNat 7) (Int.ofNat 3), Point.mk (Int.ofNat 6) (Int.ofNat 3), Point.mk (Int.ofNat 5) (Int.ofNat 3),
    Point.mk (Int.ofNat 4) (Int.ofNat 3), Point.mk (Int.ofNat 3) (Int.ofNat 3), Point.mk (Int.ofNat 3) (Int.ofNat 4),
    Point.mk (Int.ofNat 3) (Int.ofNat 5), Point.mk (Int.ofNat 3) (Int.ofNat 6)],
   [Point.mk (Int.ofNat 1) (Int.ofNat 0), Point.mk (Int.ofNat 1) (Int.ofNat 1), Point.mk (Int.ofNat 2) (Int.ofNat 1),
    Point.mk (Int.ofNat 3) (Int.ofNat 1), Point.mk (Int.ofNat 4) (Int.ofNat 1), Point.mk (Int.ofNat 5) (Int.ofNat 1),
    Point.mk (Int.ofNat 6) (Int.ofNat 1), Point.mk (Int.ofNat 7) (Int.ofNat 1), Point.mk (Int.ofNat 7) (Int.ofNat 2),
    Point.mk (Int.ofNat 7) (Int.ofNat 3), Point.mk (Int.ofNat 6) (Int.ofNat 3), Point.mk (Int.ofNat 5) (Int.ofNat 3),
    Point.mk (Int.ofNat 4) (Int.ofNat 3), Point.mk (Int.ofNat 5) (Int.ofNat 3)],
   [Point.mk (Int.ofNat 1) (Int.ofNat 0), Point.mk (Int.ofNat 1) (Int.ofNat 1), Point.mk (Int.ofNat 2) (Int.ofNat 1),
    Point.mk (Int.ofNat 3) (Int.ofNat 1), Point.mk (Int.ofNat 4) (Int.ofNat 1), Point.mk (Int.ofNat 5) (Int.ofNat 1),
    Point.mk (Int.ofNat 6) (Int.ofNat 1), Point.mk (Int.ofNat 7) (Int.ofNat 1), Point.mk (Int.ofNat 7) (Int.ofNat 2),
    Point.mk (Int.ofNat 7) (Int.ofNat 3), Point.mk (Int.ofNat 6) (Int.ofNat 3), Point.mk (Int.ofNat 5) (Int.ofNat 3),
    Point.mk (Int.ofNat 6) (Int.ofNat 3)],
   [Point.mk (Int.ofNat 1) (Int.ofNat 0), Point.mk (Int.ofNat 1) (Int.ofNat 1), Point.mk (Int.ofNat 2) (Int.ofNat 1),
    Point.mk (Int.ofNat 3) (Int.ofNat 1), Point.mk (Int.ofNat 4) (Int.ofNat 1), Point.mk (Int.ofNat 5) (Int.ofNat 1),
    Point.mk (Int.ofNat 6) (Int.ofNat 1), Point.mk (Int.ofNat 7) (Int.ofNat 1), Point.mk (Int.ofNat 7) (Int.ofNat 2),
    Point.mk (Int.ofNat 7) (Int.ofNat 3), Point.mk (Int.ofNat 6) (Int.ofNat 3), Point.mk (Int.ofNat 7) (Int.ofNat 3)],
   [Point.mk (Int.ofNat 1) (Int.ofNat 0), Point.mk (Int.ofNat 1) (Int.ofNat 1), Point.mk (Int.ofNat 2) (Int.ofNat 1),
    Point.mk (Int.ofNat 3) (Int.ofNat 1), Point.mk (Int.ofNat 4) (Int.ofNat 1), Point.mk (Int.ofNat 5) (Int.ofNat 1),
    Point.mk (Int.ofNat 6) (Int.ofNat 1), Point.mk (Int.ofNat 7) (Int.ofNat 1), Point.mk (Int.ofNat 7) (Int.ofNat 2),
    Point.mk (Int.ofNat 7) (Int.ofNat 3), Point.mk (Int.ofNat 7) (Int.ofNat 2)],
   [Point.mk (Int.ofNat 1) (Int.ofNat 0), Point.mk (Int.ofNat 1) (Int.ofNat 1), Point.mk (Int.ofNat 1) (Int.ofNat 0)]],
   [Point.mk (Int.ofNat 19) (Int.ofNat 4), Point.mk (Int.ofNat 19) (Int.ofNat 3), Point.mk (Int.ofNat 19) (Int.ofNat 2),
    Point.mk (Int.ofNat 19) (Int.ofNat 1), Point.mk (Int.ofNat 18) (Int.ofNat 1), Point.mk (Int.ofNat 17) (Int.ofNat 1),
    Point.mk (Int.ofNat 17) (Int.ofNat 2), Point.mk (Int.ofNat 17) (Int.ofNat 3), Point.mk (Int.ofNat 17) (Int.ofNat 4),
    Point.mk (Int.ofNat 17) (Int.ofNat 5), Point.mk (Int.ofNat 16) (Int.ofNat 5), Point.mk (Int.ofNat 15) (Int.ofNat 5),
    Point.mk (Int.ofNat 14) (Int.ofNat 5), Point.mk (Int.ofNat 13) (Int.ofNat 5), Point.mk (Int.ofNat 13) (Int.ofNat 4),
    Point.mk (Int.ofNat 13) (Int.ofNat 3), Point.mk (Int.ofNat 12) (Int.ofNat 3), Point.mk (Int.ofNat 11) (Int.ofNat 3),
    Point.mk (Int.ofNat 10) (Int.ofNat 3), Point.mk (Int.ofNat 9) (Int.ofNat 3), Point.mk (Int.ofNat 9) (Int.ofNat 4),
    Point.mk (Int.ofNat 9) (Int.ofNat 5), Point.mk (Int.ofNat 9) (Int.ofNat 6), Point.mk (Int.ofNat 9) (Int.ofNat 7),
    Point.mk (Int.ofNat 9) (Int.ofNat 8), Point.mk (Int.ofNat 9) (Int.ofNat 9), Point.mk (Int.ofNat 9) (Int.ofNat 10),
    Point.mk (Int.ofNat 9) (Int.ofNat 11), Point.mk (Int.ofNat 8) (Int.ofNat 11), Point.mk (Int.ofNat 7) (Int.ofNat 11),
    Point.mk (Int.ofNat 7) (Int.ofNat 10), Point.mk (Int.ofNat 7) (Int.ofNat 9), Point.mk (Int.ofNat 7) (Int.ofNat 8),
    Point.mk (Int.ofNat 7) (Int.ofNat 7), Point.mk (Int.ofNat 7) (Int.ofNat 6), Point.mk (Int.ofNat 7) (Int.ofNat 5),
    Point.mk (Int.ofNat 6) (Int.ofNat 5), Point.mk (Int.ofNat 5) (Int.ofNat 5), Point.mk (Int.ofNat 4) (Int.ofNat 5),
    Point.mk (Int.ofNat 3) (Int.ofNat 5), Point.mk (Int.ofNat 3) (Int.ofNat 4), Point.mk (Int.ofNat 3) (Int.ofNat 3),
    Point.mk (Int.ofNat 4) (Int.ofNat 3), Point.mk (Int.ofNat 5) (Int.ofNat 3), Point.mk (Int.ofNat 6) (Int.ofNat 3),
    Point.mk (Int.ofNat 7) (Int.ofNat 3), Point.mk (Int.ofNat 7) (Int.ofNat 2), Point.mk (Int.ofNat 7) (Int.ofNat 1),
    Point.mk (Int.ofNat 6) (Int.ofNat 1), Point.mk (Int.ofNat 5) (Int.ofNat 1), Point.mk (Int.ofNat 4) (Int.ofNat 1),
    Point.mk (Int.ofNat 3) (Int.ofNat 1), Point.mk (Int.ofNat 2) (Int.ofNat 1), Point.mk (Int.ofNat 1) (Int.ofNat 1),
    Point.mk (Int.ofNat 1) (Int.ofNat 0)],
   [])

/-- The DFS state of the sample grid after 170 loop iterations. -/
def sampleState170 : List (List Point) × List Point × List Point :=
  ([[Point.mk (Int.ofNat 1) (Int.ofNat 0), Point.mk (Int.ofNat 1) (Int.ofNat 1), Point.mk (Int.ofNat 2) (Int.ofNat 1),
    Point.mk (Int.ofNat 3) (Int.ofNat 1), Point.mk (Int.ofNat 4) (Int.ofNat 1), Point.mk (Int.ofNat 5) (Int.ofNat 1),
    Point.mk (Int.ofNat 6) (Int.ofNat 1), Point.mk (Int.ofNat 7) (Int.ofNat 1), Point.mk (Int.ofNat 7) (Int.ofNat 2),
    Point.mk (Int.ofNat 7) (Int.ofNat 3), Point.mk (Int.ofNat 6) (Int.ofNat 3), Point.mk (Int.ofNat 5) (Int.ofNat 3),
    Point.mk (Int.ofNat 4) (Int.ofNat 3), Point.mk (Int.ofNat 3) (Int.ofNat 3), Point.mk (Int.ofNat 3) (Int.ofNat 4),
    Point.mk (Int.ofNat 3) (Int.ofNat 5), Point.mk (Int.ofNat 4) (Int.ofNat 5), Point.mk (Int.ofNat 5) (Int.ofNat 5),
    Point.mk (Int.ofNat 6) (Int.ofNat 5), Point.mk (Int.ofNat 7) (Int.ofNat 5), Point.mk (Int.ofNat 7) (Int.ofNat 6),
    Point.mk (Int.ofNat 7) (Int.ofNat 7), Point.mk (Int.ofNat 7) (Int.ofNat 8), Point.mk (Int.ofNat 7) (Int.ofNat 9),
    Point.mk (Int.ofNat 7) (Int.ofNat 10), Point.mk (Int.ofNat 7) (Int.ofNat 11), Point.mk (Int.ofNat 8) (Int.ofNat 11),
    Point.mk (Int.ofNat 9) (Int.ofNat 11), Point.mk (Int.ofNat 9) (Int.ofNat 10), Point.mk (Int.ofNat 9) (Int.ofNat 9),
    Point.mk (Int.ofNat 9) (Int.ofNat 8), Point.mk (Int.ofNat 9) (Int.ofNat 7), Point.mk (Int.ofNat 9) (Int.ofNat 6),
    Point.mk (Int.ofNat 9) (Int.ofNat 5), Point.mk (Int.ofNat 9) (Int.ofNat 4), Point.mk (Int.ofNat 9) (Int.ofNat 3),
    Point.mk (Int.ofNat 10) (Int.ofNat 3), Point.mk (Int.ofNat 11) (Int.ofNat 3), Point.mk (Int.ofNat 11) (Int.ofNat 4),
    Point.mk (Int.ofNat 11) (Int.ofNat 5), Point.mk (Int.ofNat 11) (Int.ofNat 6), Point.mk (Int.ofNat 11) (Int.ofNat 7),
    Point.mk (Int.ofNat 12) (Int.ofNat 7), Point.mk (Int.ofNat 13) (Int.ofNat 7), Point.mk (Int.ofNat 14) (Int.ofNat 7),
    Point.mk (Int.ofNat 15) (Int.ofNat 7), Point.mk (Int.ofNat 16) (Int.ofNat 7), Point.mk (Int.ofNat 17) (Int.ofNat 7),
    Point.mk (Int.ofNat 17) (Int.ofNat 8), Point.mk (Int.ofNat 17) (Int.ofNat 9), Point.mk (Int.ofNat 16) (Int.ofNat 9),
    Point.mk (Int.ofNat 15) (Int.ofNat 9), Point.mk (Int.ofNat 14) (Int.ofNat 9), Point.mk (Int.ofNat 13) (Int.ofNat 9),
    Point.mk (Int.ofNat 12) (Int.ofNat 9), Point.mk (Int.ofNat 11) (Int.ofNat 9), Point.mk (Int.ofNat 12) (Int.ofNat 9)],
   [Point.mk (Int.ofNat 1) (Int.ofNat 0), Point.mk (Int.ofNat 1) (Int.ofNat 1), Point.mk (Int.ofNat 2) (Int.ofNat 1),
    Point.mk (Int.ofNat 3) (Int.ofNat 1), Point.mk (Int.ofNat 4) (Int.ofNat 1), Point.mk (Int.ofNat 5) (Int.ofNat 1),
    Point.mk (Int.ofNat 6) (Int.ofNat 1), Point.mk (Int.ofNat 7) (Int.ofNat 1), Point.mk (Int.ofNat 7) (Int.ofNat 2),
    Point.mk (Int.ofNat 7) (Int.ofNat 3), Point.mk (Int.ofNat 6) (Int.ofNat 3), Point.mk (Int.ofNat 5) (Int.ofNat 3),
    Point.mk (Int.ofNat 4) (Int.ofNat 3), Point.mk (Int.ofNat 3) (Int.ofNat 3), Point.mk (Int.ofNat 3) (Int.ofNat 4),
    Point.mk (Int.ofNat 3) (Int.ofNat 5), Point.mk (Int.ofNat 4) (Int.ofNat 5), Point.mk (Int.ofNat 5) (Int.ofNat 5),
    Point.mk (Int.ofNat 6) (Int.ofNat 5), Point.mk (Int.ofNat 7) (Int.ofNat 5), Point.mk (Int.ofNat 7) (Int.ofNat 6),
    Point.mk (Int.ofNat 7) (Int.ofNat 7), Point.mk (Int.ofNat 7) (Int.ofNat 8), Point.mk (Int.ofNat 7) (Int.ofNat 9),
    Point.mk (Int.ofNat 7) (Int.ofNat 10), Point.mk (Int.ofNat 7) (Int.ofNat 11), Point.mk (Int.ofNat 8) (Int.ofNat 11),
    Point.mk (Int.ofNat 9) (Int.ofNat 11), Point.mk (Int.ofNat 9) (Int.ofNat 10), Point.mk (Int.ofNat 9) (Int.ofNat 9),
    Point.mk (Int.ofNat 9) (Int.ofNat 8), Point.mk (Int.ofNat 9) (Int.ofNat 7), Point.mk (Int.ofNat 9) (Int.ofNat 6),
    Point.mk (Int.ofNat 9) (Int.ofNat 5), Point.mk (Int.ofNat 9) (Int.ofNat 4), Point.mk (Int.ofNat 9) (Int.ofNat 3),
    Point.mk (Int.ofNat 10) (Int.ofNat 3), Point.mk (Int.ofNat 11) (Int.ofNat 3), Point.mk (Int.ofNat 11) (Int.ofNat 4),
    Point.mk (Int.ofNat 11) (Int.ofNat 5), Point.mk (Int.ofNat 11) (Int.ofNat 6), Point.mk (Int.ofNat 11) (Int.ofNat 7),
    Point.mk (Int.ofNat 12) (Int.ofNat 7), Point.mk (Int.ofNat 13) (Int.ofNat 7), Point.mk (Int.ofNat 14) (Int.ofNat 7),
    Point.mk (Int.ofNat 15) (Int.ofNat 7), Point.mk (Int.ofNat 16) (Int.ofNat 7), Point.mk (Int.ofNat 17) (Int.ofNat 7),
    Point.mk (Int.ofNat 17) (Int.ofNat 8), Point.mk (Int.ofNat 17) (Int.ofNat 9), Point.mk (Int.ofNat 16) (Int.ofNat 9),
    Point.mk (Int.ofNat 15) (Int.ofNat 9), Point.mk (Int.ofNat 14) (Int.ofNat 9), Point.mk (Int.ofNat 13) (Int.ofNat 9),
    Point.mk (Int.ofNat 12) (Int.ofNat 9), Point.mk (Int.ofNat 11) (Int.ofNat 9), Point.mk (Int.ofNat 11) (Int.ofNat 10)],
   [Point.mk (Int.ofNat 1) (Int.ofNat 0), Point.mk (Int.ofNat 1) (Int.ofNat 1), Point.mk (Int.ofNat 2) (Int.ofNat 1),
    Point.mk (Int.ofNat 3) (Int.ofNat 1), Point.mk (Int.ofNat 4) (Int.ofNat 1), Point.mk (Int.ofNat 5) (Int.ofNat 1),
    Point.mk (Int.ofNat 6) (Int.ofNat 1), Point.mk (Int.ofNat 7) (Int.ofNat 1), Point.mk (Int.ofNat 7) (Int.ofNat 2),
    Point.mk (Int.ofNat 7) (Int.ofNat 3), Point.mk (Int.ofNat 6) (Int.ofNat 3), Point.mk (Int.ofNat 5) (Int.ofNat 3),
    Point.mk (Int.ofNat 4) (Int.ofNat 3), Point.mk (Int.ofNat 3) (Int.ofNat 3), Point.mk (Int.ofNat 3) (Int.ofNat 4),
    Point.mk (Int.ofNat 3) (Int.ofNat 5), Point.mk (Int.ofNat 4) (Int.ofNat 5), Point.mk (Int.ofNat 5) (Int.ofNat 5),
    Point.mk (Int.ofNat 6) (Int.ofNat 5), Point.mk (Int.ofNat 7) (Int.ofNat 5), Point.mk (Int.ofNat 7) (Int.ofNat 6),
    Point.mk (Int.ofNat 7) (Int.ofNat 7), Point.mk (Int.ofNat 7) (Int.ofNat 8), Point.mk (Int.ofNat 7) (Int.ofNat 9),
    Point.mk (Int.ofNat 7) (Int.ofNat 10), Point.mk (Int.ofNat 7) (Int.ofNat 11), Point.mk (Int.ofNat 8) (Int.ofNat 11),
    Point.mk (Int.ofNat 9) (Int.ofNat 11), Point.mk (Int.ofNat 9) (Int.ofNat 10), Point.mk (Int.ofNat 9) (Int.ofNat 9),
    Point.mk (Int.ofNat 9) (Int.ofNat 8), Point.mk (Int.ofNat 9) (Int.ofNat 7), Point.mk (Int.ofNat 9) (Int.ofNat 6),
    Point.mk (Int.ofNat 9) (Int.ofNat 5), Point.mk (Int.ofNat 9) (Int.ofNat 4), Point.mk (Int.ofNat 9) (Int.ofNat 3),
    Point.mk (Int.ofNat 10) (Int.ofNat 3), Point.mk (Int.ofNat 11) (Int.ofNat 3), Point.mk (Int.ofNat 11) (Int.ofNat 4),
    Point.mk (Int.ofNat 11) (Int.ofNat 5), Point.mk (Int.ofNat 11) (Int.ofNat 6), Point.mk (Int.ofNat 11) (Int.ofNat 7),
    Point.mk (Int.ofNat 12) (Int.ofNat 7), Point.mk (Int.ofNat 13) (Int.ofNat 7), Point.mk (Int.ofNat 14) (Int.ofNat 7),
    Point.mk (Int.ofNat 15) (Int.ofNat 7), Point.mk (Int.ofNat 16) (Int.ofNat 7), Point.mk (Int.ofNat 17) (Int.ofNat 7),
    Point.mk (Int.ofNat 17) (Int.ofNat 8), Point.mk (Int.ofNat 17) (Int.ofNat 9), Point.mk (Int.ofNat 16) (Int.ofNat 9),
    Point.mk (Int.ofNat 15) (Int.ofNat 9), Point.mk (Int.ofNat 14) (Int.ofNat 9), Point.mk (Int.ofNat 13) (Int.ofNat 9),
    Point.mk (Int.ofNat 12) (Int.ofNat 9), Point.mk (Int.ofNat 13) (Int.ofNat 9)],
   [Point.mk (Int.ofNat 1) (Int.ofNat 0), Point.mk (Int.ofNat 1) (Int.ofNat 1), Point.mk (Int.ofNat 2) (Int.ofNat 1),
    Point.mk (Int.ofNat 3) (Int.ofNat 1), Point.mk (Int.ofNat 4) (Int.ofNat 1), Point.mk (Int.ofNat 5) (Int.ofNat 1),
    Point.mk (Int.ofNat 6) (Int.ofNat 1), Point.mk (Int.ofNat 7) (Int.ofNat 1), Point.mk (Int.ofNat 7) (Int.ofNat 2),
    Point.mk (Int.ofNat 7) (Int.ofNat 3), Point.mk (Int.ofNat 6) (Int.ofNat 3), Point.mk (Int.ofNat 5) (Int.ofNat 3),
    Point.mk (Int.ofNat 4) (Int.ofNat 3), Point.mk (Int.ofNat 3) (Int.ofNat 3), Point.mk (Int.ofNat 3) (Int.ofNat 4),
    Point.mk (Int.ofNat 3) (Int.ofNat 5), Point.mk (Int.ofNat 4) (Int.ofNat 5), Point.mk (Int.ofNat 5) (Int.ofNat 5),
    Point.mk (Int.ofNat 6) (Int.ofNat 5), Point.mk (Int.ofNat 7) (Int.ofNat 5), Point.mk (Int.ofNat 7) (Int.ofNat 6),
    Point.mk (Int.ofNat 7) (Int.ofNat 7), Point.mk (Int.ofNat 7) (Int.ofNat 8), Point.mk (Int.ofNat 7) (Int.ofNat 9),
    Point.mk (Int.ofNat 7) (Int.ofNat 10), Point.mk (Int.ofNat 7) (Int.ofNat 11), Point.mk (Int.ofNat 8) (Int.ofNat 11),
    Point.mk (Int.ofNat 9) (Int.ofNat 11), Point.mk (Int.ofNat 9) (Int.ofNat 10), Point.mk (Int.ofNat 9) (Int.ofNat 9),
    Point.mk (Int.ofNat 9) (Int.ofNat 8), Point.mk (Int.ofNat 9) (Int.ofNat 7), Point.mk (Int.ofNat 9) (Int.ofNat 6),
    Point.mk (Int.ofNat 9) (Int.ofNat 5), Point.mk (Int.ofNat 9) (Int.ofNat 4), Point.mk (Int.ofNat 9) (Int.ofNat 3),
    Point.mk (Int.ofNat 10) (Int.ofNat 3), Point.mk (Int.ofNat 11) (Int.ofNat 3), Point.mk (Int.ofNat 11) (Int.ofNat 4),
    Point.mk (Int.ofNat 11) (Int.ofNat 5), Point.mk (Int.ofNat 11) (Int.ofNat 6), Point.mk (Int.ofNat 11) (Int.ofNat 7),
    Point.mk (Int.ofNat 12) (Int.ofNat 7), Point.mk (Int.ofNat 13) (Int.ofNat 7), Point.mk (Int.ofNat 14) (Int.ofNat 7),
    Point.mk (Int.ofNat 15) (Int.ofNat 7), Point.mk (Int.ofNat 16) (Int.ofNat 7), Point.mk (Int.ofNat 17) (Int.ofNat 7),
    Point.mk (Int.ofNat 17) (Int.ofNat 8), Point.mk (Int.ofNat 17) (Int.ofNat 9), Point.mk (Int.ofNat 16) (Int.ofNat 9),
    Point.mk (Int.ofNat 15) (Int.ofNat 9), Point.mk (Int.ofNat 14) (Int.ofNat 9), Point.mk (Int.ofNat 13) (Int.ofNat 9),
    Point.mk (Int.ofNat 14) (Int.ofNat 9)],
   [Point.mk (Int.ofNat 1) (Int.ofNat 0), Point.mk (Int.ofNat 1) (Int.ofNat 1), Point.mk (Int.ofNat 2) (Int.ofNat 1),
    Point.mk (Int.ofNat 3) (Int.ofNat 1), Point.mk (Int.ofNat 4) (Int.ofNat 1), Point.mk (Int.ofNat 5) (Int.ofNat 1),
    Point.mk (Int.ofNat 6) (Int.ofNat 1), Point.mk (Int.ofNat 7) (Int.ofNat 1), Point.mk (Int.ofNat 7) (Int.ofNat 2),
    Point.mk (Int.ofNat 7) (Int.ofNat 3), Point.mk (Int.ofNat 6) (Int.ofNat 3), Point.mk (Int.ofNat 5) (Int.ofNat 3),
    Point.mk (Int.ofNat 4) (Int.ofNat 3), Point.mk (Int.ofNat 3) (Int.ofNat 3), Point.mk (Int.ofNat 3) (Int.ofNat 4),
    Point.mk (Int.ofNat 3) (Int.ofNat 5), Point.mk (Int.ofNat 4) (Int.ofNat 5), Point.mk (Int.ofNat 5) (Int.ofNat 5),
    Point.mk (Int.ofNat 6) (Int.ofNat 5), Point.mk (Int.ofNat 7) (Int.ofNat 5), Point.mk (Int.ofNat 7) (Int.ofNat 6),
    Point.mk (Int.ofNat 7) (Int.ofNat 7), Point.mk (Int.ofNat 7) (Int.ofNat 8), Point.mk (Int.ofNat 7) (Int.ofNat 9),
    Point.mk (Int.ofNat 7) (Int.ofNat 10), Point.mk (Int.ofNat 7) (Int.ofNat 11), Point.mk (Int.ofNat 8) (Int.ofNat 11),
    Point.mk (Int.ofNat 9) (Int.ofNat 11), Point.mk (Int.ofNat 9) (Int.ofNat 10), Point.mk (Int.ofNat 9) (Int.ofNat 9),
    Point.mk (Int.ofNat 9) (Int.ofNat 8), Point.mk (Int.ofNat 9) (Int.ofNat 7), Point.mk (Int.ofNat 9) (Int.ofNat 6),
    Point.mk (Int.ofNat 9) (Int.ofNat 5), Point.mk (Int.ofNat 9) (Int.ofNat 4), Point.mk (Int.ofNat 9) (Int.ofNat 3),
    Point.mk (Int.ofNat 10) (Int.ofNat 3), Point.mk (Int.ofNat 11) (Int.ofNat 3), Point.mk (Int.ofNat 11) (Int.ofNat 4),
    Point.mk (Int.ofNat 11) (Int.ofNat 5), Point.mk (Int.ofNat 11) (Int.ofNat 6), Point.mk (Int.ofNat 11) (Int.ofNat 7),
    Point.mk (Int.ofNat 12) (Int.ofNat 7), Point.mk (Int.ofNat 13) (Int.ofNat 7), Point.mk (Int.ofNat 14) (Int.ofNat 7),
    Point.mk (Int.ofNat 15) (Int.ofNat 7), Point.mk (Int.ofNat 16) (Int.ofNat 7), Point.mk (Int.ofNat 17) (Int.ofNat 7),
    Point.mk (Int.ofNat 17) (Int.ofNat 8), Point.mk (Int.ofNat 17) (Int.ofNat 9), Point.mk (Int.ofNat 16) (Int.ofNat 9),
    Point.mk (Int.ofNat 15) (Int.ofNat 9), Point.mk (Int.ofNat 14) (Int.ofNat 9), Point.mk (Int.ofNat 15) (Int.ofNat 9)],
   [Point.mk (Int.ofNat 1) (Int.ofNat 0), Point.mk (Int.ofNat 1) (Int.ofNat 1), Point.mk (Int.ofNat 2) (Int.ofNat 1),
    Point.mk (Int.ofNat 3) (Int.ofNat 1), Point.mk (Int.ofNat 4) (Int.ofNat 1), Point.mk (Int.ofNat 5) (Int.ofNat 1),
    Point.mk (Int.ofNat 6) (Int.ofNat 1), Point.mk (Int.ofNat 7) (Int.ofNat 1), Point.mk (Int.ofNat 7) (Int.ofNat 2),
    Point.mk (Int.ofNat 7) (Int.ofNat 3), Point.mk (Int.ofNat 6) (Int.ofNat 3), Point.mk (Int.ofNat 5) (Int.ofNat 3),
    Point.mk (Int.ofNat 4) (Int.ofNat 3), Point.mk (Int.ofNat 3) (Int.ofNat 3), Point.mk (Int.ofNat 3) (Int.ofNat 4),
    Point.mk (Int.ofNat 3) (Int.ofNat 5), Point.mk (Int.ofNat 4) (Int.ofNat 5), Point.mk (Int.ofNat 5) (Int.ofNat 5),
    Point.mk (Int.ofNat 6) (Int.ofNat 5), Point.mk (Int.ofNat 7) (Int.ofNat 5), Point.mk (Int.ofNat 7) (Int.ofNat 6),
    Point.mk (Int.ofNat 7) (Int.ofNat 7), Point.mk (Int.ofNat 7) (Int.ofNat 8), Point.mk (Int.ofNat 7) (Int.ofNat 9),
    Point.mk (Int.ofNat 7) (Int.ofNat 10), Point.mk (Int.ofNat 7) (Int.ofNat 11), Point.mk (Int.ofNat 8) (Int.ofNat 11),
    Point.mk (Int.ofNat 9) (Int.ofNat 11), Point.mk (Int.ofNat 9) (Int.ofNat 10), Point.mk (Int.ofNat 9) (Int.ofNat 9),
    Point.mk (Int.ofNat 9) (Int.ofNat 8), Point.mk (Int.ofNat 9) (Int.ofNat 7), Point.mk (Int.ofNat 9) (Int.ofNat 6),
    Point.mk (Int.ofNat 9) (Int.ofNat 5), Point.mk (Int.ofNat 9) (Int.ofNat 4), Point.mk (Int.ofNat 9) (Int.ofNat 3),
    Point.mk (Int.ofNat 10) (Int.ofNat 3), Point.mk (Int.ofNat 11) (Int.ofNat 3), Point.mk (Int.ofNat 11) (Int.ofNat 4),
    Point.mk (Int.ofNat 11) (Int.ofNat 5), Point.mk (Int.ofNat 11) (Int.ofNat 6), Point.mk (Int.ofNat 11) (Int.ofNat 7),
    Point.mk (Int.ofNat 12) (Int.ofNat 7), Point.mk (Int.ofNat 13) (Int.ofNat 7), Point.mk (Int.ofNat 14) (Int.ofNat 7),
    Point.mk (Int.ofNat 15) (Int.ofNat 7), Point.mk (Int.ofNat 16) (Int.ofNat 7), Point.mk (Int.ofNat 17) (Int.ofNat 7),
    Point.mk (Int.ofNat 17) (Int.ofNat 8), Point.mk (Int.ofNat 17) (Int.ofNat 9), Point.mk (Int.ofNat 16) (Int.ofNat 9),
    Point.mk (Int.ofNat 15) (Int.ofNat 9), Point.mk (Int.ofNat 16) (Int.ofNat 9)],
   [Point.mk (Int.ofNat 1) (Int.ofNat 0), Point.mk (Int.ofNat 1) (Int.ofNat 1), Point.mk (Int.ofNat 2) (Int.ofNat 1),
    Point.mk (Int.ofNat 3) (Int.ofNat 1), Point.mk (Int.ofNat 4) (Int.ofNat 1), Point.mk (Int.ofNat 5) (Int.ofNat 1),
    Point.mk (Int.ofNat 6) (Int.ofNat 1), Point.mk (Int.ofNat 7) (Int.ofNat 1), Point.mk (Int.ofNat 7) (Int.ofNat 2),
    Point.mk (Int.ofNat 7) (Int.ofNat 3), Point.mk (Int.ofNat 6) (Int.ofNat 3), Point.mk (Int.ofNat 5) (Int.ofNat 3),
    Point.mk (Int.ofNat 4) (Int.ofNat 3), Point.mk (Int.ofNat 3) (Int.ofNat 3), Point.mk (Int.ofNat 3) (Int.ofNat 4),
    Point.mk (Int.ofNat 3) (Int.ofNat 5), Point.mk (Int.ofNat 4) (Int.ofNat 5), Point.mk (Int.ofNat 5) (Int.ofNat 5),
    Point.mk (Int.ofNat 6) (Int.ofNat 5), Point.mk (Int.ofNat 7) (Int.ofNat 5), Point.mk (Int.ofNat 7) (Int.ofNat 6),
    Point.mk (Int.ofNat 7) (Int.ofNat 7), Point.mk (Int.ofNat 7) (Int.ofNat 8), Point.mk (Int.ofNat 7) (Int.ofNat 9),
    Point.mk (Int.ofNat 7) (Int.ofNat 10), Point.mk (Int.ofNat 7) (Int.ofNat 11), Point.mk (Int.ofNat 8) (Int.ofNat 11),
    Point.mk (Int.ofNat 9) (Int.ofNat 11), Point.mk (Int.ofNat 9) (Int.ofNat 10), Point.mk (Int.ofNat 9) (Int.ofNat 9),
    Point.mk (Int.ofNat 9) (Int.ofNat 8), Point.mk (Int.ofNat 9) (Int.ofNat 7), Point.mk (Int.ofNat 9) (Int.ofNat 6),
    Point.mk (Int.ofNat 9) (Int.ofNat 5), Point.mk (Int.ofNat 9) (Int.ofNat 4), Point.mk (Int.ofNat 9) (Int.ofNat 3),
    Point.mk (Int.ofNat 10) (Int.ofNat 3), Point.mk (Int.ofNat 11) (Int.ofNat 3), Point.mk (Int.ofNat 11) (Int.ofNat 4),
    Point.mk (Int.ofNat 11) (Int.ofNat 5), Point.mk (Int.ofNat 11) (Int.ofNat 6), Point.mk (Int.ofNat 11) (Int.ofNat 7),
    Point.mk (Int.ofNat 12) (Int.ofNat 7), Point.mk (Int.ofNat 13) (Int.ofNat 7), Point.mk (Int.ofNat 14) (Int.ofNat 7),
    Point.mk (Int.ofNat 15) (Int.ofNat 7), Point.mk (Int.ofNat 16) (Int.ofNat 7), Point.mk (Int.ofNat 17) (Int.ofNat 7),
    Point.mk (Int.ofNat 17) (Int.ofNat 8), Point.mk (Int.ofNat 17) (Int.ofNat 9), Point.mk (Int.ofNat 16) (Int.ofNat 9),
    Point.mk (Int.ofNat 17) (Int.ofNat 9)],
   [Point.mk (Int.ofNat 1) (Int.ofNat 0), Point.mk (Int.ofNat 1) (Int.ofNat 1), Point.mk (Int.ofNat 2) (Int.ofNat 1),
    Point.mk (Int.ofNat 3) (Int.ofNat 1), Point.mk (Int.ofNat 4) (Int.ofNat 1), Point.mk (Int.ofNat 5) (Int.ofNat 1),
    Point.mk (Int.ofNat 6) (Int.ofNat 1), Point.mk (Int.ofNat 7) (Int.ofNat 1), Point.mk (Int.ofNat 7) (Int.ofNat 2),
    Point.mk (Int.ofNat 7) (Int.ofNat 3), Point.mk (Int.ofNat 6) (Int.ofNat 3), Point.mk (Int.ofNat 5) (Int.ofNat 3),
    Point.mk (Int.ofNat 4) (Int.ofNat 3), Point.mk (Int.ofNat 3) (Int.ofNat 3), Point.mk (Int.ofNat 3) (Int.ofNat 4),
    Point.mk (Int.ofNat 3) (Int.ofNat 5), Point.mk (Int.ofNat 4) (Int.ofNat 5), Point.mk (Int.ofNat 5) (Int.ofNat 5),
    Point.mk (Int.ofNat 6) (Int.ofNat 5), Point.mk (Int.ofNat 7) (Int.ofNat 5), Point.mk (Int.ofNat 7) (Int.ofNat 6),
    Point.mk (Int.ofNat 7) (Int.ofNat 7), Point.mk (Int.ofNat 7) (Int.ofNat 8), Point.mk (Int.ofNat 7) (Int.ofNat 9),
    Point.mk (Int.ofNat 7) (Int.ofNat 10), Point.mk (Int.ofNat 7) (Int.ofNat 11), Point.mk (Int.ofNat 8) (Int.ofNat 11),
    Point.mk (Int.ofNat 9) (Int.ofNat 11), Point.mk (Int.ofNat 9) (Int.ofNat 10), Point.mk (Int.ofNat 9) (Int.ofNat 9),
    Point.mk (Int.ofNat 9) (Int.ofNat 8), Point.mk (Int.ofNat 9) (Int.ofNat 7), Point.mk (Int.ofNat 9) (Int.ofNat 6),
    Point.mk (Int.ofNat 9) (Int.ofNat 5), Point.mk (Int.ofNat 9) (Int.ofNat 4), Point.mk (Int.ofNat 9) (Int.ofNat 3),
    Point.mk (Int.ofNat 10) (Int.ofNat 3), Point.mk (Int.ofNat 11) (Int.ofNat 3), Point.mk (Int.ofNat 11) (Int.ofNat 4),
    Point.mk (Int.ofNat 11) (Int.ofNat 5), Point.mk (Int.ofNat 11) (Int.ofNat 6), Point.mk (Int.ofNat 11) (Int.ofNat 7),
    Point.mk (Int.ofNat 12) (Int.ofNat 7), Point.mk (Int.ofNat 13) (Int.ofNat 7), Point.mk (Int.ofNat 14) (Int.ofNat 7),
    Point.mk (Int.ofNat 15) (Int.ofNat 7), Point.mk (Int.ofNat 16) (Int.ofNat 7), Point.mk (Int.ofNat 17) (Int.ofNat 7),
    Point.mk (Int.ofNat 17) (Int.ofNat 8), Point.mk (Int.ofNat 17) (Int.ofNat 9), Point.mk (Int.ofNat 17) (Int.ofNat 8)],
   [Point.mk (Int.ofNat 1) (Int.ofNat 0), Point.mk (Int.ofNat 1) (Int.ofNat 1), Point.mk (Int.ofNat 2) (Int.ofNat 1),
    Point.mk (Int.ofNat 3) (Int.ofNat 1), Point.mk (Int.ofNat 4) (Int.ofNat 1), Point.mk (Int.ofNat 5) (Int.ofNat 1),
    Point.mk (Int.ofNat 6) (Int.ofNat 1), Point.mk (Int.ofNat 7) (Int.ofNat 1), Point.mk (Int.ofNat 7) (Int.ofNat 2),
    Point.mk (Int.ofNat 7) (Int.ofNat 3), Point.mk (Int.ofNat 6) (Int.ofNat 3), Point.mk (Int.ofNat 5) (Int.ofNat 3),
    Point.mk (Int.ofNat 4) (Int.ofNat 3), Point.mk (Int.ofNat 3) (Int.ofNat 3), Point.mk (Int.ofNat 3) (Int.ofNat 4),
    Point.mk (Int.ofNat 3) (Int.ofNat 5), Point.mk (Int.ofNat 4) (Int.ofNat 5), Point.mk (Int.ofNat 5) (Int.ofNat 5),
    Point.mk (Int.ofNat 6) (Int.ofNat 5), Point.mk (Int.ofNat 7) (Int.ofNat 5), Point.mk (Int.ofNat 7) (Int.ofNat 6),
    Point.mk (Int.ofNat 7) (Int.ofNat 7), Point.mk (Int.ofNat 7) (Int.ofNat 8), Point.mk (Int.ofNat 7) (Int.ofNat 9),
    Point.mk (Int.ofNat 7) (Int.ofNat 10), Point.mk (Int.ofNat 7) (Int.ofNat 11), Point.mk (Int.ofNat 8) (Int.ofNat 11),
    Point.mk (Int.ofNat 9) (Int.ofNat 11), Point.mk (Int.ofNat 9) (Int.ofNat 10), Point.mk (Int.ofNat 9) (Int.ofNat 9),
    Point.mk (Int.ofNat 9) (Int.ofNat 8), Point.mk (Int.ofNat 9) (Int.ofNat 7), Point.mk (Int.ofNat 9) (Int.ofNat 6),
    Point.mk (Int.ofNat 9) (Int.ofNat 5), Point.mk (Int.ofNat 9) (Int.ofNat 4), Point.mk (Int.ofNat 9) (Int.ofNat 3),
    Point.mk (Int.ofNat 10) (Int.ofNat 3), Point.mk (Int.ofNat 11) (Int.ofNat 3), Point.mk (Int.ofNat 11) (Int.ofNat 4),
    Point.mk (Int.ofNat 11) (Int.ofNat 5), Point.mk (Int.ofNat 11) (Int.ofNat 6), Point.mk (Int.ofNat 11) (Int.ofNat 7),
    Point.mk (Int.ofNat 11) (Int.ofNat 6)],
   [Point.mk (Int.ofNat 1) (Int.ofNat 0), Point.mk (Int.ofNat 1) (Int.ofNat 1), Point.mk (Int.ofNat 2) (Int.ofNat 1),
    Point.mk (Int.ofNat 3) (Int.ofNat 1), Point.mk (Int.ofNat 4) (Int.ofNat 1), Point.mk (Int.ofNat 5) (Int.ofNat 1),
    Point.mk (Int.ofNat 6) (Int.ofNat 1), Point.mk (Int.ofNat 7) (Int.ofNat 1), Point.mk (Int.ofNat 7) (Int.ofNat 2),
    Point.mk (Int.ofNat 7) (Int.ofNat 3), Point.mk (Int.ofNat 6) (Int.ofNat 3), Point.mk (Int.ofNat 5) (Int.ofNat 3),
    Point.mk (Int.ofNat 4) (Int.ofNat 3), Point.mk (Int.ofNat 3) (Int.ofNat 3), Point.mk (Int.ofNat 3) (Int.ofNat 4),
    Point.mk (Int.ofNat 3) (Int.ofNat 5), Point.mk (Int.ofNat 4) (Int.ofNat 5), Point.mk (Int.ofNat 5) (Int.ofNat 5),
    Point.mk (Int.ofNat 6) (Int.ofNat 5), Point.mk (Int.ofNat 7) (Int.ofNat 5), Point.mk (Int.ofNat 7) (Int.ofNat 6),
    Point.mk (Int.ofNat 7) (Int.ofNat 7), Point.mk (Int.ofNat 7) (Int.ofNat 8), Point.mk (Int.ofNat 7) (Int.ofNat 9),
    Point.mk (Int.ofNat 7) (Int.ofNat 10), Point.mk (Int.ofNat 7) (Int.ofNat 11), Point.mk (Int.ofNat 8) (Int.ofNat 11),
    Point.mk (Int.ofNat 9) (Int.ofNat 11), Point.mk (Int.ofNat 9) (Int.ofNat 10), Point.mk (Int.ofNat 9) (Int.ofNat 9),
    Point.mk (Int.ofNat 9) (Int.ofNat 8), Point.mk (Int.ofNat 9) (Int.ofNat 7), Point.mk (Int.ofNat 9) (Int.ofNat 6),
    Point.mk (Int.ofNat 9) (Int.ofNat 5), Point.mk (Int.ofNat 9) (Int.ofNat 4), Point.mk (Int.ofNat 9) (Int.ofNat 3),
    Point.mk (Int.ofNat 9) (Int.ofNat 4)],
   [Point.mk (Int.ofNat 1) (Int.ofNat 0), Point.mk (Int.ofNat 1) (Int.ofNat 1), Point.mk (Int.ofNat 2) (Int.ofNat 1),
    Point.mk (Int.ofNat 3) (Int.ofNat 1), Point.mk (Int.ofNat 4) (Int.ofNat 1), Point.mk (Int.ofNat 5) (Int.ofNat 1),
    Point.mk (Int.ofNat 6) (Int.ofNat 1), Point.mk (Int.ofNat 7) (Int.ofNat 1), Point.mk (Int.ofNat 7) (Int.ofNat 2),
    Point.mk (Int.ofNat 7) (Int.ofNat 3), Point.mk (Int.ofNat 6) (Int.ofNat 3), Point.mk (Int.ofNat 5) (Int.ofNat 3),
    Point.mk (Int.ofNat 4) (Int.ofNat 3), Point.mk (Int.ofNat 3) (Int.ofNat 3), Point.mk (Int.ofNat 3) (Int.ofNat 4),
    Point.mk (Int.ofNat 3) (Int.ofNat 5), Point.mk (Int.ofNat 4) (Int.ofNat 5), Point.mk (Int.ofNat 5) (Int.ofNat 5),
    Point.mk (Int.ofNat 6) (Int.ofNat 5), Point.mk (Int.ofNat 7) (Int.ofNat 5), Point.mk (Int.ofNat 7) (Int.ofNat 6),
    Point.mk (Int.ofNat 7) (Int.ofNat 7), Point.mk (Int.ofNat 7) (Int.ofNat 8), Point.mk (Int.ofNat 7) (Int.ofNat 9),
    Point.mk (Int.ofNat 7) (Int.ofNat 10), Point.mk (Int.ofNat 7) (Int.ofNat 11), Point.mk (Int.ofNat 8) (Int.ofNat 11),
    Point.mk (Int.ofNat 9) (Int.ofNat 11), Point.mk (Int.ofNat 9) (Int.ofNat 10), Point.mk (Int.ofNat 9) (Int.ofNat 9),
    Point.mk (Int.ofNat 9) (Int.ofNat 8), Point.mk (Int.ofNat 9) (Int.ofNat 7), Point.mk (Int.ofNat 9) (Int.ofNat 6),
    Point.mk (Int.ofNat 9) (Int.ofNat 5), Point.mk (Int.ofNat 9) (Int.ofNat 4), Point.mk (Int.ofNat 9) (Int.ofNat 5)],
   [Point.mk (Int.ofNat 1) (Int.ofNat 0), Point.mk (Int.ofNat 1) (Int.ofNat 1), Point.mk (Int.ofNat 2) (Int.ofNat 1),
    Point.mk (Int.ofNat 3) (Int.ofNat 1), Point.mk (Int.ofNat 4) (Int.ofNat 1), Point.mk (Int.ofNat 5) (Int.ofNat 1),
    Point.mk (Int.ofNat 6) (Int.ofNat 1), Point.mk (Int.ofNat 7) (Int.ofNat 1), Point.mk (Int.ofNat 7) (Int.ofNat 2),
    Point.mk (Int.ofNat 7) (Int.ofNat 3), Point.mk (Int.ofNat 6) (Int.ofNat 3), Point.mk (Int.ofNat 5) (Int.ofNat 3),
    Point.mk (Int.ofNat 4) (Int.ofNat 3), Point.mk (Int.ofNat 3) (Int.ofNat 3), Point.mk (Int.ofNat 3) (Int.ofNat 4),
    Point.mk (Int.ofNat 3) (Int.ofNat 5), Point.mk (Int.ofNat 4) (Int.ofNat 5), Point.mk (Int.ofNat 5) (Int.ofNat 5),
    Point.mk (Int.ofNat 6) (Int.ofNat 5), Point.mk (Int.ofNat 7) (Int.ofNat 5), Point.mk (Int.ofNat 7) (Int.ofNat 6),
    Point.mk (Int.ofNat 7) (Int.ofNat 7), Point.mk (Int.ofNat 7) (Int.ofNat 8), Point.mk (Int.ofNat 7) (Int.ofNat 9),
    Point.mk (Int.ofNat 7) (Int.ofNat 10), Point.mk (Int.ofNat 7) (Int.ofNat 11), Point.mk (Int.ofNat 8) (Int.ofNat 11),
    Point.mk (Int.ofNat 9) (Int.ofNat 11), Point.mk (Int.ofNat 9) (Int.ofNat 10), Point.mk (Int.ofNat 9) (Int.ofNat 9),
    Point.mk (Int.ofNat 9) (Int.ofNat 8), Point.mk (Int.ofNat 9) (Int.ofNat 7), Point.mk (Int.ofNat 9) (Int.ofNat 6),
    Point.mk (Int.ofNat 9) (Int.ofNat 5), Point.mk (Int.ofNat 9) (Int.ofNat 6)],
   [Point.mk (Int.ofNat 1) (Int.ofNat 0), Point.mk (Int.ofNat 1) (Int.ofNat 1), Point.mk (Int.ofNat 2) (Int.ofNat 1),
    Point.mk (Int.ofNat 3) (Int.ofNat 1), Point.mk (Int.ofNat 4) (Int.ofNat 1), Point.mk (Int.ofNat 5) (Int.ofNat 1),
    Point.mk (Int.ofNat 6) (Int.ofNat 1), Point.mk (Int.ofNat 7) (Int.ofNat 1), Point.mk (Int.ofNat 7) (Int.ofNat 2),
    Point.mk (Int.ofNat 7) (Int.ofNat 3), Point.mk (Int.ofNat 6) (Int.ofNat 3), Point.mk (Int.ofNat 5) (Int.ofNat 3),
    Point.mk (Int.ofNat 4) (Int.ofNat 3), Point.mk (Int.ofNat 3) (Int.ofNat 3), Point.mk (Int.ofNat 3) (Int.ofNat 4),
    Point.mk (Int.ofNat 3) (Int.ofNat 5), Point.mk (Int.ofNat 4) (Int.ofNat 5), Point.mk (Int.ofNat 5) (Int.ofNat 5),
    Point.mk (Int.ofNat 6) (Int.ofNat 5), Point.mk (Int.ofNat 7) (Int.ofNat 5), Point.mk (Int.ofNat 7) (Int.ofNat 6),
    Point.mk (Int.ofNat 7) (Int.ofNat 7), Point.mk (Int.ofNat 7) (Int.ofNat 8), Point.mk (Int.ofNat 7) (Int.ofNat 9),
    Point.mk (Int.ofNat 7) (Int.ofNat 10), Point.mk (Int.ofNat 7) (Int.ofNat 11), Point.mk (Int.ofNat 8) (Int.ofNat 11),
    Point.mk (Int.ofNat 9) (Int.ofNat 11), Point.mk (Int.ofNat 9) (Int.ofNat 10), Point.mk (Int.ofNat 9) (Int.ofNat 9),
    Point.mk (Int.ofNat 9) (Int.ofNat 8), Point.mk (Int.ofNat 9) (Int.ofNat 7), Point.mk (Int.ofNat 9) (Int.ofNat 6),
    Point.mk (Int.ofNat 9) (Int.ofNat 7)],
   [Point.mk (Int.ofNat 1) (Int.ofNat 0), Point.mk (Int.ofNat 1) (Int.ofNat 1), Point.mk (Int.ofNat 2) (Int.ofNat 1),
    Point.mk (Int.ofNat 3) (Int.ofNat 1), Point.mk (Int.ofNat 4) (Int.ofNat 1), Point.mk (Int.ofNat 5) (Int.ofNat 1),
    Point.mk (Int.ofNat 6) (Int.ofNat 1), Point.mk (Int.ofNat 7) (Int.ofNat 1), Point.mk (Int.ofNat 7) (Int.ofNat 2),
    Point.mk (Int.ofNat 7) (Int.ofNat 3), Point.mk (Int.ofNat 6) (Int.ofNat 3), Point.mk (Int.ofNat 5) (Int.ofNat 3),
    Point.mk (Int.ofNat 4) (Int.ofNat 3), Point.mk (Int.ofNat 3) (Int.ofNat 3), Point.mk (Int.ofNat 3) (Int.ofNat 4),
    Point.mk (Int.ofNat 3) (Int.ofNat 5), Point.mk (Int.ofNat 4) (Int.ofNat 5), Point.mk (Int.ofNat 5) (Int.ofNat 5),
    Point.mk (Int.ofNat 6) (Int.ofNat 5), Point.mk (Int.ofNat 7) (Int.ofNat 5), Point.mk (Int.ofNat 7) (Int.ofNat 6),
    Point.mk (Int.ofNat 7) (Int.ofNat 7), Point.mk (Int.ofNat 7) (Int.ofNat 8), Point.mk (Int.ofNat 7) (Int.ofNat 9),
    Point.mk (Int.ofNat 7) (Int.ofNat 10), Point.mk (Int.ofNat 7) (Int.ofNat 11), Point.mk (Int.ofNat 8) (Int.ofNat 11),
    Point.mk (Int.ofNat 9) (Int.ofNat 11), Point.mk (Int.ofNat 9) (Int.ofNat 10), Point.mk (Int.ofNat 9) (Int.ofNat 9),
    Point.mk (Int.ofNat 9) (Int.ofNat 8), Point.mk (Int.ofNat 9) (Int.ofNat 7), Point.mk (Int.ofNat 9) (Int.ofNat 8)],
   [Point.mk (Int.ofNat 1) (Int.ofNat 0), Point.mk (Int.ofNat 1) (Int.ofNat 1), Point.mk (Int.ofNat 2) (Int.ofNat 1),
    Point.mk (Int.ofNat 3) (Int.ofNat 1), Point.mk (Int.ofNat 4) (Int.ofNat 1), Point.mk (Int.ofNat 5) (Int.ofNat 1),
    Point.mk (Int.ofNat 6) (Int.ofNat 1), Point.mk (Int.ofNat 7) (Int.ofNat 1), Point.mk (Int.ofNat 7) (Int.ofNat 2),
    Point.mk (Int.ofNat 7) (Int.ofNat 3), Point.mk (Int.ofNat 6) (Int.ofNat 3), Point.mk (Int.ofNat 5) (Int.ofNat 3),
    Point.mk (Int.ofNat 4) (Int.ofNat 3), Point.mk (Int.ofNat 3) (Int.ofNat 3), Point.mk (Int.ofNat 3) (Int.ofNat 4),
    Point.mk (Int.ofNat 3) (Int.ofNat 5), Point.mk (Int.ofNat 4) (Int.ofNat 5), Point.mk (Int.ofNat 5) (Int.ofNat 5),
    Point.mk (Int.ofNat 6) (Int.ofNat 5), Point.mk (Int.ofNat 7) (Int.ofNat 5), Point.mk (Int.ofNat 7) (Int.ofNat 6),
    Point.mk (Int.ofNat 7) (Int.ofNat 7), Point.mk (Int.ofNat 7) (Int.ofNat 8), Point.mk (Int.ofNat 7) (Int.ofNat 9),
    Point.mk (Int.ofNat 7) (Int.ofNat 10), Point.mk (Int.ofNat 7) (Int.ofNat 11), Point.mk (Int.ofNat 8) (Int.ofNat 11),
    Point.mk (Int.ofNat 9) (Int.ofNat 11), Point.mk (Int.ofNat 9) (Int.ofNat 10), Point.mk (Int.ofNat 9) (Int.ofNat 9),
    Point.mk (Int.ofNat 9) (Int.ofNat 8), Point.mk (Int.ofNat 9) (Int.ofNat 9)],
   [Point.mk (Int.ofNat 1) (Int.ofNat 0), Point.mk (Int.ofNat 1) (Int.ofNat 1), Point.mk (Int.ofNat 2) (Int.ofNat 1),
    Point.mk (Int.ofNat 3) (Int.ofNat 1), Point.mk (Int.ofNat 4) (Int.ofNat 1), Point.mk (Int.ofNat 5) (Int.ofNat 1),
    Point.mk (Int.ofNat 6) (Int.ofNat 1), Point.mk (Int.ofNat 7) (Int.ofNat 1), Point.mk (Int.ofNat 7) (Int.ofNat 2),
    Point.mk (Int.ofNat 7) (Int.ofNat 3), Point.mk (Int.ofNat 6) (Int.ofNat 3), Point.mk (Int.ofNat 5) (Int.ofNat 3),
    Point.mk (Int.ofNat 4) (Int.ofNat 3), Point.mk (Int.ofNat 3) (Int.ofNat 3), Point.mk (Int.ofNat 3) (Int.ofNat 4),
    Point.mk (Int.ofNat 3) (Int.ofNat 5), Point.mk (Int.ofNat 4) (Int.ofNat 5), Point.mk (Int.ofNat 5) (Int.ofNat 5),
    Point.mk (Int.ofNat 6) (Int.ofNat 5), Point.mk (Int.ofNat 7) (Int.ofNat 5), Point.mk (Int.ofNat 7) (Int.ofNat 6),
    Point.mk (Int.ofNat 7) (Int.ofNat 7), Point.mk (Int.ofNat 7) (Int.ofNat 8), Point.mk (Int.ofNat 7) (Int.ofNat 9),
    Point.mk (Int.ofNat 7) (Int.ofNat 10), Point.mk (Int.ofNat 7) (Int.ofNat 11), Point.mk (Int.ofNat 8) (Int.ofNat 11),
    Point.mk (Int.ofNat 9) (Int.ofNat 11), Point.mk (Int.ofNat 9) (Int.ofNat 10), Point.mk (Int.ofNat 9) (Int.ofNat 9),
    Point.mk (Int.ofNat 9) (Int.ofNat 10)],
   [Point.mk (Int.ofNat 1) (Int.ofNat 0), Point.mk (Int.ofNat 1) (Int.ofNat 1), Point.mk (Int.ofNat 2) (Int.ofNat 1),
    Point.mk (Int.ofNat 3) (Int.ofNat 1), Point.mk (Int.ofNat 4) (Int.ofNat 1), Point.mk (Int.ofNat 5) (Int.ofNat 1),
    Point.mk (Int.ofNat 6) (Int.ofNat 1), Point.mk (Int.ofNat 7) (Int.ofNat 1), Point.mk (Int.ofNat 7) (Int.ofNat 2),
    Point.mk (Int.ofNat 7) (Int.ofNat 3), Point.mk (Int.ofNat 6) (Int.ofNat 3), Point.mk (Int.ofNat 5) (Int.ofNat 3),
    Point.mk (Int.ofNat 4) (Int.ofNat 3), Point.mk (Int.ofNat 3) (Int.ofNat 3), Point.mk (Int.ofNat 3) (Int.ofNat 4),
    Point.mk (Int.ofNat 3) (Int.ofNat 5), Point.mk (Int.ofNat 4) (Int.ofNat 5), Point.mk (Int.ofNat 5) (Int.ofNat 5),
    Point.mk (Int.ofNat 6) (Int.ofNat 5), Point.mk (Int.ofNat 7) (Int.ofNat 5), Point.mk (Int.ofNat 7) (Int.ofNat 6),
    Point.mk (Int.ofNat 7) (Int.ofNat 7), Point.mk (Int.ofNat 7) (Int.ofNat 8), Point.mk (Int.ofNat 7) (Int.ofNat 9),
    Point.mk (Int.ofNat 7) (Int.ofNat 10), Point.mk (Int.ofNat 7) (Int.ofNat 11), Point.mk (Int.ofNat 8) (Int.ofNat 11),
    Point.mk (Int.ofNat 9) (Int.ofNat 11), Point.mk (Int.ofNat 9) (Int.ofNat 10), Point.mk (Int.ofNat 9) (Int.ofNat 11)],
   [Point.mk (Int.ofNat 1) (Int.ofNat 0), Point.mk (Int.ofNat 1) (Int.ofNat 1), Point.mk (Int.ofNat 2) (Int.ofNat 1),
    Point.mk (Int.ofNat 3) (Int.ofNat 1), Point.mk (Int.ofNat 4) (Int.ofNat 1), Point.mk (Int.ofNat 5) (Int.ofNat 1),
    Point.mk (Int.ofNat 6) (Int.ofNat 1), Point.mk (Int.ofNat 7) (Int.ofNat 1), Point.mk (Int.ofNat 7) (Int.ofNat 2),
    Point.mk (Int.ofNat 7) (Int.ofNat 3), Point.mk (Int.ofNat 6) (Int.ofNat 3), Point.mk (Int.ofNat 5) (Int.ofNat 3),
    Point.mk (Int.ofNat 4) (Int.ofNat 3), Point.mk (Int.ofNat 3) (Int.ofNat 3), Point.mk (Int.ofNat 3) (Int.ofNat 4),
    Point.mk (Int.ofNat 3) (Int.ofNat 5), Point.mk (Int.ofNat 4) (Int.ofNat 5), Point.mk (Int.ofNat 5) (Int.ofNat 5),
    Point.mk (Int.ofNat 6) (Int.ofNat 5), Point.mk (Int.ofNat 7) (Int.ofNat 5), Point.mk (Int.ofNat 7) (Int.ofNat 6),
    Point.mk (Int.ofNat 7) (Int.ofNat 7), Point.mk (Int.ofNat 7) (Int.ofNat 8), Point.mk (Int.ofNat 7) (Int.ofNat 9),
    Point.mk (Int.ofNat 7) (Int.ofNat 10), Point.mk (Int.ofNat 7) (Int.ofNat 11), Point.mk (Int.ofNat 7) (Int.ofNat 10)],
   [Point.mk (Int.ofNat 1) (Int.ofNat 0), Point.mk (Int.ofNat 1) (Int.ofNat 1), Point.mk (Int.ofNat 2) (Int.ofNat 1),
    Point.mk (Int.ofNat 3) (Int.ofNat 1), Point.mk (Int.ofNat 4) (Int.ofNat 1), Point.mk (Int.ofNat 5) (Int.ofNat 1),
    Point.mk (Int.ofNat 6) (Int.ofNat 1), Point.mk (Int.ofNat 7) (Int.ofNat 1), Point.mk (Int.ofNat 7) (Int.ofNat 2),
    Point.mk (Int.ofNat 7) (Int.ofNat 3), Point.mk (Int.ofNat 6) (Int.ofNat 3), Point.mk (Int.ofNat 5) (Int.ofNat 3),
    Point.mk (Int.ofNat 4) (Int.ofNat 3), Point.mk (Int.ofNat 3) (Int.ofNat 3), Point.mk (Int.ofNat 3) (Int.ofNat 4),
    Point.mk (Int.ofNat 3) (Int.ofNat 5), Point.mk (Int.ofNat 3) (Int.ofNat 6)],
   [Point.mk (Int.ofNat 1) (Int.ofNat 0), Point.mk (Int.ofNat 1) (Int.ofNat 1), Point.mk (Int.ofNat 2) (Int.ofNat 1),
    Point.mk (Int.ofNat 3) (Int.ofNat 1), Point.mk (Int.ofNat 4) (Int.ofNat 1), Point.mk (Int.ofNat 5) (Int.ofNat 1),
    Point.mk (Int.ofNat 6) (Int.ofNat 1), Point.mk (Int.ofNat 7) (Int.ofNat 1), Point.mk (Int.ofNat 7) (Int.ofNat 2),
    Point.mk (Int.ofNat 7) (Int.ofNat 3), Point.mk (Int.ofNat 6) (Int.ofNat 3), Point.mk (Int.ofNat 5) (Int.ofNat 3),
    Point.mk (Int.ofNat 4) (Int.ofNat 3), Point.mk (Int.ofNat 5) (Int.ofNat 3)],
   [Point.mk (Int.ofNat 1) (Int.ofNat 0), Point.mk (Int.ofNat 1) (Int.ofNat 1), Point.mk (Int.ofNat 2) (Int.ofNat 1),
    Point.mk (Int.ofNat 3) (Int.ofNat 1), Point.mk (Int.ofNat 4) (Int.ofNat 1), Point.mk (Int.ofNat 5) (Int.ofNat 1),
    Point.mk (Int.ofNat 6) (Int.ofNat 1), Point.mk (Int.ofNat 7) (Int.ofNat 1), Point.mk (Int.ofNat 7) (Int.ofNat 2),
    Point.mk (Int.ofNat 7) (Int.ofNat 3), Point.mk (Int.ofNat 6) (Int.ofNat 3), Point.mk (Int.ofNat 5) (Int.ofNat 3),
    Point.mk (Int.ofNat 6) (Int.ofNat 3)],
   [Point.mk (Int.ofNat 1) (Int.ofNat 0), Point.mk (Int.ofNat 1) (Int.ofNat 1), Point.mk (Int.ofNat 2) (Int.ofNat 1),
    Point.mk (Int.ofNat 3) (Int.ofNat 1), Point.mk (Int.ofNat 4) (Int.ofNat 1), Point.mk (Int.ofNat 5) (Int.ofNat 1),
    Point.mk (Int.ofNat 6) (Int.ofNat 1), Point.mk (Int.ofNat 7) (Int.ofNat 1), Point.mk (Int.ofNat 7) (Int.ofNat 2),
    Point.mk (Int.ofNat 7) (Int.ofNat 3), Point.mk (Int.ofNat 6) (Int.ofNat 3), Point.mk (Int.ofNat 7) (Int.ofNat 3)],
   [Point.mk (Int.ofNat 1) (Int.ofNat 0), Point.mk (Int.ofNat 1) (Int.ofNat 1), Point.mk (Int.ofNat 2) (Int.ofNat 1),
    Point.mk (Int.ofNat 3) (Int.ofNat 1), Point.mk (Int.ofNat 4) (Int.ofNat 1), Point.mk (Int.ofNat 5) (Int.ofNat 1),
    Point.mk (Int.ofNat 6) (Int.ofNat 1), Point.mk (Int.ofNat 7) (Int.ofNat 1), Point.mk (Int.ofNat 7) (Int.ofNat 2),
    Point.mk (Int.ofNat 7) (Int.ofNat 3), Point.mk (Int.ofNat 7) (Int.ofNat 2)],
   [Point.mk (Int.ofNat 1) (Int.ofNat 0), Point.mk (Int.ofNat 1) (Int.ofNat 1), Point.mk (Int.ofNat 1) (Int.ofNat 0)]],
   [Point.mk (Int.ofNat 11) (Int.ofNat 9), Point.mk (Int.ofNat 12) (Int.ofNat 9), Point.mk (Int.ofNat 13) (Int.ofNat 9),
    Point.mk (Int.ofNat 14) (Int.ofNat 9), Point.mk (Int.ofNat 15) (Int.ofNat 9), Point.mk (Int.ofNat 16) (Int.ofNat 9),
    Point.mk (Int.ofNat 17) (Int.ofNat 9), Point.mk (Int.ofNat 17) (Int.ofNat 8), Point.mk (Int.ofNat 17) (Int.ofNat 7),
    Point.mk (Int.ofNat 16) (Int.ofNat 7), Point.mk (Int.ofNat 15) (Int.ofNat 7), Point.mk (Int.ofNat 14) (Int.ofNat 7),
    Point.mk (Int.ofNat 13) (Int.ofNat 7), Point.mk (Int.ofNat 12) (Int.ofNat 7), Point.mk (Int.ofNat 11) (Int.ofNat 7),
    Point.mk (Int.ofNat 11) (Int.ofNat 6), Point.mk (Int.ofNat 11) (Int.ofNat 5), Point.mk (Int.ofNat 11) (Int.ofNat 4),
    Point.mk (Int.ofNat 21) (Int.ofNat 22), Point.mk (Int.ofNat 21) (Int.ofNat 21), Point.mk (Int.ofNat 20) (Int.ofNat 21),
    Point.mk (Int.ofNat 19) (Int.ofNat 21), Point.mk (Int.ofNat 19) (Int.ofNat 20), Point.mk (Int.ofNat 19) (Int.ofNat 19),
    Point.mk (Int.ofNat 19) (Int.ofNat 18), Point.mk (Int.ofNat 19) (Int.ofNat 17), Point.mk (Int.ofNat 19) (Int.ofNat 16),
    Point.mk (Int.ofNat 19) (Int.ofNat 15), Point.mk (Int.ofNat 20) (Int.ofNat 15), Point.mk (Int.ofNat 21) (Int.ofNat 15),
    Point.mk (Int.ofNat 21) (Int.ofNat 14), Point.mk (Int.ofNat 21) (Int.ofNat 13), Point.mk (Int.ofNat 21) (Int.ofNat 12),
    Point.mk (Int.ofNat 21) (Int.ofNat 11), Point.mk (Int.ofNat 21) (Int.ofNat 10), Point.mk (Int.ofNat 21) (Int.ofNat 9),
    Point.mk (Int.ofNat 20) (Int.ofNat 9), Point.mk (Int.ofNat 19) (Int.ofNat 9), Point.mk (Int.ofNat 19) (Int.ofNat 8),
    Point.mk (Int.ofNat 19) (Int.ofNat 7), Point.mk (Int.ofNat 20) (Int.ofNat 7), Point.mk (Int.ofNat 21) (Int.ofNat 7),
    Point.mk (Int.ofNat 21) (Int.ofNat 6), Point.mk (Int.ofNat 21) (Int.ofNat 5), Point.mk (Int.ofNat 20) (Int.ofNat 5),
    Point.mk (Int.ofNat 19) (Int.ofNat 5), Point.mk (Int.ofNat 19) (Int.ofNat 4), Point.mk (Int.ofNat 19) (Int.ofNat 3),
    Point.mk (Int.ofNat 19) (Int.ofNat 2), Point.mk (Int.ofNat 19) (Int.ofNat 1), Point.mk (Int.ofNat 18) (Int.ofNat 1),
    Point.mk (Int.ofNat 17) (Int.ofNat 1), Point.mk (Int.ofNat 17) (Int.ofNat 2), Point.mk (Int.ofNat 17) (Int.ofNat 3),
    Point.mk (Int.ofNat 17) (Int.ofNat 4), Point.mk (Int.ofNat 17) (Int.ofNat 5), Point.mk (Int.ofNat 16) (Int.ofNat 5),
    Point.mk (Int.ofNat 15) (Int.ofNat 5), Point.mk (Int.ofNat 14) (Int.ofNat 5), Point.mk (Int.ofNat 13) (Int.ofNat 5),
    Point.mk (Int.ofNat 13) (Int.ofNat 4), Point.mk (Int.ofNat 13) (Int.ofNat 3), Point.mk (Int.ofNat 12) (Int.ofNat 3),
    Point.mk (Int.ofNat 11) (Int.ofNat 3), Point.mk (Int.ofNat 10) (Int.ofNat 3), Point.mk (Int.ofNat 9) (Int.ofNat 3),
    Point.mk (Int.ofNat 9) (Int.ofNat 4), Point.mk (Int.ofNat 9) (Int.ofNat 5), Point.mk (Int.ofNat 9) (Int.ofNat 6),
    Point.mk (Int.ofNat 9) (Int.ofNat 7), Point.mk (Int.ofNat 9) (Int.ofNat 8), Point.mk (Int.ofNat 9) (Int.ofNat 9),
    Point.mk (Int.ofNat 9) (Int.ofNat 10), Point.mk (Int.ofNat 9) (Int.ofNat 11), Point.mk (Int.ofNat 8) (Int.ofNat 11),
    Point.mk (Int.ofNat 7) (Int.ofNat 11), Point.mk (Int.ofNat 7) (Int.ofNat 10), Point.mk (Int.ofNat 7) (Int.ofNat 9),
    Point.mk (Int.ofNat 7) (Int.ofNat 8), Point.mk (Int.ofNat 7) (Int.ofNat 7), Point.mk (Int.ofNat 7) (Int.ofNat 6),
    Point.mk (Int.ofNat 7) (Int.ofNat 5), Point.mk (Int.ofNat 6) (Int.ofNat 5), Point.mk (Int.ofNat 5) (Int.ofNat 5),
    Point.mk (Int.ofNat 4) (Int.ofNat 5), Point.mk (Int.ofNat 3) (Int.ofNat 5), Point.mk (Int.ofNat 3) (Int.ofNat 4),
    Point.mk (Int.ofNat 3) (Int.ofNat 3), Point.mk (Int.ofNat 4) (Int.ofNat 3), Point.mk (Int.ofNat 5) (Int.ofNat 3),
    Point.mk (Int.ofNat 6) (Int.ofNat 3), Point.mk (Int.ofNat 7) (Int.ofNat 3), Point.mk (Int.ofNat 7) (Int.ofNat 2),
    Point.mk (Int.ofNat 7) (Int.ofNat 1), Point.mk (Int.ofNat 6) (Int.ofNat 1), Point.mk (Int.ofNat 5) (Int.ofNat 1),
    Point.mk (Int.ofNat 4) (Int.ofNat 1), Point.mk (Int.ofNat 3) (Int.ofNat 1), Point.mk (Int.ofNat 2) (Int.ofNat 1),
    Point.mk (Int.ofNat 1) (Int.ofNat 1), Point.mk (Int.ofNat 1) (Int.ofNat 0)],
   [Point.mk (Int.ofNat 1) (Int.ofNat 0), Point.mk (Int.ofNat 1) (Int.ofNat 1), Point.mk (Int.ofNat 2) (Int.ofNat 1),
    Point.mk (Int.ofNat 3) (Int.ofNat 1), Point.mk (Int.ofNat 4) (Int.ofNat 1), Point.mk (Int.ofNat 5) (Int.ofNat 1),
    Point.mk (Int.ofNat 6) (Int.ofNat 1), Point.mk (Int.ofNat 7) (Int.ofNat 1), Point.mk (Int.ofNat 7) (Int.ofNat 2),
    Point.mk (Int.ofNat 7) (Int.ofNat 3), Point.mk (Int.ofNat 6) (Int.ofNat 3), Point.mk (Int.ofNat 5) (Int.ofNat 3),
    Point.mk (Int.ofNat 4) (Int.ofNat 3), Point.mk (Int.ofNat 3) (Int.ofNat 3), Point.mk (Int.ofNat 3) (Int.ofNat 4),
    Point.mk (Int.ofNat 3) (Int.ofNat 5), Point.mk (Int.ofNat 4) (Int.ofNat 5), Point.mk (Int.ofNat 5) (Int.ofNat 5),
    Point.mk (Int.ofNat 6) (Int.ofNat 5), Point.mk (Int.ofNat 7) (Int.ofNat 5), Point.mk (Int.ofNat 7) (Int.ofNat 6),
    Point.mk (Int.ofNat 7) (Int.ofNat 7), Point.mk (Int.ofNat 7) (Int.ofNat 8), Point.mk (Int.ofNat 7) (Int.ofNat 9),
    Point.mk (Int.ofNat 7) (Int.ofNat 10), Point.mk (Int.ofNat 7) (Int.ofNat 11), Point.mk (Int.ofNat 8) (Int.ofNat 11),
    Point.mk (Int.ofNat 9) (Int.ofNat 11), Point.mk (Int.ofNat 9) (Int.ofNat 10), Point.mk (Int.ofNat 9) (Int.ofNat 9),
    Point.mk (Int.ofNat 9) (Int.ofNat 8), Point.mk (Int.ofNat 9) (Int.ofNat 7), Point.mk (Int.ofNat 9) (Int.ofNat 6),
    Point.mk (Int.ofNat 9) (Int.ofNat 5), Point.mk (Int.ofNat 9) (Int.ofNat 4), Point.mk (Int.ofNat 9) (Int.ofNat 3),
    Point.mk (Int.ofNat 10) (Int.ofNat 3), Point.mk (Int.ofNat 11) (Int.ofNat 3), Point.mk (Int.ofNat 12) (Int.ofNat 3),
    Point.mk (Int.ofNat 13) (Int.ofNat 3), Point.mk (Int.ofNat 13) (Int.ofNat 4), Point.mk (Int.ofNat 13) (Int.ofNat 5),
    Point.mk (Int.ofNat 14) (Int.ofNat 5), Point.mk (Int.ofNat 15) (Int.ofNat 5), Point.mk (Int.ofNat 16) (Int.ofNat 5),
    Point.mk (Int.ofNat 17) (Int.ofNat 5), Point.mk (Int.ofNat 17) (Int.ofNat 4), Point.mk (Int.ofNat 17) (Int.ofNat 3),
    Point.mk (Int.ofNat 17) (Int.ofNat 2), Point.mk (Int.ofNat 17) (Int.ofNat 1), Point.mk (Int.ofNat 18) (Int.ofNat 1),
    Point.mk (Int.ofNat 19) (Int.ofNat 1), Point.mk (Int.ofNat 19) (Int.ofNat 2), Point.mk (Int.ofNat 19) (Int.ofNat 3),
    Point.mk (Int.ofNat 19) (Int.ofNat 4), Point.mk (Int.ofNat 19) (Int.ofNat 5), Point.mk (Int.ofNat 20) (Int.ofNat 5),
    Point.mk (Int.ofNat 21) (Int.ofNat 5), Point.mk (Int.ofNat 21) (Int.ofNat 6), Point.mk (Int.ofNat 21) (Int.ofNat 7),
    Point.mk (Int.ofNat 20) (Int.ofNat 7), Point.mk (Int.ofNat 19) (Int.ofNat 7), Point.mk (Int.ofNat 19) (Int.ofNat 8),
    Point.mk (Int.ofNat 19) (Int.ofNat 9), Point.mk (Int.ofNat 20) (Int.ofNat 9), Point.mk (Int.ofNat 21) (Int.ofNat 9),
    Point.mk (Int.ofNat 21) (Int.ofNat 10), Point.mk (Int.ofNat 21) (Int.ofNat 11), Point.mk (Int.ofNat 21) (Int.ofNat 12),
    Point.mk (Int.ofNat 21) (Int.ofNat 13), Point.mk (Int.ofNat 21) (Int.ofNat 14), Point.mk (Int.ofNat 21) (Int.ofNat 15),
    Point.mk (Int.ofNat 20) (Int.ofNat 15), Point.mk (Int.ofNat 19) (Int.ofNat 15), Point.mk (Int.ofNat 19) (Int.ofNat 16),
    Point.mk (Int.ofNat 19) (Int.ofNat 17), Point.mk (Int.ofNat 19) (Int.ofNat 18), Point.mk (Int.ofNat 19) (Int.ofNat 19),
    Point.mk (Int.ofNat 19) (Int.ofNat 20), Point.mk (Int.ofNat 19) (Int.ofNat 21), Point.mk (Int.ofNat 20) (Int.ofNat 21),
    Point.mk (Int.ofNat 21) (Int.ofNat 21), Point.mk (Int.ofNat 21) (Int.ofNat 22)])

/-- The DFS state of the sample grid after 255 loop iterations. -/
def sampleState255 : List (List Point) × List Point × List Point :=
  ([[Point.mk (Int.ofNat 1) (Int.ofNat 0), Point.mk (Int.ofNat 1) (Int.ofNat 1), Point.mk (Int.ofNat 2) (Int.ofNat 1),
    Point.mk (Int.ofNat 3) (Int.ofNat 1), Point.mk (Int.ofNat 4) (Int.ofNat 1), Point.mk (Int.ofNat 5) (Int.ofNat 1),
    Point.mk (Int.ofNat 6) (Int.ofNat 1), Point.mk (Int.ofNat 7) (Int.ofNat 1), Point.mk (Int.ofNat 7) (Int.ofNat 2),
    Point.mk (Int.ofNat 7) (Int.ofNat 3), Point.mk (Int.ofNat 6) (Int.ofNat 3), Point.mk (Int.ofNat 5) (Int.ofNat 3),
    Point.mk (Int.ofNat 4) (Int.ofNat 3), Point.mk (Int.ofNat 3) (Int.ofNat 3), Point.mk (Int.ofNat 3) (Int.ofNat 4),
    Point.mk (Int.ofNat 3) (Int.ofNat 5), Point.mk (Int.ofNat 4) (Int.ofNat 5), Point.mk (Int.ofNat 5) (Int.ofNat 5),
    Point.mk (Int.ofNat 6) (Int.ofNat 5), Point.mk (Int.ofNat 7) (Int.ofNat 5), Point.mk (Int.ofNat 7) (Int.ofNat 6),
    Point.mk (Int.ofNat 7) (Int.ofNat 7), Point.mk (Int.ofNat 7) (Int.ofNat 8), Point.mk (Int.ofNat 7) (Int.ofNat 9),
    Point.mk (Int.ofNat 7) (Int.ofNat 10), Point.mk (Int.ofNat 7) (Int.ofNat 11), Point.mk (Int.ofNat 8) (Int.ofNat 11),
    Point.mk (Int.ofNat 9) (Int.ofNat 11), Point.mk (Int.ofNat 9) (Int.ofNat 10), Point.mk (Int.ofNat 9) (Int.ofNat 9),
    Point.mk (Int.ofNat 9) (Int.ofNat 8), Point.mk (Int.ofNat 9) (Int.ofNat 7), Point.mk (Int.ofNat 9) (Int.ofNat 6),
    Point.mk (Int.ofNat 9) (Int.ofNat 5), Point.mk (Int.ofNat 9) (Int.ofNat 4), Point.mk (Int.ofNat 9) (Int.ofNat 3),
    Point.mk (Int.ofNat 10) (Int.ofNat 3), Point.mk (Int.ofNat 11) (Int.ofNat 3), Point.mk (Int.ofNat 11) (Int.ofNat 4),
    Point.mk (Int.ofNat 11) (Int.ofNat 5), Point.mk (Int.ofNat 11) (Int.ofNat 6), Point.mk (Int.ofNat 11) (Int.ofNat 7),
    Point.mk (Int.ofNat 12) (Int.ofNat 7), Point.mk (Int.ofNat 13) (Int.ofNat 7), Point.mk (Int.ofNat 14) (Int.ofNat 7),
    Point.mk (Int.ofNat 15) (Int.ofNat 7), Point.mk (Int.ofNat 16) (Int.ofNat 7), Point.mk (Int.ofNat 17) (Int.ofNat 7),
    Point.mk (Int.ofNat 17) (Int.ofNat 8), Point.mk (Int.ofNat 17) (Int.ofNat 9), Point.mk (Int.ofNat 16) (Int.ofNat 9),
    Point.mk (Int.ofNat 15) (Int.ofNat 9), Point.mk (Int.ofNat 16) (Int.ofNat 9)],
   [Point.mk (Int.ofNat 1) (Int.ofNat 0), Point.mk (Int.ofNat 1) (Int.ofNat 1), Point.mk (Int.ofNat 2) (Int.ofNat 1),
    Point.mk (Int.ofNat 3) (Int.ofNat 1), Point.mk (Int.ofNat 4) (Int.ofNat 1), Point.mk (Int.ofNat 5) (Int.ofNat 1),
    Point.mk (Int.ofNat 6) (Int.ofNat 1), Point.mk (Int.ofNat 7) (Int.ofNat 1), Point.mk (Int.ofNat 7) (Int.ofNat 2),
    Point.mk (Int.ofNat 7) (Int.ofNat 3), Point.mk (Int.ofNat 6) (Int.ofNat 3), Point.mk (Int.ofNat 5) (Int.ofNat 3),
    Point.mk (Int.ofNat 4) (Int.ofNat 3), Point.mk (Int.ofNat 3) (Int.ofNat 3), Point.mk (Int.ofNat 3) (Int.ofNat 4),
    Point.mk (Int.ofNat 3) (Int.ofNat 5), Point.mk (Int.ofNat 4) (Int.ofNat 5), Point.mk (Int.ofNat 5) (Int.ofNat 5),
    Point.mk (Int.ofNat 6) (Int.ofNat 5), Point.mk (Int.ofNat 7) (Int.ofNat 5), Point.mk (Int.ofNat 7) (Int.ofNat 6),
    Point.mk (Int.ofNat 7) (Int.ofNat 7), Point.mk (Int.ofNat 7) (Int.ofNat 8), Point.mk (Int.ofNat 7) (Int.ofNat 9),
    Point.mk (Int.ofNat 7) (Int.ofNat 10), Point.mk (Int.ofNat 7) (Int.ofNat 11), Point.mk (Int.ofNat 8) (Int.ofNat 11),
    Point.mk (Int.ofNat 9) (Int.ofNat 11), Point.mk (Int.ofNat 9) (Int.ofNat 10), Point.mk (Int.ofNat 9) (Int.ofNat 9),
    Point.mk (Int.ofNat 9) (Int.ofNat 8), Point.mk (Int.ofNat 9) (Int.ofNat 7), Point.mk (Int.ofNat 9) (Int.ofNat 6),
    Point.mk (Int.ofNat 9) (Int.ofNat 5), Point.mk (Int.ofNat 9) (Int.ofNat 4), Point.mk (Int.ofNat 9) (Int.ofNat 3),
    Point.mk (Int.ofNat 10) (Int.ofNat 3), Point.mk (Int.ofNat 11) (Int.ofNat 3), Point.mk (Int.ofNat 11) (Int.ofNat 4),
    Point.mk (Int.ofNat 11) (Int.ofNat 5), Point.mk (Int.ofNat 11) (Int.ofNat 6), Point.mk (Int.ofNat 11) (Int.ofNat 7),
    Point.mk (Int.ofNat 12) (Int.ofNat 7), Point.mk (Int.ofNat 13) (Int.ofNat 7), Point.mk (Int.ofNat 14) (Int.ofNat 7),
    Point.mk (Int.ofNat 15) (Int.ofNat 7), Point.mk (Int.ofNat 16) (Int.ofNat 7), Point.mk (Int.ofNat 17) (Int.ofNat 7),
    Point.mk (Int.ofNat 17) (Int.ofNat 8), Point.mk (Int.ofNat 17) (Int.ofNat 9), Point.mk (Int.ofNat 16) (Int.ofNat 9),
    Point.mk (Int.ofNat 17) (Int.ofNat 9)],
   [Point.mk (Int.ofNat 1) (Int.ofNat 0), Point.mk (Int.ofNat 1) (Int.ofNat 1), Point.mk (Int.ofNat 2) (Int.ofNat 1),
    Point.mk (Int.ofNat 3) (Int.ofNat 1), Point.mk (Int.ofNat 4) (Int.ofNat 1), Point.mk (Int.ofNat 5) (Int.ofNat 1),
    Point.mk (Int.ofNat 6) (Int.ofNat 1), Point.mk (Int.ofNat 7) (Int.ofNat 1), Point.mk (Int.ofNat 7) (Int.ofNat 2),
    Point.mk (Int.ofNat 7) (Int.ofNat 3), Point.mk (Int.ofNat 6) (Int.ofNat 3), Point.mk (Int.ofNat 5) (Int.ofNat 3),
    Point.mk (Int.ofNat 4) (Int.ofNat 3), Point.mk (Int.ofNat 3) (Int.ofNat 3), Point.mk (Int.ofNat 3) (Int.ofNat 4),
    Point.mk (Int.ofNat 3) (Int.ofNat 5), Point.mk (Int.ofNat 4) (Int.ofNat 5), Point.mk (Int.ofNat 5) (Int.ofNat 5),
    Point.mk (Int.ofNat 6) (Int.ofNat 5), Point.mk (Int.ofNat 7) (Int.ofNat 5), Point.mk (Int.ofNat 7) (Int.ofNat 6),
    Point.mk (Int.ofNat 7) (Int.ofNat 7), Point.mk (Int.ofNat 7) (Int.ofNat 8), Point.mk (Int.ofNat 7) (Int.ofNat 9),
    Point.mk (Int.ofNat 7) (Int.ofNat 10), Point.mk (Int.ofNat 7) (Int.ofNat 11), Point.mk (Int.ofNat 8) (Int.ofNat 11),
    Point.mk (Int.ofNat 9) (Int.ofNat 11), Point.mk (Int.ofNat 9) (Int.ofNat 10), Point.mk (Int.ofNat 9) (Int.ofNat 9),
    Point.mk (Int.ofNat 9) (Int.ofNat 8), Point.mk (Int.ofNat 9) (Int.ofNat 7), Point.mk (Int.ofNat 9) (Int.ofNat 6),
    Point.mk (Int.ofNat 9) (Int.ofNat 5), Point.mk (Int.ofNat 9) (Int.ofNat 4), Point.mk (Int.ofNat 9) (Int.ofNat 3),
    Point.mk (Int.ofNat 10) (Int.ofNat 3), Point.mk (Int.ofNat 11) (Int.ofNat 3), Point.mk (Int.ofNat 11) (Int.ofNat 4),
    Point.mk (Int.ofNat 11) (Int.ofNat 5), Point.mk (Int.ofNat 11) (Int.ofNat 6), Point.mk (Int.ofNat 11) (Int.ofNat 7),
    Point.mk (Int.ofNat 12) (Int.ofNat 7), Point.mk (Int.ofNat 13) (Int.ofNat 7), Point.mk (Int.ofNat 14) (Int.ofNat 7),
    Point.mk (Int.ofNat 15) (Int.ofNat 7), Point.mk (Int.ofNat 16) (Int.ofNat 7), Point.mk (Int.ofNat 17) (Int.ofNat 7),
    Point.mk (Int.ofNat 17) (Int.ofNat 8), Point.mk (Int.ofNat 17) (Int.ofNat 9), Point.mk (Int.ofNat 17) (Int.ofNat 8)],
   [Point.mk (Int.ofNat 1) (Int.ofNat 0), Point.mk (Int.ofNat 1) (Int.ofNat 1), Point.mk (Int.ofNat 2) (Int.ofNat 1),
    Point.mk (Int.ofNat 3) (Int.ofNat 1), Point.mk (Int.ofNat 4) (Int.ofNat 1), Point.mk (Int.ofNat 5) (Int.ofNat 1),
    Point.mk (Int.ofNat 6) (Int.ofNat 1), Point.mk (Int.ofNat 7) (Int.ofNat 1), Point.mk (Int.ofNat 7) (Int.ofNat 2),
    Point.mk (Int.ofNat 7) (Int.ofNat 3), Point.mk (Int.ofNat 6) (Int.ofNat 3), Point.mk (Int.ofNat 5) (Int.ofNat 3),
    Point.mk (Int.ofNat 4) (Int.ofNat 3), Point.mk (Int.ofNat 3) (Int.ofNat 3), Point.mk (Int.ofNat 3) (Int.ofNat 4),
    Point.mk (Int.ofNat 3) (Int.ofNat 5), Point.mk (Int.ofNat 4) (Int.ofNat 5), Point.mk (Int.ofNat 5) (Int.ofNat 5),
    Point.mk (Int.ofNat 6) (Int.ofNat 5), Point.mk (Int.ofNat 7) (Int.ofNat 5), Point.mk (Int.ofNat 7) (Int.ofNat 6),
    Point.mk (Int.ofNat 7) (Int.ofNat 7), Point.mk (Int.ofNat 7) (Int.ofNat 8), Point.mk (Int.ofNat 7) (Int.ofNat 9),
    Point.mk (Int.ofNat 7) (Int.ofNat 10), Point.mk (Int.ofNat 7) (Int.ofNat 11), Point.mk (Int.ofNat 8) (Int.ofNat 11),
    Point.mk (Int.ofNat 9) (Int.ofNat 11), Point.mk (Int.ofNat 9) (Int.ofNat 10), Point.mk (Int.ofNat 9) (Int.ofNat 9),
    Point.mk (Int.ofNat 9) (Int.ofNat 8), Point.mk (Int.ofNat 9) (Int.ofNat 7), Point.mk (Int.ofNat 9) (Int.ofNat 6),
    Point.mk (Int.ofNat 9) (Int.ofNat 5), Point.mk (Int.ofNat 9) (Int.ofNat 4), Point.mk (Int.ofNat 9) (Int.ofNat 3),
    Point.mk (Int.ofNat 10) (Int.ofNat 3), Point.mk (Int.ofNat 11) (Int.ofNat 3), Point.mk (Int.ofNat 11) (Int.ofNat 4),
    Point.mk (Int.ofNat 11) (Int.ofNat 5), Point.mk (Int.ofNat 11) (Int.ofNat 6), Point.mk (Int.ofNat 11) (Int.ofNat 7),
    Point.mk (Int.ofNat 11) (Int.ofNat 6)],
   [Point.mk (Int.ofNat 1) (Int.ofNat 0), Point.mk (Int.ofNat 1) (Int.ofNat 1), Point.mk (Int.ofNat 2) (Int.ofNat 1),
    Point.mk (Int.ofNat 3) (Int.ofNat 1), Point.mk (Int.ofNat 4) (Int.ofNat 1), Point.mk (Int.ofNat 5) (Int.ofNat 1),
    Point.mk (Int.ofNat 6) (Int.ofNat 1), Point.mk (Int.ofNat 7) (Int.ofNat 1), Point.mk (Int.ofNat 7) (Int.ofNat 2),
    Point.mk (Int.ofNat 7) (Int.ofNat 3), Point.mk (Int.ofNat 6) (Int.ofNat 3), Point.mk (Int.ofNat 5) (Int.ofNat 3),
    Point.mk (Int.ofNat 4) (Int.ofNat 3), Point.mk (Int.ofNat 3) (Int.ofNat 3), Point.mk (Int.ofNat 3) (Int.ofNat 4),
    Point.mk (Int.ofNat 3) (Int.ofNat 5), Point.mk (Int.ofNat 4) (Int.ofNat 5), Point.mk (Int.ofNat 5) (Int.ofNat 5),
    Point.mk (Int.ofNat 6) (Int.ofNat 5), Point.mk (Int.ofNat 7) (Int.ofNat 5), Point.mk (Int.ofNat 7) (Int.ofNat 6),
    Point.mk (Int.ofNat 7) (Int.ofNat 7), Point.mk (Int.ofNat 7) (Int.ofNat 8), Point.mk (Int.ofNat 7) (Int.ofNat 9),
    Point.mk (Int.ofNat 7) (Int.ofNat 10), Point.mk (Int.ofNat 7) (Int.ofNat 11), Point.mk (Int.ofNat 8) (Int.ofNat 11),
    Point.mk (Int.ofNat 9) (Int.ofNat 11), Point.mk (Int.ofNat 9) (Int.ofNat 10), Point.mk (Int.ofNat 9) (Int.ofNat 9),
    Point.mk (Int.ofNat 9) (Int.ofNat 8), Point.mk (Int.ofNat 9) (Int.ofNat 7), Point.mk (Int.ofNat 9) (Int.ofNat 6),
    Point.mk (Int.ofNat 9) (Int.ofNat 5), Point.mk (Int.ofNat 9) (Int.ofNat 4), Point.mk (Int.ofNat 9) (Int.ofNat 3),
    Point.mk (Int.ofNat 9) (Int.ofNat 4)],
   [Point.mk (Int.ofNat 1) (Int.ofNat 0), Point.mk (Int.ofNat 1) (Int.ofNat 1), Point.mk (Int.ofNat 2) (Int.ofNat 1),
    Point.mk (Int.ofNat 3) (Int.ofNat 1), Point.mk (Int.ofNat 4) (Int.ofNat 1), Point.mk (Int.ofNat 5) (Int.ofNat 1),
    Point.mk (Int.ofNat 6) (Int.ofNat 1), Point.mk (Int.ofNat 7) (Int.ofNat 1), Point.mk (Int.ofNat 7) (Int.ofNat 2),
    Point.mk (Int.ofNat 7) (Int.ofNat 3), Point.mk (Int.ofNat 6) (Int.ofNat 3), Point.mk (Int.ofNat 5) (Int.ofNat 3),
    Point.mk (Int.ofNat 4) (Int.ofNat 3), Point.mk (Int.ofNat 3) (Int.ofNat 3), Point.mk (Int.ofNat 3) (Int.ofNat 4),
    Point.mk (Int.ofNat 3) (Int.ofNat 5), Point.mk (Int.ofNat 4) (Int.ofNat 5), Point.mk (Int.ofNat 5) (Int.ofNat 5),
    Point.mk (Int.ofNat 6) (Int.ofNat 5), Point.mk (Int.ofNat 7) (Int.ofNat 5), Point.mk (Int.ofNat 7) (Int.ofNat 6),
    Point.mk (Int.ofNat 7) (Int.ofNat 7), Point.mk (Int.ofNat 7) (Int.ofNat 8), Point.mk (Int.ofNat 7) (Int.ofNat 9),
    Point.mk (Int.ofNat 7) (Int.ofNat 10), Point.mk (Int.ofNat 7) (Int.ofNat 11), Point.mk (Int.ofNat 8) (Int.ofNat 11),
    Point.mk (Int.ofNat 9) (Int.ofNat 11), Point.mk (Int.ofNat 9) (Int.ofNat 10), Point.mk (Int.ofNat 9) (Int.ofNat 9),
    Point.mk (Int.ofNat 9) (Int.ofNat 8), Point.mk (Int.ofNat 9) (Int.ofNat 7), Point.mk (Int.ofNat 9) (Int.ofNat 6),
    Point.mk (Int.ofNat 9) (Int.ofNat 5), Point.mk (Int.ofNat 9) (Int.ofNat 4), Point.mk (Int.ofNat 9) (Int.ofNat 5)],
   [Point.mk (Int.ofNat 1) (Int.ofNat 0), Point.mk (Int.ofNat 1) (Int.ofNat 1), Point.mk (Int.ofNat 2) (Int.ofNat 1),
    Point.mk (Int.ofNat 3) (Int.ofNat 1), Point.mk (Int.ofNat 4) (Int.ofNat 1), Point.mk (Int.ofNat 5) (Int.ofNat 1),
    Point.mk (Int.ofNat 6) (Int.ofNat 1), Point.mk (Int.ofNat 7) (Int.ofNat 1), Point.mk (Int.ofNat 7) (Int.ofNat 2),
    Point.mk (Int.ofNat 7) (Int.ofNat 3), Point.mk (Int.ofNat 6) (Int.ofNat 3), Point.mk (Int.ofNat 5) (Int.ofNat 3),
    Point.mk (Int.ofNat 4) (Int.ofNat 3), Point.mk (Int.ofNat 3) (Int.ofNat 3), Point.mk (Int.ofNat 3) (Int.ofNat 4),
    Point.mk (Int.ofNat 3) (Int.ofNat 5), Point.mk (Int.ofNat 4) (Int.ofNat 5), Point.mk (Int.ofNat 5) (Int.ofNat 5),
    Point.mk (Int.ofNat 6) (Int.ofNat 5), Point.mk (Int.ofNat 7) (Int.ofNat 5), Point.mk (Int.ofNat 7) (Int.ofNat 6),
    Point.mk (Int.ofNat 7) (Int.ofNat 7), Point.mk (Int.ofNat 7) (Int.ofNat 8), Point.mk (Int.ofNat 7) (Int.ofNat 9),
    Point.mk (Int.ofNat 7) (Int.ofNat 10), Point.mk (Int.ofNat 7) (Int.ofNat 11), Point.mk (Int.ofNat 8) (Int.ofNat 11),
    Point.mk (Int.ofNat 9) (Int.ofNat 11), Point.mk (Int.ofNat 9) (Int.ofNat 10), Point.mk (Int.ofNat 9) (Int.ofNat 9),
    Point.mk (Int.ofNat 9) (Int.ofNat 8), Point.mk (Int.ofNat 9) (Int.ofNat 7), Point.mk (Int.ofNat 9) (Int.ofNat 6),
    Point.mk (Int.ofNat 9) (Int.ofNat 5), Point.mk (Int.ofNat 9) (Int.ofNat 6)],
   [Point.mk (Int.ofNat 1) (Int.ofNat 0), Point.mk (Int.ofNat 1) (Int.ofNat 1), Point.mk (Int.ofNat 2) (Int.ofNat 1),
    Point.mk (Int.ofNat 3) (Int.ofNat 1), Point.mk (Int.ofNat 4) (Int.ofNat 1), Point.mk (Int.ofNat 5) (Int.ofNat 1),
    Point.mk (Int.ofNat 6) (Int.ofNat 1), Point.mk (Int.ofNat 7) (Int.ofNat 1), Point.mk (Int.ofNat 7) (Int.ofNat 2),
    Point.mk (Int.ofNat 7) (Int.ofNat 3), Point.mk (Int.ofNat 6) (Int.ofNat 3), Point.mk (Int.ofNat 5) (Int.ofNat 3),
    Point.mk (Int.ofNat 4) (Int.ofNat 3), Point.mk (Int.ofNat 3) (Int.ofNat 3), Point.mk (Int.ofNat 3) (Int.ofNat 4),
    Point.mk (Int.ofNat 3) (Int.ofNat 5), Point.mk (Int.ofNat 4) (Int.ofNat 5), Point.mk (Int.ofNat 5) (Int.ofNat 5),
    Point.mk (Int.ofNat 6) (Int.ofNat 5), Point.mk (Int.ofNat 7) (Int.ofNat 5), Point.mk (Int.ofNat 7) (Int.ofNat 6),
    Point.mk (Int.ofNat 7) (Int.ofNat 7), Point.mk (Int.ofNat 7) (Int.ofNat 8), Point.mk (Int.ofNat 7) (Int.ofNat 9),
    Point.mk (Int.ofNat 7) (Int.ofNat 10), Point.mk (Int.ofNat 7) (Int.ofNat 11), Point.mk (Int.ofNat 8) (Int.ofNat 11),
    Point.mk (Int.ofNat 9) (Int.ofNat 11), Point.mk (Int.ofNat 9) (Int.ofNat 10), Point.mk (Int.ofNat 9) (Int.ofNat 9),
    Point.mk (Int.ofNat 9) (Int.ofNat 8), Point.mk (Int.ofNat 9) (Int.ofNat 7), Point.mk (Int.ofNat 9) (Int.ofNat 6),
    Point.mk (Int.ofNat 9) (Int.ofNat 7)],
   [Point.mk (Int.ofNat 1) (Int.ofNat 0), Point.mk (Int.ofNat 1) (Int.ofNat 1), Point.mk (Int.ofNat 2) (Int.ofNat 1),
    Point.mk (Int.ofNat 3) (Int.ofNat 1), Point.mk (Int.ofNat 4) (Int.ofNat 1), Point.mk (Int.ofNat 5) (Int.ofNat 1),
    Point.mk (Int.ofNat 6) (Int.ofNat 1), Point.mk (Int.ofNat 7) (Int.ofNat 1), Point.mk (Int.ofNat 7) (Int.ofNat 2),
    Point.mk (Int.ofNat 7) (Int.ofNat 3), Point.mk (Int.ofNat 6) (Int.ofNat 3), Point.mk (Int.ofNat 5) (Int.ofNat 3),
    Point.mk (Int.ofNat 4) (Int.ofNat 3), Point.mk (Int.ofNat 3) (Int.ofNat 3), Point.mk (Int.ofNat 3) (Int.ofNat 4),
    Point.mk (Int.ofNat 3) (Int.ofNat 5), Point.mk (Int.ofNat 4) (Int.ofNat 5), Point.mk (Int.ofNat 5) (Int.ofNat 5),
    Point.mk (Int.ofNat 6) (Int.ofNat 5), Point.mk (Int.ofNat 7) (Int.ofNat 5), Point.mk (Int.ofNat 7) (Int.ofNat 6),
    Point.mk (Int.ofNat 7) (Int.ofNat 7), Point.mk (Int.ofNat 7) (Int.ofNat 8), Point.mk (Int.ofNat 7) (Int.ofNat 9),
    Point.mk (Int.ofNat 7) (Int.ofNat 10), Point.mk (Int.ofNat 7) (Int.ofNat 11), Point.mk (Int.ofNat 8) (Int.ofNat 11),
    Point.mk (Int.ofNat 9) (Int.ofNat 11), Point.mk (Int.ofNat 9) (Int.ofNat 10), Point.mk (Int.ofNat 9) (Int.ofNat 9),
    Point.mk (Int.ofNat 9) (Int.ofNat 8), Point.mk (Int.ofNat 9) (Int.ofNat 7), Point.mk (Int.ofNat 9) (Int.ofNat 8)],
   [Point.mk (Int.ofNat 1) (Int.ofNat 0), Point.mk (Int.ofNat 1) (Int.ofNat 1), Point.mk (Int.ofNat 2) (Int.ofNat 1),
    Point.mk (Int.ofNat 3) (Int.ofNat 1), Point.mk (Int.ofNat 4) (Int.ofNat 1), Point.mk (Int.ofNat 5) (Int.ofNat 1),
    Point.mk (Int.ofNat 6) (Int.ofNat 1), Point.mk (Int.ofNat 7) (Int.ofNat 1), Point.mk (Int.ofNat 7) (Int.ofNat 2),
    Point.mk (Int.ofNat 7) (Int.ofNat 3), Point.mk (Int.ofNat 6) (Int.ofNat 3), Point.mk (Int.ofNat 5) (Int.ofNat 3),
    Point.mk (Int.ofNat 4) (Int.ofNat 3), Point.mk (Int.ofNat 3) (Int.ofNat 3), Point.mk (Int.ofNat 3) (Int.ofNat 4),
    Point.mk (Int.ofNat 3) (Int.ofNat 5), Point.mk (Int.ofNat 4) (Int.ofNat 5), Point.mk (Int.ofNat 5) (Int.ofNat 5),
    Point.mk (Int.ofNat 6) (Int.ofNat 5), Point.mk (Int.ofNat 7) (Int.ofNat 5), Point.mk (Int.ofNat 7) (Int.ofNat 6),
    Point.mk (Int.ofNat 7) (Int.ofNat 7), Point.mk (Int.ofNat 7) (Int.ofNat 8), Point.mk (Int.ofNat 7) (Int.ofNat 9),
    Point.mk (Int.ofNat 7) (Int.ofNat 10), Point.mk (Int.ofNat 7) (Int.ofNat 11), Point.mk (Int.ofNat 8) (Int.ofNat 11),
    Point.mk (Int.ofNat 9) (Int.ofNat 11), Point.mk (Int.ofNat 9) (Int.ofNat 10), Point.mk (Int.ofNat 9) (Int.ofNat 9),
    Point.mk (Int.ofNat 9) (Int.ofNat 8), Point.mk (Int.ofNat 9) (Int.ofNat 9)],
   [Point.mk (Int.ofNat 1) (Int.ofNat 0), Point.mk (Int.ofNat 1) (Int.ofNat 1), Point.mk (Int.ofNat 2) (Int.ofNat 1),
    Point.mk (Int.ofNat 3) (Int.ofNat 1), Point.mk (Int.ofNat 4) (Int.ofNat 1), Point.mk (Int.ofNat 5) (Int.ofNat 1),
    Point.mk (Int.ofNat 6) (Int.ofNat 1), Point.mk (Int.ofNat 7) (Int.ofNat 1), Point.mk (Int.ofNat 7) (Int.ofNat 2),
    Point.mk (Int.ofNat 7) (Int.ofNat 3), Point.mk (Int.ofNat 6) (Int.ofNat 3), Point.mk (Int.ofNat 5) (Int.ofNat 3),
    Point.mk (Int.ofNat 4) (Int.ofNat 3), Point.mk (Int.ofNat 3) (Int.ofNat 3), Point.mk (Int.ofNat 3) (Int.ofNat 4),
    Point.mk (Int.ofNat 3) (Int.ofNat 5), Point.mk (Int.ofNat 4) (Int.ofNat 5), Point.mk (Int.ofNat 5) (Int.ofNat 5),
    Point.mk (Int.ofNat 6) (Int.ofNat 5), Point.mk (Int.ofNat 7) (Int.ofNat 5), Point.mk (Int.ofNat 7) (Int.ofNat 6),
    Point.mk (Int.ofNat 7) (Int.ofNat 7), Point.mk (Int.ofNat 7) (Int.ofNat 8), Point.mk (Int.ofNat 7) (Int.ofNat 9),
    Point.mk (Int.ofNat 7) (Int.ofNat 10), Point.mk (Int.ofNat 7) (Int.ofNat 11), Point.mk (Int.ofNat 8) (Int.ofNat 11),
    Point.mk (Int.ofNat 9) (Int.ofNat 11), Point.mk (Int.ofNat 9) (Int.ofNat 10), Point.mk (Int.ofNat 9) (Int.ofNat 9),
    Point.mk (Int.ofNat 9) (Int.ofNat 10)],
   [Point.mk (Int.ofNat 1) (Int.ofNat 0), Point.mk (Int.ofNat 1) (Int.ofNat 1), Point.mk (Int.ofNat 2) (Int.ofNat 1),
    Point.mk (Int.ofNat 3) (Int.ofNat 1), Point.mk (Int.ofNat 4) (Int.ofNat 1), Point.mk (Int.ofNat 5) (Int.ofNat 1),
    Point.mk (Int.ofNat 6) (Int.ofNat 1), Point.mk (Int.ofNat 7) (Int.ofNat 1), Point.mk (Int.ofNat 7) (Int.ofNat 2),
    Point.mk (Int.ofNat 7) (Int.ofNat 3), Point.mk (Int.ofNat 6) (Int.ofNat 3), Point.mk (Int.ofNat 5) (Int.ofNat 3),
    Point.mk (Int.ofNat 4) (Int.ofNat 3), Point.mk (Int.ofNat 3) (Int.ofNat 3), Point.mk (Int.ofNat 3) (Int.ofNat 4),
    Point.mk (Int.ofNat 3) (Int.ofNat 5), Point.mk (Int.ofNat 4) (Int.ofNat 5), Point.mk (Int.ofNat 5) (Int.ofNat 5),
    Point.mk (Int.ofNat 6) (Int.ofNat 5), Point.mk (Int.ofNat 7) (Int.ofNat 5), Point.mk (Int.ofNat 7) (Int.ofNat 6),
    Point.mk (Int.ofNat 7) (Int.ofNat 7), Point.mk (Int.ofNat 7) (Int.ofNat 8), Point.mk (Int.ofNat 7) (Int.ofNat 9),
    Point.mk (Int.ofNat 7) (Int.ofNat 10), Point.mk (Int.ofNat 7) (Int.ofNat 11), Point.mk (Int.ofNat 8) (Int.ofNat 11),
    Point.mk (Int.ofNat 9) (Int.ofNat 11), Point.mk (Int.ofNat 9) (Int.ofNat 10), Point.mk (Int.ofNat 9) (Int.ofNat 11)],
   [Point.mk (Int.ofNat 1) (Int.ofNat 0), Point.mk (Int.ofNat 1) (Int.ofNat 1), Point.mk (Int.ofNat 2) (Int.ofNat 1),
    Point.mk (Int.ofNat 3) (Int.ofNat 1), Point.mk (Int.ofNat 4) (Int.ofNat 1), Point.mk (Int.ofNat 5) (Int.ofNat 1),
    Point.mk (Int.ofNat 6) (Int.ofNat 1), Point.mk (Int.ofNat 7) (Int.ofNat 1), Point.mk (Int.ofNat 7) (Int.ofNat 2),
    Point.mk (Int.ofNat 7) (Int.ofNat 3), Point.mk (Int.ofNat 6) (Int.ofNat 3), Point.mk (Int.ofNat 5) (Int.ofNat 3),
    Point.mk (Int.ofNat 4) (Int.ofNat 3), Point.mk (Int.ofNat 3) (Int.ofNat 3), Point.mk (Int.ofNat 3) (Int.ofNat 4),
    Point.mk (Int.ofNat 3) (Int.ofNat 5), Point.mk (Int.ofNat 4) (Int.ofNat 5), Point.mk (Int.ofNat 5) (Int.ofNat 5),
    Point.mk (Int.ofNat 6) (Int.ofNat 5), Point.mk (Int.ofNat 7) (Int.ofNat 5), Point.mk (Int.ofNat 7) (Int.ofNat 6),
    Point.mk (Int.ofNat 7) (Int.ofNat 7), Point.mk (Int.ofNat 7) (Int.ofNat 8), Point.mk (Int.ofNat 7) (Int.ofNat 9),
    Point.mk (Int.ofNat 7) (Int.ofNat 10), Point.mk (Int.ofNat 7) (Int.ofNat 11), Point.mk (Int.ofNat 7) (Int.ofNat 10)],
   [Point.mk (Int.ofNat 1) (Int.ofNat 0), Point.mk (Int.ofNat 1) (Int.ofNat 1), Point.mk (Int.ofNat 2) (Int.ofNat 1),
    Point.mk (Int.ofNat 3) (Int.ofNat 1), Point.mk (Int.ofNat 4) (Int.ofNat 1), Point.mk (Int.ofNat 5) (Int.ofNat 1),
    Point.mk (Int.ofNat 6) (Int.ofNat 1), Point.mk (Int.ofNat 7) (Int.ofNat 1), Point.mk (Int.ofNat 7) (Int.ofNat 2),
    Point.mk (Int.ofNat 7) (Int.ofNat 3), Point.mk (Int.ofNat 6) (Int.ofNat 3), Point.mk (Int.ofNat 5) (Int.ofNat 3),
    Point.mk (Int.ofNat 4) (Int.ofNat 3), Point.mk (Int.ofNat 3) (Int.ofNat 3), Point.mk (Int.ofNat 3) (Int.ofNat 4),
    Point.mk (Int.ofNat 3) (Int.ofNat 5), Point.mk (Int.ofNat 3) (Int.ofNat 6)],
   [Point.mk (Int.ofNat 1) (Int.ofNat 0), Point.mk (Int.ofNat 1) (Int.ofNat 1), Point.mk (Int.ofNat 2) (Int.ofNat 1),
    Point.mk (Int.ofNat 3) (Int.ofNat 1), Point.mk (Int.ofNat 4) (Int.ofNat 1), Point.mk (Int.ofNat 5) (Int.ofNat 1),
    Point.mk (Int.ofNat 6) (Int.ofNat 1), Point.mk (Int.ofNat 7) (Int.ofNat 1), Point.mk (Int.ofNat 7) (Int.ofNat 2),
    Point.mk (Int.ofNat 7) (Int.ofNat 3), Point.mk (Int.ofNat 6) (Int.ofNat 3), Point.mk (Int.ofNat 5) (Int.ofNat 3),
    Point.mk (Int.ofNat 4) (Int.ofNat 3), Point.mk (Int.ofNat 5) (Int.ofNat 3)],
   [Point.mk (Int.ofNat 1) (Int.ofNat 0), Point.mk (Int.ofNat 1) (Int.ofNat 1), Point.mk (Int.ofNat 2) (Int.ofNat 1),
    Point.mk (Int.ofNat 3) (Int.ofNat 1), Point.mk (Int.ofNat 4) (Int.ofNat 1), Point.mk (Int.ofNat 5) (Int.ofNat 1),
    Point.mk (Int.ofNat 6) (Int.ofNat 1), Point.mk (Int.ofNat 7) (Int.ofNat 1), Point.mk (Int.ofNat 7) (Int.ofNat 2),
    Point.mk (Int.ofNat 7) (Int.ofNat 3), Point.mk (Int.ofNat 6) (Int.ofNat 3), Point.mk (Int.ofNat 5) (Int.ofNat 3),
    Point.mk (Int.ofNat 6) (Int.ofNat 3)],
   [Point.mk (Int.ofNat 1) (Int.ofNat 0), Point.mk (Int.ofNat 1) (Int.ofNat 1), Point.mk (Int.ofNat 2) (Int.ofNat 1),
    Point.mk (Int.ofNat 3) (Int.ofNat 1), Point.mk (Int.ofNat 4) (Int.ofNat 1), Point.mk (Int.ofNat 5) (Int.ofNat 1),
    Point.mk (Int.ofNat 6) (Int.ofNat 1), Point.mk (Int.ofNat 7) (Int.ofNat 1), Point.mk (Int.ofNat 7) (Int.ofNat 2),
    Point.mk (Int.ofNat 7) (Int.ofNat 3), Point.mk (Int.ofNat 6) (Int.ofNat 3), Point.mk (Int.ofNat 7) (Int.ofNat 3)],
   [Point.mk (Int.ofNat 1) (Int.ofNat 0), Point.mk (Int.ofNat 1) (Int.ofNat 1), Point.mk (Int.ofNat 2) (Int.ofNat 1),
    Point.mk (Int.ofNat 3) (Int.ofNat 1), Point.mk (Int.ofNat 4) (Int.ofNat 1), Point.mk (Int.ofNat 5) (Int.ofNat 1),
    Point.mk (Int.ofNat 6) (Int.ofNat 1), Point.mk (Int.ofNat 7) (Int.ofNat 1), Point.mk (Int.ofNat 7) (Int.ofNat 2),
    Point.mk (Int.ofNat 7) (Int.ofNat 3), Point.mk (Int.ofNat 7) (Int.ofNat 2)],
   [Point.mk (Int.ofNat 1) (Int.ofNat 0), Point.mk (Int.ofNat 1) (Int.ofNat 1), Point.mk (Int.ofNat 1) (Int.ofNat 0)]],
   [Point.mk (Int.ofNat 18) (Int.ofNat 19), Point.mk (Int.ofNat 17) (Int.ofNat 19), Point.mk (Int.ofNat 17) (Int.ofNat 20),
    Point.mk (Int.ofNat 17) (Int.ofNat 21), Point.mk (Int.ofNat 16) (Int.ofNat 21), Point.mk (Int.ofNat 15) (Int.ofNat 21),
    Point.mk (Int.ofNat 15) (Int.ofNat 20), Point.mk (Int.ofNat 15) (Int.ofNat 19), Point.mk (Int.ofNat 14) (Int.ofNat 19),
    Point.mk (Int.ofNat 13) (Int.ofNat 19), Point.mk (Int.ofNat 13) (Int.ofNat 18), Point.mk (Int.ofNat 13) (Int.ofNat 17),
    Point.mk (Int.ofNat 12) (Int.ofNat 17), Point.mk (Int.ofNat 11) (Int.ofNat 17), Point.mk (Int.ofNat 11) (Int.ofNat 16),
    Point.mk (Int.ofNat 11) (Int.ofNat 15), Point.mk (Int.ofNat 12) (Int.ofNat 15), Point.mk (Int.ofNat 13) (Int.ofNat 15),
    Point.mk (Int.ofNat 13) (Int.ofNat 14), Point.mk (Int.ofNat 20) (Int.ofNat 11), Point.mk (Int.ofNat 19) (Int.ofNat 11),
    Point.mk (Int.ofNat 18) (Int.ofNat 11), Point.mk (Int.ofNat 17) (Int.ofNat 11), Point.mk (Int.ofNat 17) (Int.ofNat 12),
    Point.mk (Int.ofNat 17) (Int.ofNat 13), Point.mk (Int.ofNat 17) (Int.ofNat 14), Point.mk (Int.ofNat 17) (Int.ofNat 15),
    Point.mk (Int.ofNat 17) (Int.ofNat 16), Point.mk (Int.ofNat 17) (Int.ofNat 17), Point.mk (Int.ofNat 16) (Int.ofNat 17),
    Point.mk (Int.ofNat 15) (Int.ofNat 17), Point.mk (Int.ofNat 15) (Int.ofNat 16), Point.mk (Int.ofNat 15) (Int.ofNat 15),
    Point.mk (Int.ofNat 15) (Int.ofNat 14), Point.mk (Int.ofNat 15) (Int.ofNat 13), Point.mk (Int.ofNat 14) (Int.ofNat 13),
    Point.mk (Int.ofNat 13) (Int.ofNat 13), Point.mk (Int.ofNat 13) (Int.ofNat 12), Point.mk (Int.ofNat 13) (Int.ofNat 11),
    Point.mk (Int.ofNat 12) (Int.ofNat 11), Point.mk (Int.ofNat 11) (Int.ofNat 11), Point.mk (Int.ofNat 11) (Int.ofNat 10),
    Point.mk (Int.ofNat 11) (Int.ofNat 9), Point.mk (Int.ofNat 12) (Int.ofNat 9), Point.mk (Int.ofNat 13) (Int.ofNat 9),
    Point.mk (Int.ofNat 14) (Int.ofNat 9), Point.mk (Int.ofNat 15) (Int.ofNat 9), Point.mk (Int.ofNat 16) (Int.ofNat 9),
    Point.mk (Int.ofNat 17) (Int.ofNat 9), Point.mk (Int.ofNat 17) (Int.ofNat 8), Point.mk (Int.ofNat 17) (Int.ofNat 7),
    Point.mk (Int.ofNat 16) (Int.ofNat 7), Point.mk (Int.ofNat 15) (Int.ofNat 7), Point.mk (Int.ofNat 14) (Int.ofNat 7),
    Point.mk (Int.ofNat 13) (Int.ofNat 7), Point.mk (Int.ofNat 12) (Int.ofNat 7), Point.mk (Int.ofNat 11) (Int.ofNat 7),
    Point.mk (Int.ofNat 11) (Int.ofNat 6), Point.mk (Int.ofNat 11) (Int.ofNat 5), Point.mk (Int.ofNat 11) (Int.ofNat 4),
    Point.mk (Int.ofNat 21) (Int.ofNat 22), Point.mk (Int.ofNat 21) (Int.ofNat 21), Point.mk (Int.ofNat 20) (Int.ofNat 21),
    Point.mk (Int.ofNat 19) (Int.ofNat 21), Point.mk (Int.ofNat 19) (Int.ofNat 20), Point.mk (Int.ofNat 19) (Int.ofNat 19),
    Point.mk (Int.ofNat 19) (Int.ofNat 18), Point.mk (Int.ofNat 19) (Int.ofNat 17), Point.mk (Int.ofNat 19) (Int.ofNat 16),
    Point.mk (Int.ofNat 19) (Int.ofNat 15), Point.mk (Int.ofNat 20) (Int.ofNat 15), Point.mk (Int.ofNat 21) (Int.ofNat 15),
    Point.mk (Int.ofNat 21) (Int.ofNat 14), Point.mk (Int.ofNat 21) (Int.ofNat 13), Point.mk (Int.ofNat 21) (Int.ofNat 12),
    Point.mk (Int.ofNat 21) (Int.ofNat 11), Point.mk (Int.ofNat 21) (Int.ofNat 10), Point.mk (Int.ofNat 21) (Int.ofNat 9),
    Point.mk (Int.ofNat 20) (Int.ofNat 9), Point.mk (Int.ofNat 19) (Int.ofNat 9), Point.mk (Int.ofNat 19) (Int.ofNat 8),
    Point.mk (Int.ofNat 19) (Int.ofNat 7), Point.mk (Int.ofNat 20) (Int.ofNat 7), Point.mk (Int.ofNat 21) (Int.ofNat 7),
    Point.mk (Int.ofNat 21) (Int.ofNat 6), Point.mk (Int.ofNat 21) (Int.ofNat 5), Point.mk (Int.ofNat 20) (Int.ofNat 5),
    Point.mk (Int.ofNat 19) (Int.ofNat 5), Point.mk (Int.ofNat 19) (Int.ofNat 4), Point.mk (Int.ofNat 19) (Int.ofNat 3),
    Point.mk (Int.ofNat 19) (Int.ofNat 2), Point.mk (Int.ofNat 19) (Int.ofNat 1), Point.mk (Int.ofNat 18) (Int.ofNat 1),
    Point.mk (Int.ofNat 17) (Int.ofNat 1), Point.mk (Int.ofNat 17) (Int.ofNat 2), Point.mk (Int.ofNat 17) (Int.ofNat 3),
    Point.mk (Int.ofNat 17) (Int.ofNat 4), Point.mk (Int.ofNat 17) (Int.ofNat 5), Point.mk (Int.ofNat 16) (Int.ofNat 5),
    Point.mk (Int.ofNat 15) (Int.ofNat 5), Point.mk (Int.ofNat 14) (Int.ofNat 5), Point.mk (Int.ofNat 13) (Int.ofNat 5),
    Point.mk (Int.ofNat 13) (Int.ofNat 4), Point.mk (Int.ofNat 13) (Int.ofNat 3), Point.mk (Int.ofNat 12) (Int.ofNat 3),
    Point.mk (Int.ofNat 11) (Int.ofNat 3), Point.mk (Int.ofNat 10) (Int.ofNat 3), Point.mk (Int.ofNat 9) (Int.ofNat 3),
    Point.mk (Int.ofNat 9) (Int.ofNat 4), Point.mk (Int.ofNat 9) (Int.ofNat 5), Point.mk (Int.ofNat 9) (Int.ofNat 6),
    Point.mk (Int.ofNat 9) (Int.ofNat 7), Point.mk (Int.ofNat 9) (Int.ofNat 8), Point.mk (Int.ofNat 9) (Int.ofNat 9),
    Point.mk (Int.ofNat 9) (Int.ofNat 10), Point.mk (Int.ofNat 9) (Int.ofNat 11), Point.mk (Int.ofNat 8) (Int.ofNat 11),
    Point.mk (Int.ofNat 7) (Int.ofNat 11), Point.mk (Int.ofNat 7) (Int.ofNat 10), Point.mk (Int.ofNat 7) (Int.ofNat 9),
    Point.mk (Int.ofNat 7) (Int.ofNat 8), Point.mk (Int.ofNat 7) (Int.ofNat 7), Point.mk (Int.ofNat 7) (Int.ofNat 6),
    Point.mk (Int.ofNat 7) (Int.ofNat 5), Point.mk (Int.ofNat 6) (Int.ofNat 5), Point.mk (Int.ofNat 5) (Int.ofNat 5),
    Point.mk (Int.ofNat 4) (Int.ofNat 5), Point.mk (Int.ofNat 3) (Int.ofNat 5), Point.mk (Int.ofNat 3) (Int.ofNat 4),
    Point.mk (Int.ofNat 3) (Int.ofNat 3), Point.mk (Int.ofNat 4) (Int.ofNat 3), Point.mk (Int.ofNat 5) (Int.ofNat 3),
    Point.mk (Int.ofNat 6) (Int.ofNat 3), Point.mk (Int.ofNat 7) (Int.ofNat 3), Point.mk (Int.ofNat 7) (Int.ofNat 2),
    Point.mk (Int.ofNat 7) (Int.ofNat 1), Point.mk (Int.ofNat 6) (Int.ofNat 1), Point.mk (Int.ofNat 5) (Int.ofNat 1),
    Point.mk (Int.ofNat 4) (Int.ofNat 1), Point.mk (Int.ofNat 3) (Int.ofNat 1), Point.mk (Int.ofNat 2) (Int.ofNat 1),
    Point.mk (Int.ofNat 1) (Int.ofNat 1), Point.mk (Int.ofNat 1) (Int.ofNat 0)],
   [Point.mk (Int.ofNat 1) (Int.ofNat 0), Point.mk (Int.ofNat 1) (Int.ofNat 1), Point.mk (Int.ofNat 2) (Int.ofNat 1),
    Point.mk (Int.ofNat 3) (Int.ofNat 1), Point.mk (Int.ofNat 4) (Int.ofNat 1), Point.mk (Int.ofNat 5) (Int.ofNat 1),
    Point.mk (Int.ofNat 6) (Int.ofNat 1), Point.mk (Int.ofNat 7) (Int.ofNat 1), Point.mk (Int.ofNat 7) (Int.ofNat 2),
    Point.mk (Int.ofNat 7) (Int.ofNat 3), Point.mk (Int.ofNat 6) (Int.ofNat 3), Point.mk (Int.ofNat 5) (Int.ofNat 3),
    Point.mk (Int.ofNat 4) (Int.ofNat 3), Point.mk (Int.ofNat 3) (Int.ofNat 3), Point.mk (Int.ofNat 3) (Int.ofNat 4),
    Point.mk (Int.ofNat 3) (Int.ofNat 5), Point.mk (Int.ofNat 4) (Int.ofNat 5), Point.mk (Int.ofNat 5) (Int.ofNat 5),
    Point.mk (Int.ofNat 6) (Int.ofNat 5), Point.mk (Int.ofNat 7) (Int.ofNat 5), Point.mk (Int.ofNat 7) (Int.ofNat 6),
    Point.mk (Int.ofNat 7) (Int.ofNat 7), Point.mk (Int.ofNat 7) (Int.ofNat 8), Point.mk (Int.ofNat 7) (Int.ofNat 9),
    Point.mk (Int.ofNat 7) (Int.ofNat 10), Point.mk (Int.ofNat 7) (Int.ofNat 11), Point.mk (Int.ofNat 8) (Int.ofNat 11),
    Point.mk (Int.ofNat 9) (Int.ofNat 11), Point.mk (Int.ofNat 9) (Int.ofNat 10), Point.mk (Int.ofNat 9) (Int.ofNat 9),
    Point.mk (Int.ofNat 9) (Int.ofNat 8), Point.mk (Int.ofNat 9) (Int.ofNat 7), Point.mk (Int.ofNat 9) (Int.ofNat 6),
    Point.mk (Int.ofNat 9) (Int.ofNat 5), Point.mk (Int.ofNat 9) (Int.ofNat 4), Point.mk (Int.ofNat 9) (Int.ofNat 3),
    Point.mk (Int.ofNat 10) (Int.ofNat 3), Point.mk (Int.ofNat 11) (Int.ofNat 3), Point.mk (Int.ofNat 12) (Int.ofNat 3),
    Point.mk (Int.ofNat 13) (Int.ofNat 3), Point.mk (Int.ofNat 13) (Int.ofNat 4), Point.mk (Int.ofNat 13) (Int.ofNat 5),
    Point.mk (Int.ofNat 14) (Int.ofNat 5), Point.mk (Int.ofNat 15) (Int.ofNat 5), Point.mk (Int.ofNat 16) (Int.ofNat 5),
    Point.mk (Int.ofNat 17) (Int.ofNat 5), Point.mk (Int.ofNat 17) (Int.ofNat 4), Point.mk (Int.ofNat 17) (Int.ofNat 3),
    Point.mk (Int.ofNat 17) (Int.ofNat 2), Point.mk (Int.ofNat 17) (Int.ofNat 1), Point.mk (Int.ofNat 18) (Int.ofNat 1),
    Point.mk (Int.ofNat 19) (Int.ofNat 1), Point.mk (Int.ofNat 19) (Int.ofNat 2), Point.mk (Int.ofNat 19) (Int.ofNat 3),
    Point.mk (Int.ofNat 19) (Int.ofNat 4), Point.mk (Int.ofNat 19) (Int.ofNat 5), Point.mk (Int.ofNat 20) (Int.ofNat 5),
    Point.mk (Int.ofNat 21) (Int.ofNat 5), Point.mk (Int.ofNat 21) (Int.ofNat 6), Point.mk (Int.ofNat 21) (Int.ofNat 7),
    Point.mk (Int.ofNat 20) (Int.ofNat 7), Point.mk (Int.ofNat 19) (Int.ofNat 7), Point.mk (Int.ofNat 19) (Int.ofNat 8),
    Point.mk (Int.ofNat 19) (Int.ofNat 9), Point.mk (Int.ofNat 20) (Int.ofNat 9), Point.mk (Int.ofNat 21) (Int.ofNat 9),
    Point.mk (Int.ofNat 21) (Int.ofNat 10), Point.mk (Int.ofNat 21) (Int.ofNat 11), Point.mk (Int.ofNat 21) (Int.ofNat 12),
    Point.mk (Int.ofNat 21) (Int.ofNat 13), Point.mk (Int.ofNat 21) (Int.ofNat 14), Point.mk (Int.ofNat 21) (Int.ofNat 15),
    Point.mk (Int.ofNat 20) (Int.ofNat 15), Point.mk (Int.ofNat 19) (Int.ofNat 15), Point.mk (Int.ofNat 19) (Int.ofNat 16),
    Point.mk (Int.ofNat 19) (Int.ofNat 17), Point.mk (Int.ofNat 19) (Int.ofNat 18), Point.mk (Int.ofNat 19) (Int.ofNat 19),
    Point.mk (Int.ofNat 19) (Int.ofNat 20), Point.mk (Int.ofNat 19) (Int.ofNat 21), Point.mk (Int.ofNat 20) (Int.ofNat 21),
    Point.mk (Int.ofNat 21) (Int.ofNat 21), Point.mk (Int.ofNat 21) (Int.ofNat 22)])

/-- The DFS state of the sample grid after 340 loop iterations. -/
def sampleState340 : List (List Point) × List Point × List Point :=
  ([[Point.mk (Int.ofNat 1) (Int.ofNat 0), Point.mk (Int.ofNat 1) (Int.ofNat 1), Point.mk (Int.ofNat 2) (Int.ofNat 1),
    Point.mk (Int.ofNat 3) (Int.ofNat 1), Point.mk (Int.ofNat 4) (Int.ofNat 1), Point.mk (Int.ofNat 5) (Int.ofNat 1),
    Point.mk (Int.ofNat 6) (Int.ofNat 1), Point.mk (Int.ofNat 7) (Int.ofNat 1), Point.mk (Int.ofNat 7) (Int.ofNat 2),
    Point.mk (Int.ofNat 7) (Int.ofNat 3), Point.mk (Int.ofNat 6) (Int.ofNat 3), Point.mk (Int.ofNat 5) (Int.ofNat 3),
    Point.mk (Int.ofNat 4) (Int.ofNat 3), Point.mk (Int.ofNat 3) (Int.ofNat 3), Point.mk (Int.ofNat 3) (Int.ofNat 4),
    Point.mk (Int.ofNat 3) (Int.ofNat 5), Point.mk (Int.ofNat 3) (Int.ofNat 6), Point.mk (Int.ofNat 3) (Int.ofNat 7),
    Point.mk (Int.ofNat 4) (Int.ofNat 7), Point.mk (Int.ofNat 5) (Int.ofNat 7), Point.mk (Int.ofNat 5) (Int.ofNat 8),
    Point.mk (Int.ofNat 5) (Int.ofNat 9), Point.mk (Int.ofNat 4) (Int.ofNat 9), Point.mk (Int.ofNat 3) (Int.ofNat 9),
    Point.mk (Int.ofNat 2) (Int.ofNat 9), Point.mk (Int.ofNat 1) (Int.ofNat 9), Point.mk (Int.ofNat 1) (Int.ofNat 10),
    Point.mk (Int.ofNat 1) (Int.ofNat 11), Point.mk (Int.ofNat 1) (Int.ofNat 12), Point.mk (Int.ofNat 1) (Int.ofNat 13),
    Point.mk (Int.ofNat 2) (Int.ofNat 13), Point.mk (Int.ofNat 3) (Int.ofNat 13), Point.mk (Int.ofNat 3) (Int.ofNat 12),
    Point.mk (Int.ofNat 3) (Int.ofNat 11), Point.mk (Int.ofNat 4) (Int.ofNat 11), Point.mk (Int.ofNat 5) (Int.ofNat 11),
    Point.mk (Int.ofNat 5) (Int.ofNat 12), Point.mk (Int.ofNat 5) (Int.ofNat 13), Point.mk (Int.ofNat 5) (Int.ofNat 14),
    Point.mk (Int.ofNat 5) (Int.ofNat 15), Point.mk (Int.ofNat 4) (Int.ofNat 15), Point.mk (Int.ofNat 3) (Int.ofNat 15),
    Point.mk (Int.ofNat 2) (Int.ofNat 15), Point.mk (Int.ofNat 1) (Int.ofNat 15), Point.mk (Int.ofNat 1) (Int.ofNat 16),
    Point.mk (Int.ofNat 1) (Int.ofNat 17), Point.mk (Int.ofNat 2) (Int.ofNat 17), Point.mk (Int.ofNat 3) (Int.ofNat 17),
    Point.mk (Int.ofNat 3) (Int.ofNat 18)],
   [Point.mk (Int.ofNat 1) (Int.ofNat 0), Point.mk (Int.ofNat 1) (Int.ofNat 1), Point.mk (Int.ofNat 2) (Int.ofNat 1),
    Point.mk (Int.ofNat 3) (Int.ofNat 1), Point.mk (Int.ofNat 4) (Int.ofNat 1), Point.mk (Int.ofNat 5) (Int.ofNat 1),
    Point.mk (Int.ofNat 6) (Int.ofNat 1), Point.mk (Int.ofNat 7) (Int.ofNat 1), Point.mk (Int.ofNat 7) (Int.ofNat 2),
    Point.mk (Int.ofNat 7) (Int.ofNat 3), Point.mk (Int.ofNat 6) (Int.ofNat 3), Point.mk (Int.ofNat 5) (Int.ofNat 3),
    Point.mk (Int.ofNat 4) (Int.ofNat 3), Point.mk (Int.ofNat 3) (Int.ofNat 3), Point.mk (Int.ofNat 3) (Int.ofNat 4),
    Point.mk (Int.ofNat 3) (Int.ofNat 5), Point.mk (Int.ofNat 3) (Int.ofNat 6), Point.mk (Int.ofNat 3) (Int.ofNat 7),
    Point.mk (Int.ofNat 4) (Int.ofNat 7), Point.mk (Int.ofNat 5) (Int.ofNat 7), Point.mk (Int.ofNat 5) (Int.ofNat 8),
    Point.mk (Int.ofNat 5) (Int.ofNat 9), Point.mk (Int.ofNat 4) (Int.ofNat 9), Point.mk (Int.ofNat 3) (Int.ofNat 9),
    Point.mk (Int.ofNat 2) (Int.ofNat 9), Point.mk (Int.ofNat 1) (Int.ofNat 9), Point.mk (Int.ofNat 1) (Int.ofNat 10),
    Point.mk (Int.ofNat 1) (Int.ofNat 11), Point.mk (Int.ofNat 1) (Int.ofNat 12), Point.mk (Int.ofNat 1) (Int.ofNat 13),
    Point.mk (Int.ofNat 2) (Int.ofNat 13), Point.mk (Int.ofNat 3) (Int.ofNat 13), Point.mk (Int.ofNat 3) (Int.ofNat 12),
    Point.mk (Int.ofNat 3) (Int.ofNat 11), Point.mk (Int.ofNat 4) (Int.ofNat 11), Point.mk (Int.ofNat 5) (Int.ofNat 11),
    Point.mk (Int.ofNat 5) (Int.ofNat 12), Point.mk (Int.ofNat 5) (Int.ofNat 13), Point.mk (Int.ofNat 5) (Int.ofNat 14),
    Point.mk (Int.ofNat 5) (Int.ofNat 15), Point.mk (Int.ofNat 4) (Int.ofNat 15), Point.mk (Int.ofNat 3) (Int.ofNat 15),
    Point.mk (Int.ofNat 2) (Int.ofNat 15), Point.mk (Int.ofNat 1) (Int.ofNat 15), Point.mk (Int.ofNat 1) (Int.ofNat 16),
    Point.mk (Int.ofNat 1) (Int.ofNat 17), Point.mk (Int.ofNat 1) (Int.ofNat 16)],
   [Point.mk (Int.ofNat 1) (Int.ofNat 0), Point.mk (Int.ofNat 1) (Int.ofNat 1), Point.mk (Int.ofNat 2) (Int.ofNat 1),
    Point.mk (Int.ofNat 3) (Int.ofNat 1), Point.mk (Int.ofNat 4) (Int.ofNat 1), Point.mk (Int.ofNat 5) (Int.ofNat 1),
    Point.mk (Int.ofNat 6) (Int.ofNat 1), Point.mk (Int.ofNat 7) (Int.ofNat 1), Point.mk (Int.ofNat 7) (Int.ofNat 2),
    Point.mk (Int.ofNat 7) (Int.ofNat 3), Point.mk (Int.ofNat 6) (Int.ofNat 3), Point.mk (Int.ofNat 5) (Int.ofNat 3),
    Point.mk (Int.ofNat 4) (Int.ofNat 3), Point.mk (Int.ofNat 3) (Int.ofNat 3), Point.mk (Int.ofNat 3) (Int.ofNat 4),
    Point.mk (Int.ofNat 3) (Int.ofNat 5), Point.mk (Int.ofNat 3) (Int.ofNat 6), Point.mk (Int.ofNat 3) (Int.ofNat 7),
    Point.mk (Int.ofNat 4) (Int.ofNat 7), Point.mk (Int.ofNat 5) (Int.ofNat 7), Point.mk (Int.ofNat 5) (Int.ofNat 8),
    Point.mk (Int.ofNat 5) (Int.ofNat 9), Point.mk (Int.ofNat 4) (Int.ofNat 9), Point.mk (Int.ofNat 3) (Int.ofNat 9),
    Point.mk (Int.ofNat 2) (Int.ofNat 9), Point.mk (Int.ofNat 1) (Int.ofNat 9), Point.mk (Int.ofNat 1) (Int.ofNat 10),
    Point.mk (Int.ofNat 1) (Int.ofNat 11), Point.mk (Int.ofNat 1) (Int.ofNat 12), Point.mk (Int.ofNat 1) (Int.ofNat 13),
    Point.mk (Int.ofNat 2) (Int.ofNat 13), Point.mk (Int.ofNat 3) (Int.ofNat 13), Point.mk (Int.ofNat 3) (Int.ofNat 12),
    Point.mk (Int.ofNat 3) (Int.ofNat 11), Point.mk (Int.ofNat 4) (Int.ofNat 11), Point.mk (Int.ofNat 5) (Int.ofNat 11),
    Point.mk (Int.ofNat 5) (Int.ofNat 12), Point.mk (Int.ofNat 5) (Int.ofNat 13), Point.mk (Int.ofNat 5) (Int.ofNat 14),
    Point.mk (Int.ofNat 5) (Int.ofNat 15), Point.mk (Int.ofNat 4) (Int.ofNat 15), Point.mk (Int.ofNat 3) (Int.ofNat 15),
    Point.mk (Int.ofNat 2) (Int.ofNat 15), Point.mk (Int.ofNat 3) (Int.ofNat 15)],
   [Point.mk (Int.ofNat 1) (Int.ofNat 0), Point.mk (Int.ofNat 1) (Int.ofNat 1), Point.mk (Int.ofNat 2) (Int.ofNat 1),
    Point.mk (Int.ofNat 3) (Int.ofNat 1), Point.mk (Int.ofNat 4) (Int.ofNat 1), Point.mk (Int.ofNat 5) (Int.ofNat 1),
    Point.mk (Int.ofNat 6) (Int.ofNat 1), Point.mk (Int.ofNat 7) (Int.ofNat 1), Point.mk (Int.ofNat 7) (Int.ofNat 2),
    Point.mk (Int.ofNat 7) (Int.ofNat 3), Point.mk (Int.ofNat 6) (Int.ofNat 3), Point.mk (Int.ofNat 5) (Int.ofNat 3),
    Point.mk (Int.ofNat 4) (Int.ofNat 3), Point.mk (Int.ofNat 3) (Int.ofNat 3), Point.mk (Int.ofNat 3) (Int.ofNat 4),
    Point.mk (Int.ofNat 3) (Int.ofNat 5), Point.mk (Int.ofNat 3) (Int.ofNat 6), Point.mk (Int.ofNat 3) (Int.ofNat 7),
    Point.mk (Int.ofNat 4) (Int.ofNat 7), Point.mk (Int.ofNat 5) (Int.ofNat 7), Point.mk (Int.ofNat 5) (Int.ofNat 8),
    Point.mk (Int.ofNat 5) (Int.ofNat 9), Point.mk (Int.ofNat 4) (Int.ofNat 9), Point.mk (Int.ofNat 3) (Int.ofNat 9),
    Point.mk (Int.ofNat 2) (Int.ofNat 9), Point.mk (Int.ofNat 1) (Int.ofNat 9), Point.mk (Int.ofNat 1) (Int.ofNat 10),
    Point.mk (Int.ofNat 1) (Int.ofNat 11), Point.mk (Int.ofNat 1) (Int.ofNat 12), Point.mk (Int.ofNat 1) (Int.ofNat 13),
    Point.mk (Int.ofNat 2) (Int.ofNat 13), Point.mk (Int.ofNat 3) (Int.ofNat 13), Point.mk (Int.ofNat 3) (Int.ofNat 12),
    Point.mk (Int.ofNat 3) (Int.ofNat 11), Point.mk (Int.ofNat 4) (Int.ofNat 11), Point.mk (Int.ofNat 5) (Int.ofNat 11),
    Point.mk (Int.ofNat 5) (Int.ofNat 12), Point.mk (Int.ofNat 5) (Int.ofNat 13), Point.mk (Int.ofNat 5) (Int.ofNat 14),
    Point.mk (Int.ofNat 5) (Int.ofNat 15), Point.mk (Int.ofNat 4) (Int.ofNat 15), Point.mk (Int.ofNat 3) (Int.ofNat 15),
    Point.mk (Int.ofNat 4) (Int.ofNat 15)],
   [Point.mk (Int.ofNat 1) (Int.ofNat 0), Point.mk (Int.ofNat 1) (Int.ofNat 1), Point.mk (Int.ofNat 2) (Int.ofNat 1),
    Point.mk (Int.ofNat 3) (Int.ofNat 1), Point.mk (Int.ofNat 4) (Int.ofNat 1), Point.mk (Int.ofNat 5) (Int.ofNat 1),
    Point.mk (Int.ofNat 6) (Int.ofNat 1), Point.mk (Int.ofNat 7) (Int.ofNat 1), Point.mk (Int.ofNat 7) (Int.ofNat 2),
    Point.mk (Int.ofNat 7) (Int.ofNat 3), Point.mk (Int.ofNat 6) (Int.ofNat 3), Point.mk (Int.ofNat 5) (Int.ofNat 3),
    Point.mk (Int.ofNat 4) (Int.ofNat 3), Point.mk (Int.ofNat 3) (Int.ofNat 3), Point.mk (Int.ofNat 3) (Int.ofNat 4),
    Point.mk (Int.ofNat 3) (Int.ofNat 5), Point.mk (Int.ofNat 3) (Int.ofNat 6), Point.mk (Int.ofNat 3) (Int.ofNat 7),
    Point.mk (Int.ofNat 4) (Int.ofNat 7), Point.mk (Int.ofNat 5) (Int.ofNat 7), Point.mk (Int.ofNat 5) (Int.ofNat 8),
    Point.mk (Int.ofNat 5) (Int.ofNat 9), Point.mk (Int.ofNat 4) (Int.ofNat 9), Point.mk (Int.ofNat 3) (Int.ofNat 9),
    Point.mk (Int.ofNat 2) (Int.ofNat 9), Point.mk (Int.ofNat 1) (Int.ofNat 9), Point.mk (Int.ofNat 1) (Int.ofNat 10),
    Point.mk (Int.ofNat 1) (Int.ofNat 11), Point.mk (Int.ofNat 1) (Int.ofNat 12), Point.mk (Int.ofNat 1) (Int.ofNat 13),
    Point.mk (Int.ofNat 2) (Int.ofNat 13), Point.mk (Int.ofNat 3) (Int.ofNat 13), Point.mk (Int.ofNat 3) (Int.ofNat 12),
    Point.mk (Int.ofNat 3) (Int.ofNat 11), Point.mk (Int.ofNat 4) (Int.ofNat 11), Point.mk (Int.ofNat 5) (Int.ofNat 11),
    Point.mk (Int.ofNat 5) (Int.ofNat 12), Point.mk (Int.ofNat 5) (Int.ofNat 13), Point.mk (Int.ofNat 5) (Int.ofNat 14),
    Point.mk (Int.ofNat 5) (Int.ofNat 15), Point.mk (Int.ofNat 4) (Int.ofNat 15), Point.mk (Int.ofNat 5) (Int.ofNat 15)],
   [Point.mk (Int.ofNat 1) (Int.ofNat 0), Point.mk (Int.ofNat 1) (Int.ofNat 1), Point.mk (Int.ofNat 2) (Int.ofNat 1),
    Point.mk (Int.ofNat 3) (Int.ofNat 1), Point.mk (Int.ofNat 4) (Int.ofNat 1), Point.mk (Int.ofNat 5) (Int.ofNat 1),
    Point.mk (Int.ofNat 6) (Int.ofNat 1), Point.mk (Int.ofNat 7) (Int.ofNat 1), Point.mk (Int.ofNat 7) (Int.ofNat 2),
    Point.mk (Int.ofNat 7) (Int.ofNat 3), Point.mk (Int.ofNat 6) (Int.ofNat 3), Point.mk (Int.ofNat 5) (Int.ofNat 3),
    Point.mk (Int.ofNat 4) (Int.ofNat 3), Point.mk (Int.ofNat 3) (Int.ofNat 3), Point.mk (Int.ofNat 3) (Int.ofNat 4),
    Point.mk (Int.ofNat 3) (Int.ofNat 5), Point.mk (Int.ofNat 3) (Int.ofNat 6), Point.mk (Int.ofNat 3) (Int.ofNat 7),
    Point.mk (Int.ofNat 4) (Int.ofNat 7), Point.mk (Int.ofNat 5) (Int.ofNat 7), Point.mk (Int.ofNat 5) (Int.ofNat 8),
    Point.mk (Int.ofNat 5) (Int.ofNat 9), Point.mk (Int.ofNat 4) (Int.ofNat 9), Point.mk (Int.ofNat 3) (Int.ofNat 9),
    Point.mk (Int.ofNat 2) (Int.ofNat 9), Point.mk (Int.ofNat 1) (Int.ofNat 9), Point.mk (Int.ofNat 1) (Int.ofNat 10),
    Point.mk (Int.ofNat 1) (Int.ofNat 11), Point.mk (Int.ofNat 1) (Int.ofNat 12), Point.mk (Int.ofNat 1) (Int.ofNat 13),
    Point.mk (Int.ofNat 2) (Int.ofNat 13), Point.mk (Int.ofNat 3) (Int.ofNat 13), Point.mk (Int.ofNat 3) (Int.ofNat 12),
    Point.mk (Int.ofNat 3) (Int.ofNat 11), Point.mk (Int.ofNat 3) (Int.ofNat 12)],
   [Point.mk (Int.ofNat 1) (Int.ofNat 0), Point.mk (Int.ofNat 1) (Int.ofNat 1), Point.mk (Int.ofNat 2) (Int.ofNat 1),
    Point.mk (Int.ofNat 3) (Int.ofNat 1), Point.mk (Int.ofNat 4) (Int.ofNat 1), Point.mk (Int.ofNat 5) (Int.ofNat 1),
    Point.mk (Int.ofNat 6) (Int.ofNat 1), Point.mk (Int.ofNat 7) (Int.ofNat 1), Point.mk (Int.ofNat 7) (Int.ofNat 2),
    Point.mk (Int.ofNat 7) (Int.ofNat 3), Point.mk (Int.ofNat 6) (Int.ofNat 3), Point.mk (Int.ofNat 5) (Int.ofNat 3),
    Point.mk (Int.ofNat 4) (Int.ofNat 3), Point.mk (Int.ofNat 3) (Int.ofNat 3), Point.mk (Int.ofNat 3) (Int.ofNat 4),
    Point.mk (Int.ofNat 3) (Int.ofNat 5), Point.mk (Int.ofNat 3) (Int.ofNat 6), Point.mk (Int.ofNat 3) (Int.ofNat 7),
    Point.mk (Int.ofNat 4) (Int.ofNat 7), Point.mk (Int.ofNat 5) (Int.ofNat 7), Point.mk (Int.ofNat 5) (Int.ofNat 8),
    Point.mk (Int.ofNat 5) (Int.ofNat 9), Point.mk (Int.ofNat 4) (Int.ofNat 9), Point.mk (Int.ofNat 3) (Int.ofNat 9),
    Point.mk (Int.ofNat 2) (Int.ofNat 9), Point.mk (Int.ofNat 1) (Int.ofNat 9), Point.mk (Int.ofNat 1) (Int.ofNat 10),
    Point.mk (Int.ofNat 1) (Int.ofNat 11), Point.mk (Int.ofNat 1) (Int.ofNat 12), Point.mk (Int.ofNat 1) (Int.ofNat 13),
    Point.mk (Int.ofNat 2) (Int.ofNat 13), Point.mk (Int.ofNat 3) (Int.ofNat 13), Point.mk (Int.ofNat 3) (Int.ofNat 12),
    Point.mk (Int.ofNat 3) (Int.ofNat 13)],
   [Point.mk (Int.ofNat 1) (Int.ofNat 0), Point.mk (Int.ofNat 1) (Int.ofNat 1), Point.mk (Int.ofNat 2) (Int.ofNat 1),
    Point.mk (Int.ofNat 3) (Int.ofNat 1), Point.mk (Int.ofNat 4) (Int.ofNat 1), Point.mk (Int.ofNat 5) (Int.ofNat 1),
    Point.mk (Int.ofNat 6) (Int.ofNat 1), Point.mk (Int.ofNat 7) (Int.ofNat 1), Point.mk (Int.ofNat 7) (Int.ofNat 2),
    Point.mk (Int.ofNat 7) (Int.ofNat 3), Point.mk (Int.ofNat 6) (Int.ofNat 3), Point.mk (Int.ofNat 5) (Int.ofNat 3),
    Point.mk (Int.ofNat 4) (Int.ofNat 3), Point.mk (Int.ofNat 3) (Int.ofNat 3), Point.mk (Int.ofNat 3) (Int.ofNat 4),
    Point.mk (Int.ofNat 3) (Int.ofNat 5), Point.mk (Int.ofNat 3) (Int.ofNat 6), Point.mk (Int.ofNat 3) (Int.ofNat 7),
    Point.mk (Int.ofNat 4) (Int.ofNat 7), Point.mk (Int.ofNat 5) (Int.ofNat 7), Point.mk (Int.ofNat 5) (Int.ofNat 8),
    Point.mk (Int.ofNat 5) (Int.ofNat 9), Point.mk (Int.ofNat 4) (Int.ofNat 9), Point.mk (Int.ofNat 3) (Int.ofNat 9),
    Point.mk (Int.ofNat 2) (Int.ofNat 9), Point.mk (Int.ofNat 1) (Int.ofNat 9), Point.mk (Int.ofNat 1) (Int.ofNat 10),
    Point.mk (Int.ofNat 1) (Int.ofNat 11), Point.mk (Int.ofNat 1) (Int.ofNat 12), Point.mk (Int.ofNat 1) (Int.ofNat 13),
    Point.mk (Int.ofNat 1) (Int.ofNat 12)],
   [Point.mk (Int.ofNat 1) (Int.ofNat 0), Point.mk (Int.ofNat 1) (Int.ofNat 1), Point.mk (Int.ofNat 2) (Int.ofNat 1),
    Point.mk (Int.ofNat 3) (Int.ofNat 1), Point.mk (Int.ofNat 4) (Int.ofNat 1), Point.mk (Int.ofNat 5) (Int.ofNat 1),
    Point.mk (Int.ofNat 6) (Int.ofNat 1), Point.mk (Int.ofNat 7) (Int.ofNat 1), Point.mk (Int.ofNat 7) (Int.ofNat 2),
    Point.mk (Int.ofNat 7) (Int.ofNat 3), Point.mk (Int.ofNat 6) (Int.ofNat 3), Point.mk (Int.ofNat 5) (Int.ofNat 3),
    Point.mk (Int.ofNat 4) (Int.ofNat 3), Point.mk (Int.ofNat 3) (Int.ofNat 3), Point.mk (Int.ofNat 3) (Int.ofNat 4),
    Point.mk (Int.ofNat 3) (Int.ofNat 5), Point.mk (Int.ofNat 3) (Int.ofNat 6), Point.mk (Int.ofNat 3) (Int.ofNat 7),
    Point.mk (Int.ofNat 4) (Int.ofNat 7), Point.mk (Int.ofNat 5) (Int.ofNat 7), Point.mk (Int.ofNat 5) (Int.ofNat 8),
    Point.mk (Int.ofNat 5) (Int.ofNat 9), Point.mk (Int.ofNat 4) (Int.ofNat 9), Point.mk (Int.ofNat 3) (Int.ofNat 9),
    Point.mk (Int.ofNat 2) (Int.ofNat 9), Point.mk (Int.ofNat 3) (Int.ofNat 9)],
   [Point.mk (Int.ofNat 1) (Int.ofNat 0), Point.mk (Int.ofNat 1) (Int.ofNat 1), Point.mk (Int.ofNat 2) (Int.ofNat 1),
    Point.mk (Int.ofNat 3) (Int.ofNat 1), Point.mk (Int.ofNat 4) (Int.ofNat 1), Point.mk (Int.ofNat 5) (Int.ofNat 1),
    Point.mk (Int.ofNat 6) (Int.ofNat 1), Point.mk (Int.ofNat 7) (Int.ofNat 1), Point.mk (Int.ofNat 7) (Int.ofNat 2),
    Point.mk (Int.ofNat 7) (Int.ofNat 3), Point.mk (Int.ofNat 6) (Int.ofNat 3), Point.mk (Int.ofNat 5) (Int.ofNat 3),
    Point.mk (Int.ofNat 4) (Int.ofNat 3), Point.mk (Int.ofNat 3) (Int.ofNat 3), Point.mk (Int.ofNat 3) (Int.ofNat 4),
    Point.mk (Int.ofNat 3) (Int.ofNat 5), Point.mk (Int.ofNat 3) (Int.ofNat 6), Point.mk (Int.ofNat 3) (Int.ofNat 7),
    Point.mk (Int.ofNat 4) (Int.ofNat 7), Point.mk (Int.ofNat 5) (Int.ofNat 7), Point.mk (Int.ofNat 5) (Int.ofNat 8),
    Point.mk (Int.ofNat 5) (Int.ofNat 9), Point.mk (Int.ofNat 4) (Int.ofNat 9), Point.mk (Int.ofNat 3) (Int.ofNat 9),
    Point.mk (Int.ofNat 4) (Int.ofNat 9)],
   [Point.mk (Int.ofNat 1) (Int.ofNat 0), Point.mk (Int.ofNat 1) (Int.ofNat 1), Point.mk (Int.ofNat 2) (Int.ofNat 1),
    Point.mk (Int.ofNat 3) (Int.ofNat 1), Point.mk (Int.ofNat 4) (Int.ofNat 1), Point.mk (Int.ofNat 5) (Int.ofNat 1),
    Point.mk (Int.ofNat 6) (Int.ofNat 1), Point.mk (Int.ofNat 7) (Int.ofNat 1), Point.mk (Int.ofNat 7) (Int.ofNat 2),
    Point.mk (Int.ofNat 7) (Int.ofNat 3), Point.mk (Int.ofNat 6) (Int.ofNat 3), Point.mk (Int.ofNat 5) (Int.ofNat 3),
    Point.mk (Int.ofNat 4) (Int.ofNat 3), Point.mk (Int.ofNat 3) (Int.ofNat 3), Point.mk (Int.ofNat 3) (Int.ofNat 4),
    Point.mk (Int.ofNat 3) (Int.ofNat 5), Point.mk (Int.ofNat 3) (Int.ofNat 6), Point.mk (Int.ofNat 3) (Int.ofNat 7),
    Point.mk (Int.ofNat 4) (Int.ofNat 7), Point.mk (Int.ofNat 5) (Int.ofNat 7), Point.mk (Int.ofNat 5) (Int.ofNat 8),
    Point.mk (Int.ofNat 5) (Int.ofNat 9), Point.mk (Int.ofNat 4) (Int.ofNat 9), Point.mk (Int.ofNat 5) (Int.ofNat 9)],
   [Point.mk (Int.ofNat 1) (Int.ofNat 0), Point.mk (Int.ofNat 1) (Int.ofNat 1), Point.mk (Int.ofNat 2) (Int.ofNat 1),
    Point.mk (Int.ofNat 3) (Int.ofNat 1), Point.mk (Int.ofNat 4) (Int.ofNat 1), Point.mk (Int.ofNat 5) (Int.ofNat 1),
    Point.mk (Int.ofNat 6) (Int.ofNat 1), Point.mk (Int.ofNat 7) (Int.ofNat 1), Point.mk (Int.ofNat 7) (Int.ofNat 2),
    Point.mk (Int.ofNat 7) (Int.ofNat 3), Point.mk (Int.ofNat 6) (Int.ofNat 3), Point.mk (Int.ofNat 5) (Int.ofNat 3),
    Point.mk (Int.ofNat 4) (Int.ofNat 3), Point.mk (Int.ofNat 3) (Int.ofNat 3), Point.mk (Int.ofNat 3) (Int.ofNat 4),
    Point.mk (Int.ofNat 3) (Int.ofNat 5), Point.mk (Int.ofNat 3) (Int.ofNat 6), Point.mk (Int.ofNat 3) (Int.ofNat 7),
    Point.mk (Int.ofNat 4) (Int.ofNat 7), Point.mk (Int.ofNat 5) (Int.ofNat 7), Point.mk (Int.ofNat 5) (Int.ofNat 8),
    Point.mk (Int.ofNat 5) (Int.ofNat 9), Point.mk (Int.ofNat 5) (Int.ofNat 8)],
   [Point.mk (Int.ofNat 1) (Int.ofNat 0), Point.mk (Int.ofNat 1) (Int.ofNat 1), Point.mk (Int.ofNat 2) (Int.ofNat 1),
    Point.mk (Int.ofNat 3) (Int.ofNat 1), Point.mk (Int.ofNat 4) (Int.ofNat 1), Point.mk (Int.ofNat 5) (Int.ofNat 1),
    Point.mk (Int.ofNat 6) (Int.ofNat 1), Point.mk (Int.ofNat 7) (Int.ofNat 1), Point.mk (Int.ofNat 7) (Int.ofNat 2),
    Point.mk (Int.ofNat 7) (Int.ofNat 3), Point.mk (Int.ofNat 6) (Int.ofNat 3), Point.mk (Int.ofNat 5) (Int.ofNat 3),
    Point.mk (Int.ofNat 4) (Int.ofNat 3), Point.mk (Int.ofNat 5) (Int.ofNat 3)],
   [Point.mk (Int.ofNat 1) (Int.ofNat 0), Point.mk (Int.ofNat 1) (Int.ofNat 1), Point.mk (Int.ofNat 2) (Int.ofNat 1),
    Point.mk (Int.ofNat 3) (Int.ofNat 1), Point.mk (Int.ofNat 4) (Int.ofNat 1), Point.mk (Int.ofNat 5) (Int.ofNat 1),
    Point.mk (Int.ofNat 6) (Int.ofNat 1), Point.mk (Int.ofNat 7) (Int.ofNat 1), Point.mk (Int.ofNat 7) (Int.ofNat 2),
    Point.mk (Int.ofNat 7) (Int.ofNat 3), Point.mk (Int.ofNat 6) (Int.ofNat 3), Point.mk (Int.ofNat 5) (Int.ofNat 3),
    Point.mk (Int.ofNat 6) (Int.ofNat 3)],
   [Point.mk (Int.ofNat 1) (Int.ofNat 0), Point.mk (Int.ofNat 1) (Int.ofNat 1), Point.mk (Int.ofNat 2) (Int.ofNat 1),
    Point.mk (Int.ofNat 3) (Int.ofNat 1), Point.mk (Int.ofNat 4) (Int.ofNat 1), Point.mk (Int.ofNat 5) (Int.ofNat 1),
    Point.mk (Int.ofNat 6) (Int.ofNat 1), Point.mk (Int.ofNat 7) (Int.ofNat 1), Point.mk (Int.ofNat 7) (Int.ofNat 2),
    Point.mk (Int.ofNat 7) (Int.ofNat 3), Point.mk (Int.ofNat 6) (Int.ofNat 3), Point.mk (Int.ofNat 7) (Int.ofNat 3)],
   [Point.mk (Int.ofNat 1) (Int.ofNat 0), Point.mk (Int.ofNat 1) (Int.ofNat 1), Point.mk (Int.ofNat 2) (Int.ofNat 1),
    Point.mk (Int.ofNat 3) (Int.ofNat 1), Point.mk (Int.ofNat 4) (Int.ofNat 1), Point.mk (Int.ofNat 5) (Int.ofNat 1),
    Point.mk (Int.ofNat 6) (Int.ofNat 1), Point.mk (Int.ofNat 7) (Int.ofNat 1), Point.mk (Int.ofNat 7) (Int.ofNat 2),
    Point.mk (Int.ofNat 7) (Int.ofNat 3), Point.mk (Int.ofNat 7) (Int.ofNat 2)],
   [Point.mk (Int.ofNat 1) (Int.ofNat 0), Point.mk (Int.ofNat 1) (Int.ofNat 1), Point.mk (Int.ofNat 1) (Int.ofNat 0)]],
   [Point.mk (Int.ofNat 3) (Int.ofNat 17), Point.mk (Int.ofNat 2) (Int.ofNat 17), Point.mk (Int.ofNat 1) (Int.ofNat 17),
    Point.mk (Int.ofNat 1) (Int.ofNat 16), Point.mk (Int.ofNat 1) (Int.ofNat 15), Point.mk (Int.ofNat 2) (Int.ofNat 15),
    Point.mk (Int.ofNat 3) (Int.ofNat 15), Point.mk (Int.ofNat 4) (Int.ofNat 15), Point.mk (Int.ofNat 5) (Int.ofNat 15),
    Point.mk (Int.ofNat 5) (Int.ofNat 14), Point.mk (Int.ofNat 12) (Int.ofNat 13), Point.mk (Int.ofNat 11) (Int.ofNat 13),
    Point.mk (Int.ofNat 10) (Int.ofNat 13), Point.mk (Int.ofNat 9) (Int.ofNat 13), Point.mk (Int.ofNat 9) (Int.ofNat 14),
    Point.mk (Int.ofNat 9) (Int.ofNat 15), Point.mk (Int.ofNat 8) (Int.ofNat 15), Point.mk (Int.ofNat 7) (Int.ofNat 15),
    Point.mk (Int.ofNat 7) (Int.ofNat 14), Point.mk (Int.ofNat 7) (Int.ofNat 13), Point.mk (Int.ofNat 6) (Int.ofNat 13),
    Point.mk (Int.ofNat 5) (Int.ofNat 13), Point.mk (Int.ofNat 5) (Int.ofNat 12), Point.mk (Int.ofNat 5) (Int.ofNat 11),
    Point.mk (Int.ofNat 4) (Int.ofNat 11), Point.mk (Int.ofNat 3) (Int.ofNat 11), Point.mk (Int.ofNat 3) (Int.ofNat 12),
    Point.mk (Int.ofNat 3) (Int.ofNat 13), Point.mk (Int.ofNat 2) (Int.ofNat 13), Point.mk (Int.ofNat 1) (Int.ofNat 13),
    Point.mk (Int.ofNat 1) (Int.ofNat 12), Point.mk (Int.ofNat 1) (Int.ofNat 11), Point.mk (Int.ofNat 1) (Int.ofNat 10),
    Point.mk (Int.ofNat 1) (Int.ofNat 9), Point.mk (Int.ofNat 2) (Int.ofNat 9), Point.mk (Int.ofNat 3) (Int.ofNat 9),
    Point.mk (Int.ofNat 4) (Int.ofNat 9), Point.mk (Int.ofNat 5) (Int.ofNat 9), Point.mk (Int.ofNat 5) (Int.ofNat 8),
    Point.mk (Int.ofNat 5) (Int.ofNat 7), Point.mk (Int.ofNat 4) (Int.ofNat 7), Point.mk (Int.ofNat 3) (Int.ofNat 7),
    Point.mk (Int.ofNat 3) (Int.ofNat 6), Point.mk (Int.ofNat 18) (Int.ofNat 19), Point.mk (Int.ofNat 17) (Int.ofNat 19),
    Point.mk (Int.ofNat 17) (Int.ofNat 20), Point.mk (Int.ofNat 17) (Int.ofNat 21), Point.mk (Int.ofNat 16) (Int.ofNat 21),
    Point.mk (Int.ofNat 15) (Int.ofNat 21), Point.mk (Int.ofNat 15) (Int.ofNat 20), Point.mk (Int.ofNat 15) (Int.ofNat 19),
    Point.mk (Int.ofNat 14) (Int.ofNat 19), Point.mk (Int.ofNat 13) (Int.ofNat 19), Point.mk (Int.ofNat 13) (Int.ofNat 18),
    Point.mk (Int.ofNat 13) (Int.ofNat 17), Point.mk (Int.ofNat 12) (Int.ofNat 17), Point.mk (Int.ofNat 11) (Int.ofNat 17),
    Point.mk (Int.ofNat 11) (Int.ofNat 16), Point.mk (Int.ofNat 11) (Int.ofNat 15), Point.mk (Int.ofNat 12) (Int.ofNat 15),
    Point.mk (Int.ofNat 13) (Int.ofNat 15), Point.mk (Int.ofNat 13) (Int.ofNat 14), Point.mk (Int.ofNat 20) (Int.ofNat 11),
    Point.mk (Int.ofNat 19) (Int.ofNat 11), Point.mk (Int.ofNat 18) (Int.ofNat 11), Point.mk (Int.ofNat 17) (Int.ofNat 11),
    Point.mk (Int.ofNat 17) (Int.ofNat 12), Point.mk (Int.ofNat 17) (Int.ofNat 13), Point.mk (Int.ofNat 17) (Int.ofNat 14),
    Point.mk (Int.ofNat 17) (Int.ofNat 15), Point.mk (Int.ofNat 17) (Int.ofNat 16), Point.mk (Int.ofNat 17) (Int.ofNat 17),
    Point.mk (Int.ofNat 16) (Int.ofNat 17), Point.mk (Int.ofNat 15) (Int.ofNat 17), Point.mk (Int.ofNat 15) (Int.ofNat 16),
    Point.mk (Int.ofNat 15) (Int.ofNat 15), Point.mk (Int.ofNat 15) (Int.ofNat 14), Point.mk (Int.ofNat 15) (Int.ofNat 13),
    Point.mk (Int.ofNat 14) (Int.ofNat 13), Point.mk (Int.ofNat 13) (Int.ofNat 13), Point.mk (Int.ofNat 13) (Int.ofNat 12),
    Point.mk (Int.ofNat 13) (Int.ofNat 11), Point.mk (Int.ofNat 12) (Int.ofNat 11), Point.mk (Int.ofNat 11) (Int.ofNat 11),
    Point.mk (Int.ofNat 11) (Int.ofNat 10), Point.mk (Int.ofNat 11) (Int.ofNat 9), Point.mk (Int.ofNat 12) (Int.ofNat 9),
    Point.mk (Int.ofNat 13) (Int.ofNat 9), Point.mk (Int.ofNat 14) (Int.ofNat 9), Point.mk (Int.ofNat 15) (Int.ofNat 9),
    Point.mk (Int.ofNat 16) (Int.ofNat 9), Point.mk (Int.ofNat 17) (Int.ofNat 9), Point.mk (Int.ofNat 17) (Int.ofNat 8),
    Point.mk (Int.ofNat 17) (Int.ofNat 7), Point.mk (Int.ofNat 16) (Int.ofNat 7), Point.mk (Int.ofNat 15) (Int.ofNat 7),
    Point.mk (Int.ofNat 14) (Int.ofNat 7), Point.mk (Int.ofNat 13) (Int.ofNat 7), Point.mk (Int.ofNat 12) (Int.ofNat 7),
    Point.mk (Int.ofNat 11) (Int.ofNat 7), Point.mk (Int.ofNat 11) (Int.ofNat 6), Point.mk (Int.ofNat 11) (Int.ofNat 5),
    Point.mk (Int.ofNat 11) (Int.ofNat 4), Point.mk (Int.ofNat 21) (Int.ofNat 22), Point.mk (Int.ofNat 21) (Int.ofNat 21),
    Point.mk (Int.ofNat 20) (Int.ofNat 21), Point.mk (Int.ofNat 19) (Int.ofNat 21), Point.mk (Int.ofNat 19) (Int.ofNat 20),
    Point.mk (Int.ofNat 19) (Int.ofNat 19), Point.mk (Int.ofNat 19) (Int.ofNat 18), Point.mk (Int.ofNat 19) (Int.ofNat 17),
    Point.mk (Int.ofNat 19) (Int.ofNat 16), Point.mk (Int.ofNat 19) (Int.ofNat 15), Point.mk (Int.ofNat 20) (Int.ofNat 15),
    Point.mk (Int.ofNat 21) (Int.ofNat 15), Point.mk (Int.ofNat 21) (Int.ofNat 14), Point.mk (Int.ofNat 21) (Int.ofNat 13),
    Point.mk (Int.ofNat 21) (Int.ofNat 12), Point.mk (Int.ofNat 21) (Int.ofNat 11), Point.mk (Int.ofNat 21) (Int.ofNat 10),
    Point.mk (Int.ofNat 21) (Int.ofNat 9), Point.mk (Int.ofNat 20) (Int.ofNat 9), Point.mk (Int.ofNat 19) (Int.ofNat 9),
    Point.mk (Int.ofNat 19) (Int.ofNat 8), Point.mk (Int.ofNat 19) (Int.ofNat 7), Point.mk (Int.ofNat 20) (Int.ofNat 7),
    Point.mk (Int.ofNat 21) (Int.ofNat 7), Point.mk (Int.ofNat 21) (Int.ofNat 6), Point.mk (Int.ofNat 21) (Int.ofNat 5),
    Point.mk (Int.ofNat 20) (Int.ofNat 5), Point.mk (Int.ofNat 19) (Int.ofNat 5), Point.mk (Int.ofNat 19) (Int.ofNat 4),
    Point.mk (Int.ofNat 19) (Int.ofNat 3), Point.mk (Int.ofNat 19) (Int.ofNat 2), Point.mk (Int.ofNat 19) (Int.ofNat 1),
    Point.mk (Int.ofNat 18) (Int.ofNat 1), Point.mk (Int.ofNat 17) (Int.ofNat 1), Point.mk (Int.ofNat 17) (Int.ofNat 2),
    Point.mk (Int.ofNat 17) (Int.ofNat 3), Point.mk (Int.ofNat 17) (Int.ofNat 4), Point.mk (Int.ofNat 17) (Int.ofNat 5),
    Point.mk (Int.ofNat 16) (Int.ofNat 5), Point.mk (Int.ofNat 15) (Int.ofNat 5), Point.mk (Int.ofNat 14) (Int.ofNat 5),
    Point.mk (Int.ofNat 13) (Int.ofNat 5), Point.mk (Int.ofNat 13) (Int.ofNat 4), Point.mk (Int.ofNat 13) (Int.ofNat 3),
    Point.mk (Int.ofNat 12) (Int.ofNat 3), Point.mk (Int.ofNat 11) (Int.ofNat 3), Point.mk (Int.ofNat 10) (Int.ofNat 3),
    Point.mk (Int.ofNat 9) (Int.ofNat 3), Point.mk (Int.ofNat 9) (Int.ofNat 4), Point.mk (Int.ofNat 9) (Int.ofNat 5),
    Point.mk (Int.ofNat 9) (Int.ofNat 6), Point.mk (Int.ofNat 9) (Int.ofNat 7), Point.mk (Int.ofNat 9) (Int.ofNat 8),
    Point.mk (Int.ofNat 9) (Int.ofNat 9), Point.mk (Int.ofNat 9) (Int.ofNat 10), Point.mk (Int.ofNat 9) (Int.ofNat 11),
    Point.mk (Int.ofNat 8) (Int.ofNat 11), Point.mk (Int.ofNat 7) (Int.ofNat 11), Point.mk (Int.ofNat 7) (Int.ofNat 10),
    Point.mk (Int.ofNat 7) (Int.ofNat 9), Point.mk (Int.ofNat 7) (Int.ofNat 8), Point.mk (Int.ofNat 7) (Int.ofNat 7),
    Point.mk (Int.ofNat 7) (Int.ofNat 6), Point.mk (Int.ofNat 7) (Int.ofNat 5), Point.mk (Int.ofNat 6) (Int.ofNat 5),
    Point.mk (Int.ofNat 5) (Int.ofNat 5), Point.mk (Int.ofNat 4) (Int.ofNat 5), Point.mk (Int.ofNat 3) (Int.ofNat 5),
    Point.mk (Int.ofNat 3) (Int.ofNat 4), Point.mk (Int.ofNat 3) (Int.ofNat 3), Point.mk (Int.ofNat 4) (Int.ofNat 3),
    Point.mk (Int.ofNat 5) (Int.ofNat 3), Point.mk (Int.ofNat 6) (Int.ofNat 3), Point.mk (Int.ofNat 7) (Int.ofNat 3),
    Point.mk (Int.ofNat 7) (Int.ofNat 2), Point.mk (Int.ofNat 7) (Int.ofNat 1), Point.mk (Int.ofNat 6) (Int.ofNat 1),
    Point.mk (Int.ofNat 5) (Int.ofNat 1), Point.mk (Int.ofNat 4) (Int.ofNat 1), Point.mk (Int.ofNat 3) (Int.ofNat 1),
    Point.mk (Int.ofNat 2) (Int.ofNat 1), Point.mk (Int.ofNat 1) (Int.ofNat 1), Point.mk (Int.ofNat 1) (Int.ofNat 0)],
   [Point.mk (Int.ofNat 1) (Int.ofNat 0), Point.mk (Int.ofNat 1) (Int.ofNat 1), Point.mk (Int.ofNat 2) (Int.ofNat 1),
    Point.mk (Int.ofNat 3) (Int.ofNat 1), Point.mk (Int.ofNat 4) (Int.ofNat 1), Point.mk (Int.ofNat 5) (Int.ofNat 1),
    Point.mk (Int.ofNat 6) (Int.ofNat 1), Point.mk (Int.ofNat 7) (Int.ofNat 1), Point.mk (Int.ofNat 7) (Int.ofNat 2),
    Point.mk (Int.ofNat 7) (Int.ofNat 3), Point.mk (Int.ofNat 6) (Int.ofNat 3), Point.mk (Int.ofNat 5) (Int.ofNat 3),
    Point.mk (Int.ofNat 4) (Int.ofNat 3), Point.mk (Int.ofNat 3) (Int.ofNat 3), Point.mk (Int.ofNat 3) (Int.ofNat 4),
    Point.mk (Int.ofNat 3) (Int.ofNat 5), Point.mk (Int.ofNat 4) (Int.ofNat 5), Point.mk (Int.ofNat 5) (Int.ofNat 5),
    Point.mk (Int.ofNat 6) (Int.ofNat 5), Point.mk (Int.ofNat 7) (Int.ofNat 5), Point.mk (Int.ofNat 7) (Int.ofNat 6),
    Point.mk (Int.ofNat 7) (Int.ofNat 7), Point.mk (Int.ofNat 7) (Int.ofNat 8), Point.mk (Int.ofNat 7) (Int.ofNat 9),
    Point.mk (Int.ofNat 7) (Int.ofNat 10), Point.mk (Int.ofNat 7) (Int.ofNat 11), Point.mk (Int.ofNat 8) (Int.ofNat 11),
    Point.mk (Int.ofNat 9) (Int.ofNat 11), Point.mk (Int.ofNat 9) (Int.ofNat 10), Point.mk (Int.ofNat 9) (Int.ofNat 9),
    Point.mk (Int.ofNat 9) (Int.ofNat 8), Point.mk (Int.ofNat 9) (Int.ofNat 7), Point.mk (Int.ofNat 9) (Int.ofNat 6),
    Point.mk (Int.ofNat 9) (Int.ofNat 5), Point.mk (Int.ofNat 9) (Int.ofNat 4), Point.mk (Int.ofNat 9) (Int.ofNat 3),
    Point.mk (Int.ofNat 10) (Int.ofNat 3), Point.mk (Int.ofNat 11) (Int.ofNat 3), Point.mk (Int.ofNat 12) (Int.ofNat 3),
    Point.mk (Int.ofNat 13) (Int.ofNat 3), Point.mk (Int.ofNat 13) (Int.ofNat 4), Point.mk (Int.ofNat 13) (Int.ofNat 5),
    Point.mk (Int.ofNat 14) (Int.ofNat 5), Point.mk (Int.ofNat 15) (Int.ofNat 5), Point.mk (Int.ofNat 16) (Int.ofNat 5),
    Point.mk (Int.ofNat 17) (Int.ofNat 5), Point.mk (Int.ofNat 17) (Int.ofNat 4), Point.mk (Int.ofNat 17) (Int.ofNat 3),
    Point.mk (Int.ofNat 17) (Int.ofNat 2), Point.mk (Int.ofNat 17) (Int.ofNat 1), Point.mk (Int.ofNat 18) (Int.ofNat 1),
    Point.mk (Int.ofNat 19) (Int.ofNat 1), Point.mk (Int.ofNat 19) (Int.ofNat 2), Point.mk (Int.ofNat 19) (Int.ofNat 3),
    Point.mk (Int.ofNat 19) (Int.ofNat 4), Point.mk (Int.ofNat 19) (Int.ofNat 5), Point.mk (Int.ofNat 20) (Int.ofNat 5),
    Point.mk (Int.ofNat 21) (Int.ofNat 5), Point.mk (Int.ofNat 21) (Int.ofNat 6), Point.mk (Int.ofNat 21) (Int.ofNat 7),
    Point.mk (Int.ofNat 20) (Int.ofNat 7), Point.mk (Int.ofNat 19) (Int.ofNat 7), Point.mk (Int.ofNat 19) (Int.ofNat 8),
    Point.mk (Int.ofNat 19) (Int.ofNat 9), Point.mk (Int.ofNat 20) (Int.ofNat 9), Point.mk (Int.ofNat 21) (Int.ofNat 9),
    Point.mk (Int.ofNat 21) (Int.ofNat 10), Point.mk (Int.ofNat 21) (Int.ofNat 11), Point.mk (Int.ofNat 21) (Int.ofNat 12),
    Point.mk (Int.ofNat 21) (Int.ofNat 13), Point.mk (Int.ofNat 21) (Int.ofNat 14), Point.mk (Int.ofNat 21) (Int.ofNat 15),
    Point.mk (Int.ofNat 20) (Int.ofNat 15), Point.mk (Int.ofNat 19) (Int.ofNat 15), Point.mk (Int.ofNat 19) (Int.ofNat 16),
    Point.mk (Int.ofNat 19) (Int.ofNat 17), Point.mk (Int.ofNat 19) (Int.ofNat 18), Point.mk (Int.ofNat 19) (Int.ofNat 19),
    Point.mk (Int.ofNat 19) (Int.ofNat 20), Point.mk (Int.ofNat 19) (Int.ofNat 21), Point.mk (Int.ofNat 20) (Int.ofNat 21),
    Point.mk (Int.ofNat 21) (Int.ofNat 21), Point.mk (Int.ofNat 21) (Int.ofNat 22)])

/-- The DFS state of the sample grid after 425 loop iterations: the stack
emptied at iteration 411, 213 vertices were visited, and the best path is
`samplePath`. -/
def sampleState425 : List (List Point) × List Point × List Point :=
  ([],
   [Point.mk (Int.ofNat 12) (Int.ofNat 19), Point.mk (Int.ofNat 11) (Int.ofNat 19), Point.mk (Int.ofNat 11) (Int.ofNat 20),
    Point.mk (Int.ofNat 11) (Int.ofNat 21), Point.mk (Int.ofNat 10) (Int.ofNat 21), Point.mk (Int.ofNat 9) (Int.ofNat 21),
    Point.mk (Int.ofNat 9) (Int.ofNat 20), Point.mk (Int.ofNat 9) (Int.ofNat 19), Point.mk (Int.ofNat 9) (Int.ofNat 18),
    Point.mk (Int.ofNat 9) (Int.ofNat 17), Point.mk (Int.ofNat 8) (Int.ofNat 17), Point.mk (Int.ofNat 7) (Int.ofNat 17),
    Point.mk (Int.ofNat 7) (Int.ofNat 18), Point.mk (Int.ofNat 7) (Int.ofNat 19), Point.mk (Int.ofNat 6) (Int.ofNat 19),
    Point.mk (Int.ofNat 5) (Int.ofNat 19), Point.mk (Int.ofNat 5) (Int.ofNat 20), Point.mk (Int.ofNat 5) (Int.ofNat 21),
    Point.mk (Int.ofNat 4) (Int.ofNat 21), Point.mk (Int.ofNat 3) (Int.ofNat 21), Point.mk (Int.ofNat 2) (Int.ofNat 21),
    Point.mk (Int.ofNat 1) (Int.ofNat 21), Point.mk (Int.ofNat 1) (Int.ofNat 20), Point.mk (Int.ofNat 1) (Int.ofNat 19),
    Point.mk (Int.ofNat 2) (Int.ofNat 19), Point.mk (Int.ofNat 3) (Int.ofNat 19), Point.mk (Int.ofNat 3) (Int.ofNat 18),
    Point.mk (Int.ofNat 3) (Int.ofNat 17), Point.mk (Int.ofNat 2) (Int.ofNat 17), Point.mk (Int.ofNat 1) (Int.ofNat 17),
    Point.mk (Int.ofNat 1) (Int.ofNat 16), Point.mk (Int.ofNat 1) (Int.ofNat 15), Point.mk (Int.ofNat 2) (Int.ofNat 15),
    Point.mk (Int.ofNat 3) (Int.ofNat 15), Point.mk (Int.ofNat 4) (Int.ofNat 15), Point.mk (Int.ofNat 5) (Int.ofNat 15),
    Point.mk (Int.ofNat 5) (Int.ofNat 14), Point.mk (Int.ofNat 12) (Int.ofNat 13), Point.mk (Int.ofNat 11) (Int.ofNat 13),
    Point.mk (Int.ofNat 10) (Int.ofNat 13), Point.mk (Int.ofNat 9) (Int.ofNat 13), Point.mk (Int.ofNat 9) (Int.ofNat 14),
    Point.mk (Int.ofNat 9) (Int.ofNat 15), Point.mk (Int.ofNat 8) (Int.ofNat 15), Point.mk (Int.ofNat 7) (Int.ofNat 15),
    Point.mk (Int.ofNat 7) (Int.ofNat 14), Point.mk (Int.ofNat 7) (Int.ofNat 13), Point.mk (Int.ofNat 6) (Int.ofNat 13),
    Point.mk (Int.ofNat 5) (Int.ofNat 13), Point.mk (Int.ofNat 5) (Int.ofNat 12), Point.mk (Int.ofNat 5) (Int.ofNat 11),
    Point.mk (Int.ofNat 4) (Int.ofNat 11), Point.mk (Int.ofNat 3) (Int.ofNat 11), Point.mk (Int.ofNat 3) (Int.ofNat 12),
    Point.mk (Int.ofNat 3) (Int.ofNat 13), Point.mk (Int.ofNat 2) (Int.ofNat 13), Point.mk (Int.ofNat 1) (Int.ofNat 13),
    Point.mk (Int.ofNat 1) (Int.ofNat 12), Point.mk (Int.ofNat 1) (Int.ofNat 11), Point.mk (Int.ofNat 1) (Int.ofNat 10),
    Point.mk (Int.ofNat 1) (Int.ofNat 9), Point.mk (Int.ofNat 2) (Int.ofNat 9), Point.mk (Int.ofNat 3) (Int.ofNat 9),
    Point.mk (Int.ofNat 4) (Int.ofNat 9), Point.mk (Int.ofNat 5) (Int.ofNat 9), Point.mk (Int.ofNat 5) (Int.ofNat 8),
    Point.mk (Int.ofNat 5) (Int.ofNat 7), Point.mk (Int.ofNat 4) (Int.ofNat 7), Point.mk (Int.ofNat 3) (Int.ofNat 7),
    Point.mk (Int.ofNat 3) (Int.ofNat 6), Point.mk (Int.ofNat 18) (Int.ofNat 19), Point.mk (Int.ofNat 17) (Int.ofNat 19),
    Point.mk (Int.ofNat 17) (Int.ofNat 20), Point.mk (Int.ofNat 17) (Int.ofNat 21), Point.mk (Int.ofNat 16) (Int.ofNat 21),
    Point.mk (Int.ofNat 15) (Int.ofNat 21), Point.mk (Int.ofNat 15) (Int.ofNat 20), Point.mk (Int.ofNat 15) (Int.ofNat 19),
    Point.mk (Int.ofNat 14) (Int.ofNat 19), Point.mk (Int.ofNat 13) (Int.ofNat 19), Point.mk (Int.ofNat 13) (Int.ofNat 18),
    Point.mk (Int.ofNat 13) (Int.ofNat 17), Point.mk (Int.ofNat 12) (Int.ofNat 17), Point.mk (Int.ofNat 11) (Int.ofNat 17),
    Point.mk (Int.ofNat 11) (Int.ofNat 16), Point.mk (Int.ofNat 11) (Int.ofNat 15), Point.mk (Int.ofNat 12) (Int.ofNat 15),
    Point.mk (Int.ofNat 13) (Int.ofNat 15), Point.mk (Int.ofNat 13) (Int.ofNat 14), Point.mk (Int.ofNat 20) (Int.ofNat 11),
    Point.mk (Int.ofNat 19) (Int.ofNat 11), Point.mk (Int.ofNat 18) (Int.ofNat 11), Point.mk (Int.ofNat 17) (Int.ofNat 11),
    Point.mk (Int.ofNat 17) (Int.ofNat 12), Point.mk (Int.ofNat 17) (Int.ofNat 13), Point.mk (Int.ofNat 17) (Int.ofNat 14),
    Point.mk (Int.ofNat 17) (Int.ofNat 15), Point.mk (Int.ofNat 17) (Int.ofNat 16), Point.mk (Int.ofNat 17) (Int.ofNat 17),
    Point.mk (Int.ofNat 16) (Int.ofNat 17), Point.mk (Int.ofNat 15) (Int.ofNat 17), Point.mk (Int.ofNat 15) (Int.ofNat 16),
    Point.mk (Int.ofNat 15) (Int.ofNat 15), Point.mk (Int.ofNat 15) (Int.ofNat 14), Point.mk (Int.ofNat 15) (Int.ofNat 13),
    Point.mk (Int.ofNat 14) (Int.ofNat 13), Point.mk (Int.ofNat 13) (Int.ofNat 13), Point.mk (Int.ofNat 13) (Int.ofNat 12),
    Point.mk (Int.ofNat 13) (Int.ofNat 11), Point.mk (Int.ofNat 12) (Int.ofNat 11), Point.mk (Int.ofNat 11) (Int.ofNat 11),
    Point.mk (Int.ofNat 11) (Int.ofNat 10), Point.mk (Int.ofNat 11) (Int.ofNat 9), Point.mk (Int.ofNat 12) (Int.ofNat 9),
    Point.mk (Int.ofNat 13) (Int.ofNat 9), Point.mk (Int.ofNat 14) (Int.ofNat 9), Point.mk (Int.ofNat 15) (Int.ofNat 9),
    Point.mk (Int.ofNat 16) (Int.ofNat 9), Point.mk (Int.ofNat 17) (Int.ofNat 9), Point.mk (Int.ofNat 17) (Int.ofNat 8),
    Point.mk (Int.ofNat 17) (Int.ofNat 7), Point.mk (Int.ofNat 16) (Int.ofNat 7), Point.mk (Int.ofNat 15) (Int.ofNat 7),
    Point.mk (Int.ofNat 14) (Int.ofNat 7), Point.mk (Int.ofNat 13) (Int.ofNat 7), Point.mk (Int.ofNat 12) (Int.ofNat 7),
    Point.mk (Int.ofNat 11) (Int.ofNat 7), Point.mk (Int.ofNat 11) (Int.ofNat 6), Point.mk (Int.ofNat 11) (Int.ofNat 5),
    Point.mk (Int.ofNat 11) (Int.ofNat 4), Point.mk (Int.ofNat 21) (Int.ofNat 22), Point.mk (Int.ofNat 21) (Int.ofNat 21),
    Point.mk (Int.ofNat 20) (Int.ofNat 21), Point.mk (Int.ofNat 19) (Int.ofNat 21), Point.mk (Int.ofNat 19) (Int.ofNat 20),
    Point.mk (Int.ofNat 19) (Int.ofNat 19), Point.mk (Int.ofNat 19) (Int.ofNat 18), Point.mk (Int.ofNat 19) (Int.ofNat 17),
    Point.mk (Int.ofNat 19) (Int.ofNat 16), Point.mk (Int.ofNat 19) (Int.ofNat 15), Point.mk (Int.ofNat 20) (Int.ofNat 15),
    Point.mk (Int.ofNat 21) (Int.ofNat 15), Point.mk (Int.ofNat 21) (Int.ofNat 14), Point.mk (Int.ofNat 21) (Int.ofNat 13),
    Point.mk (Int.ofNat 21) (Int.ofNat 12), Point.mk (Int.ofNat 21) (Int.ofNat 11), Point.mk (Int.ofNat 21) (Int.ofNat 10),
    Point.mk (Int.ofNat 21) (Int.ofNat 9), Point.mk (Int.ofNat 20) (Int.ofNat 9), Point.mk (Int.ofNat 19) (Int.ofNat 9),
    Point.mk (Int.ofNat 19) (Int.ofNat 8), Point.mk (Int.ofNat 19) (Int.ofNat 7), Point.mk (Int.ofNat 20) (Int.ofNat 7),
    Point.mk (Int.ofNat 21) (Int.ofNat 7), Point.mk (Int.ofNat 21) (Int.ofNat 6), Point.mk (Int.ofNat 21) (Int.ofNat 5),
    Point.mk (Int.ofNat 20) (Int.ofNat 5), Point.mk (Int.ofNat 19) (Int.ofNat 5), Point.mk (Int.ofNat 19) (Int.ofNat 4),
    Point.mk (Int.ofNat 19) (Int.ofNat 3), Point.mk (Int.ofNat 19) (Int.ofNat 2), Point.mk (Int.ofNat 19) (Int.ofNat 1),
    Point.mk (Int.ofNat 18) (Int.ofNat 1), Point.mk (Int.ofNat 17) (Int.ofNat 1), Point.mk (Int.ofNat 17) (Int.ofNat 2),
    Point.mk (Int.ofNat 17) (Int.ofNat 3), Point.mk (Int.ofNat 17) (Int.ofNat 4), Point.mk (Int.ofNat 17) (Int.ofNat 5),
    Point.mk (Int.ofNat 16) (Int.ofNat 5), Point.mk (Int.ofNat 15) (Int.ofNat 5), Point.mk (Int.ofNat 14) (Int.ofNat 5),
    Point.mk (Int.ofNat 13) (Int.ofNat 5), Point.mk (Int.ofNat 13) (Int.ofNat 4), Point.mk (Int.ofNat 13) (Int.ofNat 3),
    Point.mk (Int.ofNat 12) (Int.ofNat 3), Point.mk (Int.ofNat 11) (Int.ofNat 3), Point.mk (Int.ofNat 10) (Int.ofNat 3),
    Point.mk (Int.ofNat 9) (Int.ofNat 3), Point.mk (Int.ofNat 9) (Int.ofNat 4), Point.mk (Int.ofNat 9) (Int.ofNat 5),
    Point.mk (Int.ofNat 9) (Int.ofNat 6), Point.mk (Int.ofNat 9) (Int.ofNat 7), Point.mk (Int.ofNat 9) (Int.ofNat 8),
    Point.mk (Int.ofNat 9) (Int.ofNat 9), Point.mk (Int.ofNat 9) (Int.ofNat 10), Point.mk (Int.ofNat 9) (Int.ofNat 11),
    Point.mk (Int.ofNat 8) (Int.ofNat 11), Point.mk (Int.ofNat 7) (Int.ofNat 11), Point.mk (Int.ofNat 7) (Int.ofNat 10),
    Point.mk (Int.ofNat 7) (Int.ofNat 9), Point.mk (Int.ofNat 7) (Int.ofNat 8), Point.mk (Int.ofNat 7) (Int.ofNat 7),
    Point.mk (Int.ofNat 7) (Int.ofNat 6), Point.mk (Int.ofNat 7) (Int.ofNat 5), Point.mk (Int.ofNat 6) (Int.ofNat 5),
    Point.mk (Int.ofNat 5) (Int.ofNat 5), Point.mk (Int.ofNat 4) (Int.ofNat 5), Point.mk (Int.ofNat 3) (Int.ofNat 5),
    Point.mk (Int.ofNat 3) (Int.ofNat 4), Point.mk (Int.ofNat 3) (Int.ofNat 3), Point.mk (Int.ofNat 4) (Int.ofNat 3),
    Point.mk (Int.ofNat 5) (Int.ofNat 3), Point.mk (Int.ofNat 6) (Int.ofNat 3), Point.mk (Int.ofNat 7) (Int.ofNat 3),
    Point.mk (Int.ofNat 7) (Int.ofNat 2), Point.mk (Int.ofNat 7) (Int.ofNat 1), Point.mk (Int.ofNat 6) (Int.ofNat 1),
    Point.mk (Int.ofNat 5) (Int.ofNat 1), Point.mk (Int.ofNat 4) (Int.ofNat 1), Point.mk (Int.ofNat 3) (Int.ofNat 1),
    Point.mk (Int.ofNat 2) (Int.ofNat 1), Point.mk (Int.ofNat 1) (Int.ofNat 1), Point.mk (Int.ofNat 1) (Int.ofNat 0)],
   samplePath)

end Snow

namespace Snow

/-! ## The DFS loop invariant -/

theorem OkPath.mono {g : SnowIsland} {s : Point} {visited visited' : List Point}
    {p : List Point} (h : OkPath g s visited p)
    (hsub : ∀ v ∈ visited, v ∈ visited') : OkPath g s visited' p :=
  ⟨h.1, h.2.1, h.2.2.1, h.2.2.2.1, fun v hv => hsub v (h.2.2.2.2 v hv)⟩

theorem mem_foldl_push {α β : Type} (f : β → List α) (l : List β)
    (init : List (List α)) (x : List α) :
    x ∈ l.foldl (fun st n => f n :: st) init ↔ x ∈ init ∨ ∃ n ∈ l, x = f n := by
  induction l generalizing init with
  | nil => simp
  | cons a t ih =>
    rw [List.foldl_cons, ih]
    simp only [List.mem_cons, List.mem_cons]
    constructor
    · rintro ((h | h) | ⟨n, hn, rfl⟩)
      · exact Or.inr ⟨a, Or.inl rfl, h⟩
      · exact Or.inl h
      · exact Or.inr ⟨n, Or.inr hn, rfl⟩
    · rintro (h | ⟨n, (rfl | hn), rfl⟩)
      · exact Or.inl (Or.inr h)
      · exact Or.inl (Or.inl rfl)
      · exact Or.inr ⟨n, hn, rfl⟩

theorem dfsLoop_good (g : SnowIsland) (s goal : Point) :
    ∀ (fuel : Nat) (stack : List (List Point)) (visited best : List Point),
      (∀ p ∈ stack, OkPath g s visited p) → GoodBest g s goal best →
      GoodBest g s goal (dfsLoop g goal fuel stack visited best) := by
  intro fuel
  induction fuel with
  | zero => intro stack visited best _ hb; exact hb
  | succ fuel ih =>
    intro stack visited best hs hb
    match stack with
    | [] => exact hb
    | path :: rest =>
      obtain ⟨hne, hhead, hchain, hndl, hsub⟩ := hs path (List.mem_cons_self _ _)
      cases hL : path.getLast? with
      | none =>
        simp only [dfsLoop, hL]
        exact hb
      | some current =>
        by_cases hv : current ∈ visited
        · have hred : dfsLoop g goal (fuel + 1) (path :: rest) visited best
              = dfsLoop g goal fuel rest visited best := by
            simp [dfsLoop, hL, hv]
          rw [hred]
          exact ih rest visited best (fun p hp => hs p (List.mem_cons_of_mem _ hp)) hb
        · have hset : path.dropLast ++ [current] = path :=
            List.dropLast_append_getLast? current (Option.mem_def.2 hL)
          have hcurNotDrop : current ∉ path.dropLast := fun hmem => hv (hsub _ hmem)
          have hnodup : path.Nodup := by
            rw [← hset, List.nodup_append]
            exact ⟨hndl, List.nodup_singleton _, List.disjoint_singleton.2 hcurNotDrop⟩
          have hred : dfsLoop g goal (fuel + 1) (path :: rest) visited best
              = dfsLoop g goal fuel
                  ((g.valid_neighbors current).foldl (fun st n => (path ++ [n]) :: st) rest)
                  (current :: visited)
                  (if current = goal ∧ best.length < path.length then path else best) := by
            simp [dfsLoop, hL, hv]
          rw [hred]
          apply ih
          · intro p hp
            rw [mem_foldl_push] at hp
            rcases hp with hp | ⟨n, hn, rfl⟩
            · exact (hs p (List.mem_cons_of_mem _ hp)).mono
                fun v hv' => List.mem_cons_of_mem _ hv'
            · refine ⟨by simp, ?_, ?_, ?_, ?_⟩
              · rw [List.head?_append_of_ne_nil _ hne]; exact hhead
              · rw [List.chain'_append]
                refine ⟨hchain, List.chain'_singleton _, ?_⟩
                intro x hx y hy
                rw [hL] at hx
                simp only [Option.mem_def, Option.some.injEq] at hx
                simp only [List.head?_cons, Option.mem_def, Option.some.injEq] at hy
                subst hx; subst hy
                exact hn
              · rw [List.dropLast_concat]; exact hnodup
              · rw [List.dropLast_concat]
                intro v hvp
                rw [← hset] at hvp
                rcases List.mem_append.mp hvp with h1 | h2
                · exact List.mem_cons_of_mem _ (hsub _ h1)
                · rw [List.mem_singleton] at h2
                  subst h2
                  exact List.mem_cons_self _ _
          · by_cases hcond : current = goal ∧ best.length < path.length
            · rw [if_pos hcond]
              exact Or.inr ⟨hhead, hchain, hnodup, by rw [hL, hcond.1]⟩
            · rw [if_neg hcond]
              exact hb

theorem dfs_good (g : SnowIsland) (s goal : Point) :
    g.dfs s goal = [] ∨
      ((g.dfs s goal).head? = some s ∧ List.Chain' (StepRel g) (g.dfs s goal) ∧
        (g.dfs s goal).Nodup ∧ (g.dfs s goal).getLast? = some goal) := by
  have h := dfsLoop_good g s goal (4 * g.grid.length + 8) [[s]] [] []
    (by
      intro p hp
      rw [List.mem_singleton] at hp
      subst hp
      exact ⟨by simp, by simp, List.chain'_singleton _, by simp, by simp⟩)
    (Or.inl rfl)
  exact h

/-- Helper shared by several claims: when the search returns a nonempty best
path, `longest_path` is its vertex count minus one (the dedup is a no-op
because the best path has no duplicates). -/
theorem longest_path_eq_of_found (g : SnowIsland)
    (h : g.dfs startPoint g.goalPoint ≠ []) :
    g.longest_path = some ((g.dfs startPoint g.goalPoint).length - 1) := by
  rcases dfs_good g startPoint g.goalPoint with he | ⟨_, _, hnd, _⟩
  · exact absurd he h
  · unfold SnowIsland.longest_path usize_sub
    rw [List.dedup_eq_self.mpr hnd]
    have hlen : 0 < (g.dfs startPoint g.goalPoint).length := List.length_pos.mpr h
    rw [if_pos (by omega)]

/-! ## Claims about the search -/

/-- C4 (amended): when the goal is unreachable the best path stays empty, so
`longest_path` computes `0 - 1` on `usize`, which underflows — modelled as
`none` (a panic in a debug build) — rather than reporting a distinct
`GoalUnreachableError` as the spec describes. -/
theorem longest_path_unreachable_underflows (g : SnowIsland)
    (h : g.dfs startPoint g.goalPoint = []) : g.longest_path = none := by
  unfold SnowIsland.longest_path usize_sub
  rw [h]
  simp

/-- C4 (counterexample): on the 5×3 grid whose goal is fully enclosed by
`Forest` tiles, `longest_path` hits the `usize` underflow (modelled `none`):
the code crashes instead of yielding the reported unreachable condition the
claim describes. -/
theorem longest_path_enclosed_crashes :
    (fromStr enclosedText).map SnowIsland.longest_path = .ok none := by decide

/-- C4 (witness): the amended theorem applied to the enclosed grid. -/
theorem longest_path_unreachable_underflows_witness :
    enclosedIsland.longest_path = none :=
  longest_path_unreachable_underflows enclosedIsland (by decide)

/-- C7: when the search finds the goal (its best path is nonempty),
`longest_path` returns the number of vertices of that best path minus one:
the start vertex is not counted as a step. -/
theorem longest_path_counts_best_minus_one (g : SnowIsland)
    (h : g.dfs startPoint g.goalPoint ≠ []) :
    g.longest_path = some ((g.dfs startPoint g.goalPoint).length - 1) :=
  longest_path_eq_of_found g h

/-- C7 (witness): the corridor grid, where the best path has 3 vertices and
`longest_path` returns 2. -/
theorem longest_path_counts_best_minus_one_witness :
    corridorIsland.longest_path =
      some ((corridorIsland.dfs startPoint corridorIsland.goalPoint).length - 1) :=
  longest_path_counts_best_minus_one corridorIsland (by decide)

/-- C10: the best path the search returns (when nonempty) begins at the
start vertex, steps only through `valid_neighbors`, and repeats no vertex;
consequently collecting it into a set preserves its size, and
`longest_path`'s count is its vertex count minus one. -/
theorem dfs_best_path_invariant (g : SnowIsland)
    (h : g.dfs startPoint g.goalPoint ≠ []) :
    (g.dfs startPoint g.goalPoint).head? = some startPoint ∧
      List.Chain' (fun a b => b ∈ g.valid_neighbors a) (g.dfs startPoint g.goalPoint) ∧
      (g.dfs startPoint g.goalPoint).Nodup ∧
      ((g.dfs startPoint g.goalPoint).dedup).length = (g.dfs startPoint g.goalPoint).length ∧
      g.longest_path = some ((g.dfs startPoint g.goalPoint).length - 1) := by
  rcases dfs_good g startPoint g.goalPoint with he | ⟨hh, hc, hnd, _⟩
  · exact absurd he h
  · exact ⟨hh, hc, hnd, by rw [List.dedup_eq_self.mpr hnd],
      longest_path_eq_of_found g h⟩

/-- C10 (witness): the invariant instantiated on the corridor grid. -/
theorem dfs_best_path_invariant_witness :
    (corridorIsland.dfs startPoint corridorIsland.goalPoint).head? = some startPoint ∧
      List.Chain' (fun a b => b ∈ corridorIsland.valid_neighbors a)
        (corridorIsland.dfs startPoint corridorIsland.goalPoint) ∧
      (corridorIsland.dfs startPoint corridorIsland.goalPoint).Nodup ∧
      ((corridorIsland.dfs startPoint corridorIsland.goalPoint).dedup).length
        = (corridorIsland.dfs startPoint corridorIsland.goalPoint).length ∧
      corridorIsland.longest_path =
        some ((corridorIsland.dfs startPoint corridorIsland.goalPoint).length - 1) :=
  dfs_best_path_invariant corridorIsland (by decide)

/-- C9: when the search finds the goal and returns the step count `r`, `r`
is at least the least step count over all slope-respecting walks from start
to goal ("longest ≥ shortest over the same directed-edge rules"), because
the returned best path is itself such a walk. -/
theorem longest_path_ge_shortest (g : SnowIsland) (r : Nat)
    (hfound : g.dfs startPoint g.goalPoint ≠ [])
    (hres : g.longest_path = some r) :
    sInf (hikeLengths g) ≤ r := by
  rcases dfs_good g startPoint g.goalPoint with he | ⟨hh, hc, _, hl⟩
  · exact absurd he hfound
  · have hmem : (g.dfs startPoint g.goalPoint).length - 1 ∈ hikeLengths g :=
      ⟨g.dfs startPoint g.goalPoint, ⟨hh, hc, hl⟩, rfl⟩
    have hr : r = (g.dfs startPoint g.goalPoint).length - 1 := by
      have := longest_path_eq_of_found g hfound
      rw [hres] at this
      exact (Option.some.injEq _ _ ▸ this : _)
    rw [hr]
    exact Nat.sInf_le hmem

/-- C9 (witness): the bound instantiated on the corridor grid (`r = 2`). -/
theorem longest_path_ge_shortest_witness :
    sInf (hikeLengths corridorIsland) ≤ 2 :=
  longest_path_ge_shortest corridorIsland 2 (by decide) (by decide)

/-- C5: `valid_neighbors` returns exactly those of the four axis-aligned
neighbours (no diagonals, no wraparound) that exist in the grid and are
either open (`Path`) or a slope entered by moving in its direction; `Forest`
neighbours and coordinates absent from the grid are never returned. -/
theorem valid_neighbors_characterization (g : SnowIsland) (p q : Point) :
    q ∈ g.valid_neighbors p ↔
      q ∈ p.neighbors ∧
        (g.tileAt q = some .Path ∨
          (g.tileAt q = some (.Slope .Right) ∧ q = ⟨p.x + 1, p.y⟩) ∨
          (g.tileAt q = some (.Slope .Left) ∧ q = ⟨p.x - 1, p.y⟩) ∨
          (g.tileAt q = some (.Slope .Down) ∧ q = ⟨p.x, p.y + 1⟩) ∨
          (g.tileAt q = some (.Slope .Up) ∧ q = ⟨p.x, p.y - 1⟩)) := by
  unfold SnowIsland.valid_neighbors
  rw [List.mem_filter]
  apply and_congr_right
  intro hmem
  obtain ⟨qx, qy⟩ := q
  obtain ⟨px, py⟩ := p
  simp only [Point.neighbors, List.mem_cons, List.not_mem_nil, or_false,
    Point.mk.injEq] at hmem
  cases htile : g.tileAt ⟨qx, qy⟩ with
  | none => simp [canMoveTo, htile]
  | some t =>
    cases t with
    | Path => simp [canMoveTo, htile]
    | Forest => simp [canMoveTo, htile]
    | Slope d =>
      cases d <;>
        · simp only [canMoveTo, htile, decide_eq_true_iff, Option.some.injEq,
            Tile.Slope.injEq, and_true, true_and, Point.mk.injEq, false_or,
            or_false, false_and, reduceCtorEq]
          omega

/-! ## Parsing lemmas -/

theorem parseTile_ok_of_mem {c : Char} (hc : c ∈ tileChars) :
    parseTile c = .ok (forceTile c) := by
  fin_cases hc <;> rfl

theorem parseTile_error_of_not_mem {c : Char} (hc : c ∉ tileChars) :
    parseTile c = .error (invalidTileMsg c) := by
  unfold parseTile
  split
  · exact absurd (by simp [tileChars]) hc
  · exact absurd (by simp [tileChars]) hc
  · exact absurd (by simp [tileChars]) hc
  · exact absurd (by simp [tileChars]) hc
  · exact absurd (by simp [tileChars]) hc
  · exact absurd (by simp [tileChars]) hc
  · rfl

theorem mem_enumFrom_of_mem {α : Type} {a : α} :
    ∀ {l : List α} (n : Nat), a ∈ l → ∃ i, (i, a) ∈ l.enumFrom n := by
  intro l
  induction l with
  | nil => intro n h; exact absurd h (List.not_mem_nil a)
  | cons b t ih =>
    intro n h
    rw [List.enumFrom_cons]
    rcases List.mem_cons.mp h with rfl | h
    · exact ⟨n, List.mem_cons_self _ _⟩
    · obtain ⟨i, hi⟩ := ih (n + 1) h
      exact ⟨i, List.mem_cons_of_mem _ hi⟩

theorem mem_of_mem_enumFrom {α : Type} {a : α} {i : Nat} :
    ∀ {l : List α} (n : Nat), (i, a) ∈ l.enumFrom n → a ∈ l := by
  intro l
  induction l with
  | nil => intro n h; exact absurd h (List.not_mem_nil _)
  | cons b t ih =>
    intro n h
    rw [List.enumFrom_cons] at h
    rcases List.mem_cons.mp h with heq | h
    · rw [Prod.mk.injEq] at heq
      exact heq.2 ▸ List.mem_cons_self _ _
    · exact List.mem_cons_of_mem _ (ih (n + 1) h)

theorem mem_cellsOf_iff {s : List Char} {c : Char} :
    (∃ p, (p, c) ∈ cellsOf s) ↔ ∃ l ∈ lines s, c ∈ l := by
  constructor
  · rintro ⟨p, hp⟩
    unfold cellsOf at hp
    rw [List.enum_eq_enumFrom, List.mem_flatMap] at hp
    obtain ⟨yl, hyl, hin⟩ := hp
    rw [List.mem_map] at hin
    obtain ⟨xc, hxc, heq⟩ := hin
    rw [Prod.mk.injEq] at heq
    exact ⟨yl.2, mem_of_mem_enumFrom 0 hyl, heq.2 ▸ mem_of_mem_enumFrom 0 hxc⟩
  · rintro ⟨l, hl, hc⟩
    obtain ⟨y, hy⟩ := mem_enumFrom_of_mem 0 hl
    obtain ⟨x, hx⟩ := mem_enumFrom_of_mem 0 hc
    refine ⟨⟨(x : Int), (y : Int)⟩, ?_⟩
    unfold cellsOf
    rw [List.enum_eq_enumFrom, List.mem_flatMap]
    exact ⟨(y, l), hy, List.mem_map.mpr ⟨(x, c), hx, rfl⟩⟩

theorem collectTiles_error_of_bad :
    ∀ (cells : List (Point × Char)), (∃ pc ∈ cells, pc.2 ∉ tileChars) →
      ∃ c, (∃ p, (p, c) ∈ cells) ∧ c ∉ tileChars ∧
        collectTiles cells = .error (invalidTileMsg c) := by
  intro cells
  induction cells with
  | nil => rintro ⟨pc, hpc, _⟩; exact absurd hpc (List.not_mem_nil _)
  | cons pc rest ih =>
    rintro ⟨bad, hbad, hbadc⟩
    obtain ⟨p, c⟩ := pc
    by_cases hc : c ∈ tileChars
    · have hok := parseTile_ok_of_mem hc
      have hrest : ∃ pc ∈ rest, pc.2 ∉ tileChars := by
        rcases List.mem_cons.mp hbad with rfl | hmem
        · exact absurd hc hbadc
        · exact ⟨bad, hmem, hbadc⟩
      obtain ⟨c', hmem', hbad', herr'⟩ := ih hrest
      refine ⟨c', ?_, hbad', ?_⟩
      · obtain ⟨p', hp'⟩ := hmem'
        exact ⟨p', List.mem_cons_of_mem _ hp'⟩
      · show collectTiles ((p, c) :: rest) = _
        unfold collectTiles
        rw [hok, herr']
    · refine ⟨c, ⟨p, List.mem_cons_self _ _⟩, hc, ?_⟩
      show collectTiles ((p, c) :: rest) = _
      unfold collectTiles
      rw [parseTile_error_of_not_mem hc]

theorem fromStr_error_of_collect_error {s : List Char} {e : List Char}
    (h : collectTiles (cellsOf s) = .error e) : fromStr s = .error e := by
  unfold fromStr
  rw [h]

/-- C3: an input with a character outside the tile alphabet (in some line,
line terminators excluded) parses to an error carrying an offending
character; no grid — not even a partial one — is returned, since the
`Except` error constructor carries only the message. -/
theorem fromStr_invalid_char_error (s : List Char)
    (h : ∃ l ∈ lines s, ∃ c ∈ l, c ∉ tileChars) :
    ∃ c, (∃ l ∈ lines s, c ∈ l) ∧ c ∉ tileChars ∧
      fromStr s = .error (invalidTileMsg c) := by
  obtain ⟨l, hl, c, hc, hbad⟩ := h
  obtain ⟨p, hp⟩ := mem_cellsOf_iff.mpr ⟨l, hl, hc⟩
  obtain ⟨c', hmem', hbad', herr'⟩ :=
    collectTiles_error_of_bad (cellsOf s) ⟨(p, c), hp, hbad⟩
  exact ⟨c', mem_cellsOf_iff.mp hmem', hbad',
    fromStr_error_of_collect_error herr'⟩

/-- C3 (witness): the input `"#a#"` contains the invalid character `'a'`. -/
theorem fromStr_invalid_char_error_witness :
    ∃ c, (∃ l ∈ lines ("#a#").data, c ∈ l) ∧ c ∉ tileChars ∧
      fromStr ("#a#").data = .error (invalidTileMsg c) :=
  fromStr_invalid_char_error ("#a#").data (by decide)

/-! ## Height and width of a parsed grid -/

theorem foldl_height (ls : List (List Char)) :
    ∀ (n : Nat) (a : Int), (n : Int) ≤ a →
      (ls.enumFrom n).foldl (fun h yl => max h ((yl.1 : Int) + 1)) a
        = max a ((n : Int) + ls.length) := by
  induction ls with
  | nil => intro n a ha; simp [max_eq_left ha]
  | cons l t ih =>
    intro n a ha
    rw [List.enumFrom_cons, List.foldl_cons,
      ih (n + 1) (max a ((n : Int) + 1)) (by push_cast; omega)]
    rw [List.length_cons]
    push_cast
    omega

theorem foldl_width (ls : List (List Char)) :
    ∀ (a : Int), 0 ≤ a →
      ls.foldl (fun w l => max w (l.length : Int)) a
        = max a ((ls.map fun l => (l.length : Int)).foldr max 0) := by
  induction ls with
  | nil => intro a ha; simp [max_eq_left ha]
  | cons l t ih =>
    intro a ha
    rw [List.foldl_cons, ih (max a (l.length : Int)) (le_trans ha (le_max_left _ _)),
      List.map_cons, List.foldr_cons, max_assoc]

theorem foldr_max_nonneg (ls : List (List Char)) :
    (0 : Int) ≤ (ls.map fun l => (l.length : Int)).foldr max 0 := by
  induction ls with
  | nil => simp
  | cons l t ih => exact le_trans ih (by rw [List.map_cons, List.foldr_cons]; exact le_max_right _ _)

theorem le_foldr_max {ls : List (List Char)} {l : List Char} (hl : l ∈ ls) :
    (l.length : Int) ≤ (ls.map fun l => (l.length : Int)).foldr max 0 := by
  induction ls with
  | nil => exact absurd hl (List.not_mem_nil _)
  | cons a t ih =>
    rw [List.map_cons, List.foldr_cons]
    rcases List.mem_cons.mp hl with rfl | hl
    · exact le_max_left _ _
    · exact le_trans (ih hl) (le_max_right _ _)

theorem fromStr_ok_parts {s : List Char} {g : SnowIsland} (h : fromStr s = .ok g) :
    ∃ grid, collectTiles (cellsOf s) = .ok grid ∧
      g = ⟨grid,
        (lines s).enum.foldl (fun h yl => max h ((yl.1 : Int) + 1)) 0,
        (lines s).foldl (fun w l => max w (l.length : Int)) 0⟩ := by
  unfold fromStr at h
  split at h
  · exact absurd h (by simp)
  · next grid hc =>
    refine ⟨grid, hc, ?_⟩
    injection h with h2
    exact h2.symm

/-- C6: a successfully parsed grid's height is the number of lines of the
input and its width the maximum line length over all lines. -/
theorem fromStr_height_width (s : List Char) (g : SnowIsland)
    (h : fromStr s = .ok g) :
    g.height = ((lines s).length : Int) ∧
      g.width = ((lines s).map fun l => (l.length : Int)).foldr max 0 := by
  obtain ⟨grid, hc, rfl⟩ := fromStr_ok_parts h
  constructor
  · show (lines s).enum.foldl _ 0 = _
    rw [List.enum_eq_enumFrom, foldl_height (lines s) 0 0 (by norm_num)]
    push_cast
    omega
  · show (lines s).foldl _ 0 = _
    rw [foldl_width (lines s) 0 le_rfl]
    have h0 := foldr_max_nonneg (lines s)
    omega

/-- C6 (witness): the corridor grid has 3 lines of length 3. -/
theorem fromStr_height_width_witness :
    corridorIsland.height = ((lines corridorText).length : Int) ∧
      corridorIsland.width
        = ((lines corridorText).map fun l => (l.length : Int)).foldr max 0 :=
  fromStr_height_width corridorText corridorIsland (by decide)

/-! ## Grid lookup after a successful parse -/

theorem lookup_cons_self {β : Type} (k : Point) (v : β) (es : List (Point × β)) :
    List.lookup k ((k, v) :: es) = some v := by
  simp [List.lookup_cons]

theorem lookup_cons_ne {β : Type} {a k : Point} (v : β) (es : List (Point × β))
    (h : a ≠ k) : List.lookup a ((k, v) :: es) = List.lookup a es := by
  rw [List.lookup_cons, show (a == k) = false from beq_eq_false_iff_ne.mpr h]

theorem lookup_append_some {β : Type} {a : Point} {l₁ l₂ : List (Point × β)} {v : β}
    (h : List.lookup a l₁ = some v) : List.lookup a (l₁ ++ l₂) = some v := by
  induction l₁ with
  | nil => rw [List.lookup_nil] at h; exact absurd h (by simp)
  | cons kv t ih =>
    obtain ⟨k, b⟩ := kv
    rw [List.cons_append]
    by_cases hak : a = k
    · subst hak
      rw [lookup_cons_self] at h ⊢
      exact h
    · rw [lookup_cons_ne _ _ hak] at h ⊢
      exact ih h

theorem lookup_append_none {β : Type} {a : Point} {l₁ l₂ : List (Point × β)}
    (h : List.lookup a l₁ = none) :
    List.lookup a (l₁ ++ l₂) = List.lookup a l₂ := by
  induction l₁ with
  | nil => rfl
  | cons kv t ih =>
    obtain ⟨k, b⟩ := kv
    rw [List.cons_append]
    by_cases hak : a = k
    · subst hak
      rw [lookup_cons_self] at h
      exact absurd h (by simp)
    · rw [lookup_cons_ne _ _ hak] at h ⊢
      exact ih h

theorem lookup_rowEntries_hit (y : Int) :
    ∀ (row : List Char) (k j : Nat), j < row.length →
      List.lookup (⟨((k + j : Nat) : Int), y⟩ : Point) (rowEntries row k y)
        = some (forceTile (row.getD j '.')) := by
  intro row
  induction row with
  | nil => intro k j hj; exact absurd hj (by simp)
  | cons c t ih =>
    intro k j hj
    unfold rowEntries
    rw [List.enumFrom_cons, List.map_cons]
    cases j with
    | zero =>
      rw [Nat.add_zero, List.getD_cons_zero]
      exact lookup_cons_self _ _ _
    | succ j' =>
      rw [lookup_cons_ne _ _ (by
        intro heq
        rw [Point.mk.injEq] at heq
        have := heq.1
        omega)]
      rw [List.getD_cons_succ, show (k + (j' + 1)) = ((k + 1) + j') from by omega]
      exact ih (k + 1) j' (by simpa using hj)

theorem lookup_rowEntries_missy {q : Point} {y : Int} (hq : q.y ≠ y) :
    ∀ (row : List Char) (k : Nat), List.lookup q (rowEntries row k y) = none := by
  intro row
  induction row with
  | nil => intro k; rfl
  | cons c t ih =>
    intro k
    unfold rowEntries
    rw [List.enumFrom_cons, List.map_cons]
    rw [lookup_cons_ne _ _ (by
      intro heq
      rw [heq] at hq
      exact hq rfl)]
    exact ih (k + 1)

theorem lookup_rowEntries_missx (y : Int) :
    ∀ (row : List Char) (k x : Nat), (x < k ∨ row.length + k ≤ x) →
      List.lookup (⟨(x : Int), y⟩ : Point) (rowEntries row k y) = none := by
  intro row
  induction row with
  | nil => intro k x _; rfl
  | cons c t ih =>
    intro k x hx
    unfold rowEntries
    rw [List.enumFrom_cons, List.map_cons]
    rw [lookup_cons_ne _ _ (by
      intro heq
      rw [Point.mk.injEq] at heq
      have := heq.1
      rw [List.length_cons] at hx
      omega)]
    refine ih (k + 1) x ?_
    rw [List.length_cons] at hx
    omega

theorem gridRows_cons (r : List Char) (rows : List (List Char)) (m : Nat) :
    gridRows (r :: rows) m = rowEntries r 0 (m : Int) ++ gridRows rows (m + 1) := by
  unfold gridRows rowEntries
  rw [List.enumFrom_cons, List.flatMap_cons, List.enum_eq_enumFrom]

theorem lookup_gridRows_ymiss {q : Point} :
    ∀ (rows : List (List Char)) (m : Nat), q.y < (m : Int) →
      List.lookup q (gridRows rows m) = none := by
  intro rows
  induction rows with
  | nil => intro m _; rfl
  | cons r t ih =>
    intro m hm
    rw [gridRows_cons,
      lookup_append_none (lookup_rowEntries_missy (by omega) r 0)]
    exact ih (m + 1) (by push_cast; omega)

theorem lookup_gridRows_hit :
    ∀ (rows : List (List Char)) (m y x : Nat), y < rows.length →
      x < (rows.getD y []).length →
      List.lookup (⟨(x : Int), ((m + y : Nat) : Int)⟩ : Point) (gridRows rows m)
        = some (forceTile ((rows.getD y []).getD x '.')) := by
  intro rows
  induction rows with
  | nil => intro m y x hy; exact absurd hy (by simp)
  | cons r t ih =>
    intro m y x hy hx
    rw [gridRows_cons]
    cases y with
    | zero =>
      rw [List.getD_cons_zero] at hx ⊢
      have h := lookup_rowEntries_hit (m : Int) r 0 x hx
      rw [Nat.zero_add] at h
      rw [Nat.add_zero]
      exact lookup_append_some h
    | succ y' =>
      rw [lookup_append_none (lookup_rowEntries_missy (by push_cast; omega) r 0)]
      rw [List.getD_cons_succ] at hx ⊢
      rw [show (m + (y' + 1)) = ((m + 1) + y') from by omega]
      exact ih (m + 1) y' x (by simpa using hy) hx

theorem lookup_gridRows_missx :
    ∀ (rows : List (List Char)) (m y x : Nat), y < rows.length →
      (rows.getD y []).length ≤ x →
      List.lookup (⟨(x : Int), ((m + y : Nat) : Int)⟩ : Point) (gridRows rows m)
        = none := by
  intro rows
  induction rows with
  | nil => intro m y x hy; exact absurd hy (by simp)
  | cons r t ih =>
    intro m y x hy hx
    rw [gridRows_cons]
    cases y with
    | zero =>
      rw [List.getD_cons_zero] at hx
      rw [Nat.add_zero]
      rw [lookup_append_none (lookup_rowEntries_missx (m : Int) r 0 x (by omega))]
      exact lookup_gridRows_ymiss t (m + 1) (by push_cast; omega)
    | succ y' =>
      rw [lookup_append_none (lookup_rowEntries_missy (by push_cast; omega) r 0)]
      rw [List.getD_cons_succ] at hx
      rw [show (m + (y' + 1)) = ((m + 1) + y') from by omega]
      exact ih (m + 1) y' x (by simpa using hy) hx

theorem parseTile_ok_parts {c : Char} {t : Tile} (h : parseTile c = .ok t) :
    c ∈ tileChars ∧ forceTile c = t := by
  unfold parseTile at h
  split at h <;> first
    | (injection h with h2; exact ⟨by simp [tileChars], h2⟩)
    | exact absurd h (by simp)

theorem collectTiles_ok_map :
    ∀ (cells : List (Point × Char)) (r : List (Point × Tile)),
      collectTiles cells = .ok r →
      r = cells.map (fun pc => (pc.1, forceTile pc.2)) ∧
        ∀ pc ∈ cells, pc.2 ∈ tileChars := by
  intro cells
  induction cells with
  | nil =>
    intro r h
    unfold collectTiles at h
    injection h with h
    exact ⟨h.symm, by simp⟩
  | cons pc rest ih =>
    intro r h
    obtain ⟨p, c⟩ := pc
    unfold collectTiles at h
    cases hp : parseTile c with
    | error e => rw [hp] at h; exact absurd h (by simp)
    | ok t =>
      rw [hp] at h
      cases hr : collectTiles rest with
      | error e => rw [hr] at h; exact absurd h (by simp)
      | ok r' =>
        rw [hr] at h
        injection h with h
        obtain ⟨ih1, ih2⟩ := ih r' hr
        obtain ⟨hmem, hforce⟩ := parseTile_ok_parts hp
        subst h
        refine ⟨?_, ?_⟩
        · rw [List.map_cons, ih1, hforce]
        · intro pc hpc
          rcases List.mem_cons.mp hpc with rfl | hpc
          · exact hmem
          · exact ih2 pc hpc

theorem grid_eq_gridRows {s : List Char} {g : SnowIsland} (h : fromStr s = .ok g) :
    g.grid = gridRows (lines s) 0 ∧ ∀ pc ∈ cellsOf s, pc.2 ∈ tileChars := by
  obtain ⟨grid, hc, rfl⟩ := fromStr_ok_parts h
  obtain ⟨h1, h2⟩ := collectTiles_ok_map _ _ hc
  refine ⟨?_, h2⟩
  show grid = _
  rw [h1]
  unfold cellsOf gridRows
  rw [List.enum_eq_enumFrom, List.map_flatMap]
  simp only [List.map_map]
  rfl

theorem display_forceTile {c : Char} (hc : c ∈ tileChars) :
    (forceTile c).display = c := by
  fin_cases hc <;> rfl

theorem rowChars_eq {g : SnowIsland} {ls : List (List Char)}
    (hg : g.grid = gridRows ls 0) {y : Nat} (hy : y < ls.length) :
    ∀ (fuel i : Nat), (ls.getD y []).length ≤ i + fuel →
      rowChars g (y : Int) fuel (i : Int)
        = ((ls.getD y []).drop i).map fun c => (forceTile c).display := by
  intro fuel
  induction fuel with
  | zero =>
    intro i hle
    rw [List.drop_eq_nil_iff.mpr (by omega)]
    rfl
  | succ fuel ih =>
    intro i hle
    by_cases hi : i < (ls.getD y []).length
    · have hhit := lookup_gridRows_hit ls 0 y i hy hi
      rw [Nat.zero_add] at hhit
      have htile : g.tileAt ⟨(i : Int), (y : Int)⟩
          = some (forceTile ((ls.getD y []).getD i '.')) := by
        unfold SnowIsland.tileAt
        rw [hg]
        exact hhit
      rw [show rowChars g (y : Int) (fuel + 1) (i : Int)
          = (forceTile ((ls.getD y []).getD i '.')).display ::
              rowChars g (y : Int) fuel ((i : Int) + 1) from by
        simp [rowChars, htile]]
      rw [show ((i : Int) + 1) = ((i + 1 : Nat) : Int) from by push_cast; ring]
      rw [ih (i + 1) (by omega)]
      rw [List.drop_eq_getElem_cons hi, List.map_cons,
        List.getD_eq_getElem _ _ hi]
    · have hmiss := lookup_gridRows_missx ls 0 y i hy (by omega)
      rw [Nat.zero_add] at hmiss
      have htile : g.tileAt ⟨(i : Int), (y : Int)⟩ = none := by
        unfold SnowIsland.tileAt
        rw [hg]
        exact hmiss
      rw [show rowChars g (y : Int) (fuel + 1) (i : Int) = [] from by
        simp [rowChars, htile]]
      rw [List.drop_eq_nil_iff.mpr (by omega)]
      rfl

/-- C8 (amended): parsing a text and re-serializing every tile of the grid
via its display form, rows joined with `'\n'`, reproduces the parsed lines
joined with `'\n'` — which is the original text exactly when the original
has plain `'\n'` separators and no trailing line terminator; a trailing
newline (or `"\r\n"` endings) is not reproduced. -/
theorem serialize_roundtrip (s : List Char) (g : SnowIsland)
    (h : fromStr s = .ok g) :
    serialize g = List.intercalate ['\n'] (lines s) := by
  obtain ⟨hgrid, hvalidcells⟩ := grid_eq_gridRows h
  obtain ⟨hh, hw⟩ := fromStr_height_width s g h
  have hht : g.height.toNat = (lines s).length := by
    rw [hh]
    exact Int.toNat_natCast _
  have hw0 : (0 : Int) ≤ g.width := by
    rw [hw]
    exact foldr_max_nonneg _
  have hwn : ∀ l ∈ lines s, l.length ≤ g.width.toNat := by
    intro l hl
    have h1 := le_foldr_max hl
    rw [← hw] at h1
    exact (Int.le_toNat hw0).mpr h1
  have hrows : List.map (fun y : Nat => rowChars g (y : Int) g.width.toNat 0)
      (List.range (lines s).length) = lines s := by
    apply List.ext_getElem
    · simp
    · intro n h1 h2
      simp only [List.getElem_map, List.getElem_range]
      have hy : n < (lines s).length := by simpa using h2
      have hmemrow : (lines s).getD n [] ∈ lines s := by
        rw [List.getD_eq_getElem _ _ hy]
        exact List.getElem_mem hy
      have hrow := rowChars_eq hgrid hy g.width.toNat 0
        (by have := hwn _ hmemrow; omega)
      rw [show ((0 : Nat) : Int) = (0 : Int) from rfl] at hrow
      rw [hrow, List.drop_zero]
      have hval : ∀ c ∈ (lines s).getD n [], c ∈ tileChars := by
        intro c hc
        have : ∃ p, (p, c) ∈ cellsOf s :=
          mem_cellsOf_iff.mpr ⟨(lines s).getD n [], hmemrow, hc⟩
        obtain ⟨p, hp⟩ := this
        exact hvalidcells (p, c) hp
      rw [List.map_congr_left fun c hc => display_forceTile (hval c hc),
        List.map_id', List.getD_eq_getElem _ _ hy]
  unfold serialize
  rw [hht, hrows]

/-- C8 (counterexample): the input `".\n"` parses successfully, but
re-serialization yields `"."` — the trailing newline of the original text is
not reproduced, so the round-trip is not exact for every parsed input. -/
theorem serialize_roundtrip_cex :
    (fromStr dotNlText).map serialize ≠ .ok dotNlText := by decide

/-- C8 (witness): the amended round-trip on the corridor grid. -/
theorem serialize_roundtrip_witness :
    serialize corridorIsland = List.intercalate ['\n'] (lines corridorText) :=
  serialize_roundtrip corridorText corridorIsland (by decide)

/-! ## Evaluation of the entry points on the canonical sample grid -/

set_option maxRecDepth 100000 in
/-- C2: `longest_climbing_path` is an unimplemented stub: on the canonical
23-line sample grid it returns `0`, not the `154` that the spec and the
source's own `test_2_sample` expect. -/
theorem longest_climbing_path_sample_eval :
    (fromStr sampleText).map SnowIsland.longest_climbing_path = .ok 0 := by decide

theorem dfsStep_empty_fix (g : SnowIsland) (t : Point) (v b : List Point) :
    ∀ n : Nat, (dfsStep g t)^[n] ([], v, b) = ([], v, b) := by
  intro n
  induction n with
  | zero => rfl
  | succ n ih =>
    rw [Function.iterate_succ_apply,
      show dfsStep g t ([], v, b) = ([], v, b) from rfl, ih]

theorem dfsLoop_eq_iterate (g : SnowIsland) (goal : Point) :
    ∀ (fuel : Nat) (stack : List (List Point)) (visited best : List Point),
      dfsLoop g goal fuel stack visited best
        = ((dfsStep g goal)^[fuel] (stack, visited, best)).2.2 := by
  intro fuel
  induction fuel with
  | zero => intro stack visited best; rfl
  | succ fuel ih =>
    intro stack visited best
    rw [Function.iterate_succ_apply]
    match stack with
    | [] =>
      rw [show dfsStep g goal ([], visited, best) = ([], visited, best) from rfl,
        dfsStep_empty_fix]
      rfl
    | path :: rest =>
      cases hL : path.getLast? with
      | none =>
        rw [show dfsStep g goal (path :: rest, visited, best) = ([], visited, best)
            from by simp [dfsStep, hL], dfsStep_empty_fix]
        simp [dfsLoop, hL]
      | some current =>
        by_cases hv : current ∈ visited
        · rw [show dfsStep g goal (path :: rest, visited, best) = (rest, visited, best)
              from by simp [dfsStep, hL, hv], ← ih]
          simp [dfsLoop, hL, hv]
        · rw [show dfsStep g goal (path :: rest, visited, best)
              = ((g.valid_neighbors current).foldl (fun st n => (path ++ [n]) :: st) rest,
                  current :: visited,
                  if current = goal ∧ best.length < path.length then path else best)
              from by simp [dfsStep, hL, hv], ← ih]
          simp [dfsLoop, hL, hv]

set_option maxRecDepth 100000 in
/-- The sample text parses to `sampleIsland`. -/
theorem sample_fromStr : fromStr sampleText = .ok sampleIsland := by decide

set_option maxRecDepth 100000 in
/-- The goal vertex of the sample grid. -/
theorem sample_goalPoint : sampleIsland.goalPoint = sampleGoal := by decide

set_option maxRecDepth 100000 in
/-- The fuel `dfs` passes for the sample grid, split for chunked evaluation. -/
theorem sample_fuel :
    4 * sampleIsland.grid.length + 8 = 1699 + (85 + (85 + (85 + (85 + 85)))) := by decide

set_option maxRecDepth 100000 in
set_option maxHeartbeats 2000000 in
/-- Sample-grid DFS, loop iterations 1 to 85. -/
theorem sample_chunk1 :
    (dfsStep sampleIsland sampleGoal)^[85] ([[startPoint]], [], []) = sampleState85 := by
  decide

set_option maxRecDepth 100000 in
set_option maxHeartbeats 2000000 in
/-- Sample-grid DFS, loop iterations 86 to 170. -/
theorem sample_chunk2 :
    (dfsStep sampleIsland sampleGoal)^[85] sampleState85 = sampleState170 := by decide

set_option maxRecDepth 100000 in
set_option maxHeartbeats 2000000 in
/-- Sample-grid DFS, loop iterations 171 to 255. -/
theorem sample_chunk3 :
    (dfsStep sampleIsland sampleGoal)^[85] sampleState170 = sampleState255 := by decide

set_option maxRecDepth 100000 in
set_option maxHeartbeats 2000000 in
/-- Sample-grid DFS, loop iterations 256 to 340. -/
theorem sample_chunk4 :
    (dfsStep sampleIsland sampleGoal)^[85] sampleState255 = sampleState340 := by decide

set_option maxRecDepth 100000 in
set_option maxHeartbeats 2000000 in
/-- Sample-grid DFS, loop iterations 341 to 425 (the stack empties after
iteration 411). -/
theorem sample_chunk5 :
    (dfsStep sampleIsland sampleGoal)^[85] sampleState340 = sampleState425 := by decide

/-- The DFS on the sample grid returns `samplePath` (83 vertices). -/
theorem sample_dfs_eval : sampleIsland.dfs startPoint sampleGoal = samplePath := by
  show dfsLoop sampleIsland sampleGoal (4 * sampleIsland.grid.length + 8)
      [[startPoint]] [] [] = samplePath
  rw [dfsLoop_eq_iterate, sample_fuel, Function.iterate_add_apply,
    Function.iterate_add_apply, Function.iterate_add_apply,
    Function.iterate_add_apply, Function.iterate_add_apply,
    sample_chunk1, sample_chunk2, sample_chunk3, sample_chunk4, sample_chunk5]
  simp only [sampleState425]
  rw [dfsStep_empty_fix]

set_option maxRecDepth 100000 in
/-- C1: on the canonical 23-line sample grid the code's search returns a
best path of 83 vertices, so `longest_path` evaluates to `82` — not the `94`
that the spec and the source's own `test_1_sample` expect (the single global
visited set prunes the branches that the true longest simple path, of 94
steps, must take). -/
theorem longest_path_sample_eval :
    (fromStr sampleText).map SnowIsland.longest_path = .ok (some 82) := by
  rw [sample_fromStr]
  show Except.ok (sampleIsland.longest_path) = Except.ok (some 82)
  have h : sampleIsland.longest_path = some 82 := by
    unfold SnowIsland.longest_path
    rw [sample_goalPoint, sample_dfs_eval]
    decide
  rw [h]

end Snow
